import Mathlib

/-!
# Problem-file loaders of `problemStructs.hpp`

A shallow embedding of the four `loadFile` methods of
`KITTI/mutliView/code/ceres/problemStructs.hpp`
(`SingleViewPoseAdjustmentProblem`, `GroundPlaneAdjustmentProblem`,
`SingleViewShapeAdjustmentProblem`, `MultiViewShapeandPoseAdjuster`) and of the
helper `fscanfOrDie`, followed by theorems about them.

Modelling conventions.

* An opened file is the list of its whitespace-separated lexemes that have not
  been consumed yet (`FileStream`).  `fscanf` with `%d` or `%lf` skips white space and
  then consumes the longest run of characters of the next lexeme that the
  conversion accepts; what is left of the lexeme stays at the head of the
  stream.
* `%lf` reads what the C library of the platform reads: decimal and
  hexadecimal text (an exponent marker, and a sign after it, are read also when
  no exponent digit follows), `inf`, `infinity` and `nan` in any mix of cases.
  A finite `double` is the rational number that its text denotes; rounding to
  binary64, with overflow to an infinity and the sign of a zero, is the same
  function on every value read and is not modelled.
* An `int` is an integer between `INT_MIN` and `INT_MAX`; signed overflow and
  stores outside an array are undefined behaviour (`Outcome.undefined`).
* `new double[n]` yields `n` uninitialised cells (`none`); a negative `n` makes
  `new` throw (`Outcome.badAlloc`).  Exhaustion of memory is not modelled.
* The index of a store is computed exactly and checked against the array;
  whenever it is inside the array every intermediate product of the source
  expression is below the array length, so no `int` overflows there.
* `LOG(FATAL)` terminates the process (`Outcome.fatal`).
-/

/-! ## Values of type `double` -/

/-- A value of type `double`, as far as the text of a file determines it: a
finite number (the rational that the text denotes), an infinity or a NaN, the
last two with their sign. -/
inductive Double where
  | fin (q : ℚ)
  | inf (neg : Bool)
  | nan (neg : Bool)
  deriving DecidableEq

instance {n : Nat} : OfNat Double n := ⟨.fin n⟩

instance : OfScientific Double := ⟨fun m s e => .fin (OfScientific.ofScientific m s e)⟩

instance : Neg Double :=
  ⟨fun d => match d with
    | .fin q => .fin (-q)
    | .inf b => .inf (!b)
    | .nan b => .nan (!b)⟩

/-- The conversion of an `int` to `double`. -/
def Double.ofInt (z : Int) : Double := .fin z

/-! ## Text of a file -/

/-- A maximal run of characters of the file that are not white space. -/
abbrev Lexeme := List Char

/-- The position of a `FILE*`: the lexemes that have not been consumed yet. -/
abbrev FileStream := List Lexeme

/-- Splits off the longest run of decimal digits at the front of a text. -/
def digitsOf : List Char → List Char × List Char
  | [] => ([], [])
  | c :: cs => if c.isDigit then ((digitsOf cs).1.cons c, (digitsOf cs).2) else ([], c :: cs)

/-- The number written by a run of decimal digits. -/
def natOfDigits (ds : List Char) : Nat :=
  ds.foldl (fun a c => 10 * a + (c.toNat - 48)) 0

/-- Reads an optional sign; the flag says whether it was a minus sign. -/
def signOf : List Char → Bool × List Char
  | '-' :: cs => (true, cs)
  | '+' :: cs => (false, cs)
  | cs => (false, cs)

/-- The conversion `%d` on one lexeme: an optional sign and a non-empty run of
digits.  Returns the integer and the unread rest of the lexeme, or `none` on a
matching failure. -/
def scanInt (l : Lexeme) : Option (Int × Lexeme) :=
  if (digitsOf (signOf l).2).1 = [] then none
  else
    some (if (signOf l).1 then - (natOfDigits (digitsOf (signOf l).2).1 : Int)
          else (natOfDigits (digitsOf (signOf l).2).1 : Int),
          (digitsOf (signOf l).2).2)

/-- Whether the character is a hexadecimal digit. -/
def isHexDigit (c : Char) : Bool :=
  c.isDigit || (97 ≤ c.toNat && c.toNat ≤ 102) || (65 ≤ c.toNat && c.toNat ≤ 70)

/-- Splits off the longest run of hexadecimal digits at the front of a text. -/
def hexDigitsOf : List Char → List Char × List Char
  | [] => ([], [])
  | c :: cs =>
    if isHexDigit c then ((hexDigitsOf cs).1.cons c, (hexDigitsOf cs).2) else ([], c :: cs)

/-- The number written by a run of hexadecimal digits. -/
def natOfHexDigits (ds : List Char) : Nat :=
  ds.foldl (fun a c => 16 * a +
    (if c.isDigit then c.toNat - 48 else if 97 ≤ c.toNat then c.toNat - 87 else c.toNat - 55)) 0

/-- The text after the word `w` (given in lower case) when the text begins with
`w` in any mix of cases. -/
def afterWord : List Char → List Char → Option (List Char)
  | [], s => some s
  | _ :: _, [] => none
  | p :: ps, c :: cs => if c.toLower = p then afterWord ps cs else none

/-- The fraction part: nothing, or a point followed by a run of digits (the
point is read also when no digit follows). -/
def fracOf (digits : List Char → List Char × List Char) : List Char → List Char × List Char
  | '.' :: cs => digits cs
  | cs => ([], cs)

/-- Whether the text begins with a point. -/
def hasPoint : List Char → Bool
  | '.' :: _ => true
  | _ => false

/-- The exponent part after a mantissa with a digit: nothing, or the marker
(`e` for decimal, `p` for hexadecimal text, in either case) with an optional
sign right after it and a run of decimal digits.  The marker and the sign are
read also when no digit follows; the exponent is then 0. -/
def scanExp (marker : Char) : List Char → Int × List Char
  | [] => (0, [])
  | c :: cs =>
    if c.toLower = marker then
      (if (digitsOf (signOf cs).2).1 = [] then 0
       else if (signOf cs).1 then - (natOfDigits (digitsOf (signOf cs).2).1 : Int)
       else (natOfDigits (digitsOf (signOf cs).2).1 : Int),
       (digitsOf (signOf cs).2).2)
    else (0, c :: cs)

/-- Decimal text after the sign: digits with an optional point, at least one
digit, and an optional exponent. -/
def scanDecimal (neg : Bool) (s : List Char) : Option (Double × Lexeme) :=
  let ip := (digitsOf s).1
  let fp := (fracOf digitsOf (digitsOf s).2).1
  if ip = [] ∧ fp = [] then none
  else
    let x := scanExp 'e' (fracOf digitsOf (digitsOf s).2).2
    let m : Int := natOfDigits (ip ++ fp)
    some (.fin (mkRat ((if neg then -m else m) * 10 ^ x.1.toNat)
            (10 ^ (fp.length + (-x.1).toNat))), x.2)

/-- Hexadecimal text after the sign and `0x`: hexadecimal digits with an
optional point and an optional binary exponent.  With a point and no digit the
value is that of the `0` before the `x`; with neither it is a matching
failure. -/
def scanHex (neg : Bool) (s : List Char) : Option (Double × Lexeme) :=
  let ip := (hexDigitsOf s).1
  let fp := (fracOf hexDigitsOf (hexDigitsOf s).2).1
  if ip = [] ∧ fp = [] then
    if hasPoint (hexDigitsOf s).2 then some (.fin 0, (fracOf hexDigitsOf (hexDigitsOf s).2).2)
    else none
  else
    let x := scanExp 'p' (fracOf hexDigitsOf (hexDigitsOf s).2).2
    let m : Int := natOfHexDigits (ip ++ fp)
    some (.fin (mkRat ((if neg then -m else m) * 2 ^ x.1.toNat)
            (16 ^ fp.length * 2 ^ (-x.1).toNat)), x.2)

/-- The text after `inf`: `inity` must follow an `i`. -/
def scanInf (neg : Bool) (r : List Char) : Option (Double × Lexeme) :=
  match r with
  | [] => some (.inf neg, [])
  | d :: ds =>
    if d.toLower = 'i' then (afterWord ['n', 'i', 't', 'y'] ds).map fun r2 => (Double.inf neg, r2)
    else some (.inf neg, d :: ds)

/-- The conversion `%lf` on one lexeme, as the C library reads it: an optional
sign, then `nan`, or `inf` (with `inity` when an `i` follows), or hexadecimal
text after `0x`, or decimal text, letters in either case.  Returns the value
and the unread rest of the lexeme, or `none` on a matching failure. -/
def scanDouble (l : Lexeme) : Option (Double × Lexeme) :=
  match (signOf l).2 with
  | [] => none
  | c :: cs =>
    if c.toLower = 'n' then
      (afterWord ['a', 'n'] cs).map fun r => (Double.nan (signOf l).1, r)
    else if c.toLower = 'i' then
      (afterWord ['n', 'f'] cs).bind (scanInf (signOf l).1)
    else if c = '0' ∧ (cs.head?.map Char.toLower) = some 'x' then scanHex (signOf l).1 cs.tail
    else scanDecimal (signOf l).1 (c :: cs)

/-- The stream after a conversion consumed part of its first lexeme: the rest of
that lexeme, when there is one, is still to be read. -/
def putBack (r : Lexeme) (rest : FileStream) : FileStream :=
  match r with
  | [] => rest
  | c :: cs => (c :: cs) :: rest

/-- The call `fscanf(fptr, "%d", value)`: `some` when it returns 1. -/
def fscanfInt : FileStream → Option (Int × FileStream)
  | [] => none
  | l :: rest =>
    match scanInt l with
    | none => none
    | some (z, r) => some (z, putBack r rest)

/-- The call `fscanf(fptr, "%lf", value)`: `some` when it returns 1. -/
def fscanfDouble : FileStream → Option (Double × FileStream)
  | [] => none
  | l :: rest =>
    match scanDouble l with
    | none => none
    | some (q, r) => some (q, putBack r rest)

/-! ## Outcomes and the loading monad -/

/-- How a run of code ends. -/
inductive Outcome (α : Type) where
  /-- Normal completion. -/
  | ok (a : α)
  /-- The process was terminated by `LOG(FATAL) << "Invalid data file"`. -/
  | fatal
  /-- An array `new` with a negative length threw. -/
  | badAlloc
  /-- Undefined behaviour: signed overflow, a store outside an array, or a `%d`
  whose value does not fit an `int`. -/
  | undefined
  deriving DecidableEq

/-- Code that reads from the open file. -/
def Load (α : Type) : Type := FileStream → Outcome (α × FileStream)

/-- Sequencing of two pieces of loading code. -/
def Load.bind {α β : Type} (m : Load α) (f : α → Load β) : Load β := fun s =>
  match m s with
  | .ok (a, s') => f a s'
  | .fatal => .fatal
  | .badAlloc => .badAlloc
  | .undefined => .undefined

instance : Monad Load where
  pure a := fun s => .ok (a, s)
  bind := Load.bind

/-- Smallest value of an `int`. -/
def INT_MIN : Int := -2147483648

/-- Largest value of an `int`. -/
def INT_MAX : Int := 2147483647

/-- An array of `double`; `none` is a cell that was never written. -/
abbrev DoubleArray := List (Option Double)

/-- Reads one `int` or dies: `fscanfOrDie(fptr, "%d", value)`. -/
def fscanfOrDieInt : Load Int := fun s =>
  match fscanfInt s with
  | none => .fatal
  | some (z, s') => if INT_MIN ≤ z ∧ z ≤ INT_MAX then .ok (z, s') else .undefined

/-- Reads one `double` or dies: `fscanfOrDie(fptr, "%lf", value)`. -/
def fscanfOrDieDouble : Load Double := fun s =>
  match fscanfDouble s with
  | none => .fatal
  | some (q, s') => .ok (q, s')

/-- Multiplication of two `int`s. -/
def imul (a b : Int) : Load Int := fun s =>
  if INT_MIN ≤ a * b ∧ a * b ≤ INT_MAX then .ok (a * b, s) else .undefined

/-- The expression `new double[n]`. -/
def newDouble (n : Int) : Load DoubleArray := fun s =>
  if n < 0 then .badAlloc else .ok (List.replicate n.toNat none, s)

/-- A store `a[i] = v` through a pointer into the array `a`. -/
def store (a : DoubleArray) (i : Int) (v : Double) : Load DoubleArray := fun s =>
  if 0 ≤ i ∧ i < a.length then .ok (a.set i.toNat (some v), s) else .undefined

/-- The statement `fscanfOrDie(fptr, "%lf", a + i)`. -/
def scanInto (a : DoubleArray) (i : Int) : Load DoubleArray := do
  let v ← fscanfOrDieDouble
  store a i v

/-- Runs `body i`, `body (i+1)`, ... for `k` iterations. -/
def forFrom {σ : Type} (body : Nat → σ → Load σ) : Nat → Nat → σ → Load σ
  | _, 0, a => pure a
  | i, k + 1, a => do
    let a ← body i a
    forFrom body (i + 1) k a

/-- The loop `for (int i = 0; i < n; ++i) body`. -/
def forLoop {σ : Type} (n : Int) (body : Nat → σ → Load σ) (a : σ) : Load σ :=
  forFrom body 0 n.toNat a

/-- What `loadFile` does after its body ran on the opened file: `return true`. -/
def returnTrue {α : Type} (r : Outcome (α × FileStream)) : Outcome (Bool × α) :=
  match r with
  | .ok (p, _) => .ok (true, p)
  | .fatal => .fatal
  | .badAlloc => .badAlloc
  | .undefined => .undefined

/-! ## `SingleViewPoseAdjustmentProblem` -/

/-- The private variables of `SingleViewPoseAdjustmentProblem`. -/
structure SingleViewPoseAdjustmentProblem where
  numPts_ : Int
  carCenter_ : DoubleArray
  h_ : Double
  w_ : Double
  l_ : Double
  K_ : DoubleArray
  observations_ : DoubleArray
  observationWeights_ : DoubleArray
  X_bar_ : DoubleArray
  numVec_ : Int
  V_ : DoubleArray
  lambdas_ : DoubleArray
  carCenter3D_ : DoubleArray
  deriving DecidableEq

namespace SingleViewPoseAdjustmentProblem

def getNumPts (self : SingleViewPoseAdjustmentProblem) : Int := self.numPts_
def getCarCenter (self : SingleViewPoseAdjustmentProblem) : DoubleArray := self.carCenter_
def getCarHeight (self : SingleViewPoseAdjustmentProblem) : Double := self.h_
def getCarWidth (self : SingleViewPoseAdjustmentProblem) : Double := self.w_
def getCarLength (self : SingleViewPoseAdjustmentProblem) : Double := self.l_
def observations (self : SingleViewPoseAdjustmentProblem) : DoubleArray := self.observations_
def observationWeights (self : SingleViewPoseAdjustmentProblem) : DoubleArray :=
  self.observationWeights_
def getK (self : SingleViewPoseAdjustmentProblem) : DoubleArray := self.K_
def getX_bar (self : SingleViewPoseAdjustmentProblem) : DoubleArray := self.X_bar_
def getNumVec (self : SingleViewPoseAdjustmentProblem) : Int := self.numVec_
def getV (self : SingleViewPoseAdjustmentProblem) : DoubleArray := self.V_
def getLambdas (self : SingleViewPoseAdjustmentProblem) : DoubleArray := self.lambdas_

/-- The body of `loadFile` after the file was opened. -/
def loadStream (self : SingleViewPoseAdjustmentProblem) :
    Load SingleViewPoseAdjustmentProblem := do
  -- numPts
  let numPts_ ← fscanfOrDieInt
  -- Center of the car
  let carCenter_ ← newDouble 3
  let carCenter_ ← scanInto carCenter_ 0
  let carCenter_ ← scanInto carCenter_ 1
  let carCenter_ ← scanInto carCenter_ 2
  -- Height, Width, and Length of the Car
  let h_ ← fscanfOrDieDouble
  let w_ ← fscanfOrDieDouble
  let l_ ← fscanfOrDieDouble
  -- Camera intrinsics
  let K_ ← newDouble 9
  let K_ ← forLoop 9 (fun i a => scanInto a (i : Int)) K_
  -- Observations
  let n ← imul 2 numPts_
  let observations_ ← newDouble n
  let observations_ ← forLoop numPts_ (fun i a =>
    forLoop 2 (fun j a => scanInto a ((i : Int) * 2 + (j : Int))) a) observations_
  -- Observation weights
  let observationWeights_ ← newDouble numPts_
  let observationWeights_ ← forLoop numPts_ (fun i a => scanInto a (i : Int)) observationWeights_
  -- Mean locations
  let n ← imul 3 numPts_
  let X_bar_ ← newDouble n
  let X_bar_ ← forLoop numPts_ (fun i a =>
    forLoop 3 (fun j a => scanInto a ((i : Int) * 3 + (j : Int))) a) X_bar_
  let numVec_ ← fscanfOrDieInt
  -- Read in the eigenvectors for the shape
  let n ← imul numVec_ 3
  let n ← imul n numPts_
  let V_ ← newDouble n
  let V_ ← forLoop numVec_ (fun i a =>
    forLoop numPts_ (fun j a => do
      let a ← scanInto a ((i : Int) * 3 * numPts_ + 3 * (j : Int) + 0)
      let a ← scanInto a ((i : Int) * 3 * numPts_ + 3 * (j : Int) + 1)
      scanInto a ((i : Int) * 3 * numPts_ + 3 * (j : Int) + 2)) a) V_
  -- Read in the initial values for lambdas
  let lambdas_ ← newDouble numVec_
  let lambdas_ ← forLoop numVec_ (fun i a => scanInto a (i : Int)) lambdas_
  pure { self with
    numPts_ := numPts_, carCenter_ := carCenter_, h_ := h_, w_ := w_, l_ := l_, K_ := K_,
    observations_ := observations_, observationWeights_ := observationWeights_,
    X_bar_ := X_bar_, numVec_ := numVec_, V_ := V_, lambdas_ := lambdas_ }

/-- The method `loadFile`; `fptr` is what `fopen(fileName, "r")` returned, `none`
for `NULL`.  The result is the returned flag and the instance afterwards. -/
def loadFile (self : SingleViewPoseAdjustmentProblem) (fptr : Option FileStream) :
    Outcome (Bool × SingleViewPoseAdjustmentProblem) :=
  match fptr with
  | none => .ok (false, self)
  | some s => returnTrue (loadStream self s)

end SingleViewPoseAdjustmentProblem

/-! ## `GroundPlaneAdjustmentProblem` -/

/-- The private variables of `GroundPlaneAdjustmentProblem`. -/
structure GroundPlaneAdjustmentProblem where
  numViews_ : Int
  numPoints_ : Int
  K_ : DoubleArray
  Rs_ : DoubleArray
  ts_ : DoubleArray
  Xs_ : DoubleArray
  xs_ : DoubleArray
  plane_ : DoubleArray
  deriving DecidableEq

namespace GroundPlaneAdjustmentProblem

/-- The accessor returns the `int` converted to `double`. -/
def getNumViews (self : GroundPlaneAdjustmentProblem) : Double := Double.ofInt self.numViews_
/-- The accessor returns the `int` converted to `double`. -/
def getNumPts (self : GroundPlaneAdjustmentProblem) : Double := Double.ofInt self.numPoints_
def get3DPts (self : GroundPlaneAdjustmentProblem) : DoubleArray := self.Xs_
def get2DPts (self : GroundPlaneAdjustmentProblem) : DoubleArray := self.xs_
def getK (self : GroundPlaneAdjustmentProblem) : DoubleArray := self.K_
def getRs (self : GroundPlaneAdjustmentProblem) : DoubleArray := self.Rs_
def getts (self : GroundPlaneAdjustmentProblem) : DoubleArray := self.ts_
def getPlaneParameters (self : GroundPlaneAdjustmentProblem) : DoubleArray := self.plane_

/-- The body of `loadFile` after the file was opened. -/
def loadStream (_self : GroundPlaneAdjustmentProblem) : Load GroundPlaneAdjustmentProblem := do
  -- Read number of views and points.
  let numViews_ ← fscanfOrDieInt
  let numPoints_ ← fscanfOrDieInt
  -- Read K matrix
  let K_ ← newDouble 9
  let K_ ← forLoop 9 (fun i a => scanInto a (i : Int)) K_
  -- Read 3D points
  let n ← imul 3 numPoints_
  let Xs_ ← newDouble n
  let Xs_ ← forLoop numPoints_ (fun i a =>
    forLoop 3 (fun j a => scanInto a (3 * (i : Int) + (j : Int))) a) Xs_
  -- Read R and t
  let n ← imul 9 numViews_
  let Rs_ ← newDouble n
  let Rs_ ← forLoop numViews_ (fun i a =>
    forLoop 9 (fun j a => scanInto a (9 * (i : Int) + (j : Int))) a) Rs_
  let n ← imul 3 numViews_
  let ts_ ← newDouble n
  let ts_ ← forLoop numViews_ (fun i a =>
    forLoop 3 (fun j a => scanInto a (3 * (i : Int) + (j : Int))) a) ts_
  -- Read 2D points
  let n ← imul 2 numPoints_
  let n ← imul n numViews_
  let xs_ ← newDouble n
  let xs_ ← forLoop numViews_ (fun i a =>
    forLoop numPoints_ (fun j a =>
      forLoop 2 (fun k a =>
        scanInto a ((i : Int) * 2 * numPoints_ + 2 * (j : Int) + (k : Int))) a) a) xs_
  -- Read the ground plane parameters
  let plane_ ← newDouble 4
  let plane_ ← forLoop 4 (fun i a => scanInto a (i : Int)) plane_
  pure { numViews_ := numViews_, numPoints_ := numPoints_, K_ := K_, Rs_ := Rs_, ts_ := ts_,
         Xs_ := Xs_, xs_ := xs_, plane_ := plane_ }

/-- The method `loadFile`; `fptr` is what `fopen(fileName, "r")` returned, `none`
for `NULL`.  The result is the returned flag and the instance afterwards. -/
def loadFile (self : GroundPlaneAdjustmentProblem) (fptr : Option FileStream) :
    Outcome (Bool × GroundPlaneAdjustmentProblem) :=
  match fptr with
  | none => .ok (false, self)
  | some s => returnTrue (loadStream self s)

end GroundPlaneAdjustmentProblem

/-! ## `SingleViewShapeAdjustmentProblem` -/

/-- The private variables of `SingleViewShapeAdjustmentProblem`. -/
structure SingleViewShapeAdjustmentProblem where
  numPts_ : Int
  carCenter_ : DoubleArray
  h_ : Double
  w_ : Double
  l_ : Double
  K_ : DoubleArray
  observations_ : DoubleArray
  observationWeights_ : DoubleArray
  X_bar_ : DoubleArray
  numVec_ : Int
  V_ : DoubleArray
  lambdas_ : DoubleArray
  rot_ : DoubleArray
  trans_ : DoubleArray
  deriving DecidableEq

namespace SingleViewShapeAdjustmentProblem

def getNumPts (self : SingleViewShapeAdjustmentProblem) : Int := self.numPts_
def getCarCenter (self : SingleViewShapeAdjustmentProblem) : DoubleArray := self.carCenter_
def getCarHeight (self : SingleViewShapeAdjustmentProblem) : Double := self.h_
def getCarWidth (self : SingleViewShapeAdjustmentProblem) : Double := self.w_
def getCarLength (self : SingleViewShapeAdjustmentProblem) : Double := self.l_
def observations (self : SingleViewShapeAdjustmentProblem) : DoubleArray := self.observations_
def observationWeights (self : SingleViewShapeAdjustmentProblem) : DoubleArray :=
  self.observationWeights_
def getK (self : SingleViewShapeAdjustmentProblem) : DoubleArray := self.K_
def getX_bar (self : SingleViewShapeAdjustmentProblem) : DoubleArray := self.X_bar_
def getNumVec (self : SingleViewShapeAdjustmentProblem) : Int := self.numVec_
def getV (self : SingleViewShapeAdjustmentProblem) : DoubleArray := self.V_
def getLambdas (self : SingleViewShapeAdjustmentProblem) : DoubleArray := self.lambdas_
def getRot (self : SingleViewShapeAdjustmentProblem) : DoubleArray := self.rot_
def getTrans (self : SingleViewShapeAdjustmentProblem) : DoubleArray := self.trans_

/-- The body of `loadFile` after the file was opened. -/
def loadStream (_self : SingleViewShapeAdjustmentProblem) :
    Load SingleViewShapeAdjustmentProblem := do
  let numPts_ ← fscanfOrDieInt
  -- Center of the car
  let carCenter_ ← newDouble 3
  let carCenter_ ← scanInto carCenter_ 0
  let carCenter_ ← scanInto carCenter_ 1
  let carCenter_ ← scanInto carCenter_ 2
  -- Height, Width, and Length of the Car
  let h_ ← fscanfOrDieDouble
  let w_ ← fscanfOrDieDouble
  let l_ ← fscanfOrDieDouble
  -- Camera intrinsics
  let K_ ← newDouble 9
  let K_ ← forLoop 9 (fun i a => scanInto a (i : Int)) K_
  -- Observations
  let n ← imul 2 numPts_
  let observations_ ← newDouble n
  let observations_ ← forLoop numPts_ (fun i a =>
    forLoop 2 (fun j a => scanInto a ((i : Int) * 2 + (j : Int))) a) observations_
  -- Observation weights
  let observationWeights_ ← newDouble numPts_
  let observationWeights_ ← forLoop numPts_ (fun i a => scanInto a (i : Int)) observationWeights_
  -- Mean locations
  let n ← imul 3 numPts_
  let X_bar_ ← newDouble n
  let X_bar_ ← forLoop numPts_ (fun i a =>
    forLoop 3 (fun j a => scanInto a ((i : Int) * 3 + (j : Int))) a) X_bar_
  let numVec_ ← fscanfOrDieInt
  -- Read in the eigenvectors for the shape
  let n ← imul numVec_ 3
  let n ← imul n numPts_
  let V_ ← newDouble n
  let V_ ← forLoop numVec_ (fun i a =>
    forLoop numPts_ (fun j a => do
      let a ← scanInto a ((i : Int) * 3 * numPts_ + 3 * (j : Int) + 0)
      let a ← scanInto a ((i : Int) * 3 * numPts_ + 3 * (j : Int) + 1)
      scanInto a ((i : Int) * 3 * numPts_ + 3 * (j : Int) + 2)) a) V_
  -- Read in the initial values for lambdas
  let lambdas_ ← newDouble numVec_
  let lambdas_ ← forLoop numVec_ (fun i a => scanInto a (i : Int)) lambdas_
  -- Read in the rotation estimate (from PnP)
  let rot_ ← newDouble 9
  let rot_ ← forLoop 9 (fun i a => scanInto a (i : Int)) rot_
  -- Read in the translation estimate (from PnP)
  let trans_ ← newDouble 3
  let trans_ ← forLoop 3 (fun i a => scanInto a (i : Int)) trans_
  pure { numPts_ := numPts_, carCenter_ := carCenter_, h_ := h_, w_ := w_, l_ := l_, K_ := K_,
         observations_ := observations_, observationWeights_ := observationWeights_,
         X_bar_ := X_bar_, numVec_ := numVec_, V_ := V_, lambdas_ := lambdas_,
         rot_ := rot_, trans_ := trans_ }

/-- The method `loadFile`; `fptr` is what `fopen(fileName, "r")` returned, `none`
for `NULL`.  The result is the returned flag and the instance afterwards. -/
def loadFile (self : SingleViewShapeAdjustmentProblem) (fptr : Option FileStream) :
    Outcome (Bool × SingleViewShapeAdjustmentProblem) :=
  match fptr with
  | none => .ok (false, self)
  | some s => returnTrue (loadStream self s)

end SingleViewShapeAdjustmentProblem

/-! ## `MultiViewShapeandPoseAdjuster` -/

/-- The private variables of `MultiViewShapeandPoseAdjuster`. -/
structure MultiViewShapeandPoseAdjuster where
  numViews_ : Int
  numPts_ : Int
  numObs_ : Int
  carCenter_ : DoubleArray
  h_ : Double
  w_ : Double
  l_ : Double
  K_ : DoubleArray
  observations_ : DoubleArray
  observationWeights_ : DoubleArray
  X_bar_ : DoubleArray
  numVec_ : Int
  V_ : DoubleArray
  lambdas_ : DoubleArray
  rot_ : DoubleArray
  trans_ : DoubleArray
  deriving DecidableEq

namespace MultiViewShapeandPoseAdjuster

def getNumViews (self : MultiViewShapeandPoseAdjuster) : Int := self.numViews_
def getNumObs (self : MultiViewShapeandPoseAdjuster) : Int := self.numObs_
def getNumPts (self : MultiViewShapeandPoseAdjuster) : Int := self.numPts_
def getCarCenter (self : MultiViewShapeandPoseAdjuster) : DoubleArray := self.carCenter_
def getCarHeight (self : MultiViewShapeandPoseAdjuster) : Double := self.h_
def getCarWidth (self : MultiViewShapeandPoseAdjuster) : Double := self.w_
def getCarLength (self : MultiViewShapeandPoseAdjuster) : Double := self.l_
def observations (self : MultiViewShapeandPoseAdjuster) : DoubleArray := self.observations_
def observationWeights (self : MultiViewShapeandPoseAdjuster) : DoubleArray :=
  self.observationWeights_
def getK (self : MultiViewShapeandPoseAdjuster) : DoubleArray := self.K_
def getX_bar (self : MultiViewShapeandPoseAdjuster) : DoubleArray := self.X_bar_
def getNumVec (self : MultiViewShapeandPoseAdjuster) : Int := self.numVec_
def getV (self : MultiViewShapeandPoseAdjuster) : DoubleArray := self.V_
def getLambdas (self : MultiViewShapeandPoseAdjuster) : DoubleArray := self.lambdas_
def getRotations (self : MultiViewShapeandPoseAdjuster) : DoubleArray := self.rot_
def getTranslations (self : MultiViewShapeandPoseAdjuster) : DoubleArray := self.trans_

/-- The body of `loadFile` after the file was opened. -/
def loadStream (_self : MultiViewShapeandPoseAdjuster) : Load MultiViewShapeandPoseAdjuster := do
  -- numViews, numPts, numObs
  let numViews_ ← fscanfOrDieInt
  let numPts_ ← fscanfOrDieInt
  let numObs_ ← fscanfOrDieInt
  -- Height, Width, and Length of the Car
  let h_ ← fscanfOrDieDouble
  let w_ ← fscanfOrDieDouble
  let l_ ← fscanfOrDieDouble
  -- Camera intrinsics
  let K_ ← newDouble 9
  let K_ ← forLoop 9 (fun i a => scanInto a (i : Int)) K_
  -- Center of the car
  let n ← imul numViews_ 3
  let carCenter_ ← newDouble n
  let carCenter_ ← forLoop numViews_ (fun i a => do
    let a ← scanInto a (3 * (i : Int) + 0)
    let a ← scanInto a (3 * (i : Int) + 1)
    scanInto a (3 * (i : Int) + 2)) carCenter_
  -- Keypoint Observations
  let n ← imul numViews_ 2
  let n ← imul n numObs_
  let observations_ ← newDouble n
  let observations_ ← forLoop numViews_ (fun i a =>
    forLoop numObs_ (fun j a =>
      forLoop 2 (fun k a =>
        scanInto a ((i : Int) * numObs_ * 2 + (j : Int) * 2 + (k : Int))) a) a) observations_
  -- Observation weights
  let n ← imul numViews_ numObs_
  let observationWeights_ ← newDouble n
  let observationWeights_ ← forLoop numViews_ (fun i a =>
    forLoop numObs_ (fun j a => scanInto a ((i : Int) * numObs_ + (j : Int))) a)
    observationWeights_
  -- Mean locations
  let n ← imul numViews_ 3
  let n ← imul n numObs_
  let X_bar_ ← newDouble n
  let X_bar_ ← forLoop numViews_ (fun i a =>
    forLoop numObs_ (fun j a =>
      forLoop 3 (fun k a =>
        scanInto a ((i : Int) * 3 * numObs_ + (j : Int) * 3 + (k : Int))) a) a) X_bar_
  -- Read the number of eigen vectors
  let numVec_ ← fscanfOrDieInt
  -- Read in the eigenvectors for the shape
  let n ← imul numViews_ numVec_
  let n ← imul n 3
  let n ← imul n numPts_
  let V_ ← newDouble n
  let V_ ← forLoop numViews_ (fun i a =>
    forLoop numVec_ (fun j a =>
      forLoop numPts_ (fun k a => do
        let a ← scanInto a
          ((i : Int) * 3 * numVec_ * numPts_ + (j : Int) * 3 * numPts_ + 3 * (k : Int) + 0)
        let a ← scanInto a
          ((i : Int) * 3 * numVec_ * numPts_ + (j : Int) * 3 * numPts_ + 3 * (k : Int) + 1)
        scanInto a
          ((i : Int) * 3 * numVec_ * numPts_ + (j : Int) * 3 * numPts_ + 3 * (k : Int) + 2))
        a) a) V_
  -- Read in the initial values for lambdas
  let lambdas_ ← newDouble numVec_
  let lambdas_ ← forLoop numVec_ (fun i a => scanInto a (i : Int)) lambdas_
  -- Read in the rotation estimate (from PnP)
  let n ← imul numViews_ 9
  let rot_ ← newDouble n
  let rot_ ← forLoop numViews_ (fun i a =>
    forLoop 9 (fun j a => scanInto a ((i : Int) * 9 + (j : Int))) a) rot_
  -- Read in the translation estimate (from PnP)
  let n ← imul numViews_ 3
  let trans_ ← newDouble n
  let trans_ ← forLoop numViews_ (fun i a =>
    forLoop 3 (fun j a => scanInto a ((i : Int) * 3 + (j : Int))) a) trans_
  pure { numViews_ := numViews_, numPts_ := numPts_, numObs_ := numObs_,
         carCenter_ := carCenter_, h_ := h_, w_ := w_, l_ := l_, K_ := K_,
         observations_ := observations_, observationWeights_ := observationWeights_,
         X_bar_ := X_bar_, numVec_ := numVec_, V_ := V_, lambdas_ := lambdas_,
         rot_ := rot_, trans_ := trans_ }

/-- The method `loadFile`; `fptr` is what `fopen(fileName, "r")` returned, `none`
for `NULL`.  The result is the returned flag and the instance afterwards. -/
def loadFile (self : MultiViewShapeandPoseAdjuster) (fptr : Option FileStream) :
    Outcome (Bool × MultiViewShapeandPoseAdjuster) :=
  match fptr with
  | none => .ok (false, self)
  | some s => returnTrue (loadStream self s)

end MultiViewShapeandPoseAdjuster

/-! ## Values read from a file -/

/-- A value delivered by one conversion of `fscanf`: an `int` by `%d`, a
`double` by `%lf`. -/
inductive Tok where
  | int (z : Int)
  | dbl (q : Double)
  deriving DecidableEq

/-- One conversion, of the kind of `tok`, at the front of `s` delivers exactly
the value `tok`; the result is the stream after the conversion. -/
def scanTok (tok : Tok) (s : FileStream) : Option FileStream :=
  match tok with
  | .int z =>
    match fscanfInt s with
    | none => none
    | some (z', s') => if z' = z then some s' else none
  | .dbl q =>
    match fscanfDouble s with
    | none => none
    | some (q', s') => if q' = q then some s' else none

/-- Successive conversions on `s`, of the kinds of `toks`, deliver exactly the
values `toks` in this order; the result is the stream after the last one. -/
def scanToks : List Tok → FileStream → Option FileStream
  | [], s => some s
  | tok :: toks, s =>
    match scanTok tok s with
    | none => none
    | some s' => scanToks toks s'

/-- The conversion of the kind of `tok` does not return 1 at the front of `s`:
the file has ended or the text there does not begin with such a number. -/
def convFails (tok : Tok) (s : FileStream) : Prop :=
  match tok with
  | .int _ => fscanfInt s = none
  | .dbl _ => fscanfDouble s = none

/-- The lexeme is, as a whole, the text of the value `tok`. -/
def Denotes (l : Lexeme) (tok : Tok) : Prop :=
  match tok with
  | .int z => scanInt l = some (z, [])
  | .dbl q => scanDouble l = some (q, [])

/-- The values of an array in storage order, as they would be written out. -/
def cells (a : DoubleArray) : List Tok := a.map (fun c => Tok.dbl (c.getD 0))

/-- Every cell of the array has been written. -/
def Full (a : DoubleArray) : Prop := ∀ c ∈ a, c ≠ none

/-- The run of `m` on `s` returns `a` and leaves the stream `r`; its conversions
delivered the values `toks`, in this order; the run depends on the file only
through these values (`same`), and on a file that delivers a beginning of
`toks` and then fails the next conversion the run is fatal (`fail`). -/
structure Trace {α : Type} (m : Load α) (s : FileStream) (a : α) (r : FileStream)
    (toks : List Tok) : Prop where
  run : m s = .ok (a, r)
  scan : scanToks toks s = some r
  same : ∀ s' r', scanToks toks s' = some r' → m s' = .ok (a, r')
  fail : ∀ s' pre tok post r1, toks = pre ++ tok :: post → scanToks pre s' = some r1 →
    convFails tok r1 → m s' = .fatal

/-- One step of a loop that reads the cells of an array in storage order. -/
def fillCell (m : Nat) (a : DoubleArray) : Load DoubleArray := scanInto a (m : Int)

/-- The fields in the order in which `loadFile` reads them, each array in
increasing storage-index order. -/
def SingleViewPoseAdjustmentProblem.written (p : SingleViewPoseAdjustmentProblem) : List Tok :=
  [Tok.int p.numPts_] ++ cells p.carCenter_ ++ [Tok.dbl p.h_, Tok.dbl p.w_, Tok.dbl p.l_] ++
    cells p.K_ ++ cells p.observations_ ++ cells p.observationWeights_ ++ cells p.X_bar_ ++
    [Tok.int p.numVec_] ++ cells p.V_ ++ cells p.lambdas_

/-- The counts are those of a loaded instance and every array has the length
that its `new` expression gave it and is completely written. -/
structure SingleViewPoseAdjustmentProblem.WellFormed (p : SingleViewPoseAdjustmentProblem) :
    Prop where
  numPts_nonneg : 0 ≤ p.numPts_
  numPts_le : 3 * p.numPts_ ≤ INT_MAX
  numVec_nonneg : 0 ≤ p.numVec_
  numVec_le : p.numVec_ * 3 ≤ INT_MAX
  size_V_le : p.numVec_ * 3 * p.numPts_ ≤ INT_MAX
  len_carCenter : p.carCenter_.length = 3
  len_K : p.K_.length = 9
  len_observations : (p.observations_.length : Int) = 2 * p.numPts_
  len_observationWeights : (p.observationWeights_.length : Int) = p.numPts_
  len_X_bar : (p.X_bar_.length : Int) = 3 * p.numPts_
  len_V : (p.V_.length : Int) = p.numVec_ * 3 * p.numPts_
  len_lambdas : (p.lambdas_.length : Int) = p.numVec_
  full_carCenter : Full p.carCenter_
  full_K : Full p.K_
  full_observations : Full p.observations_
  full_observationWeights : Full p.observationWeights_
  full_X_bar : Full p.X_bar_
  full_V : Full p.V_
  full_lambdas : Full p.lambdas_


/-- The fields in the order in which `loadFile` reads them, each array in
increasing storage-index order. -/
def GroundPlaneAdjustmentProblem.written (p : GroundPlaneAdjustmentProblem) : List Tok :=
  [Tok.int p.numViews_, Tok.int p.numPoints_] ++ cells p.K_ ++ cells p.Xs_ ++ cells p.Rs_ ++
    cells p.ts_ ++ cells p.xs_ ++ cells p.plane_

/-- The counts are those of a loaded instance and every array has the length
that its `new` expression gave it and is completely written. -/
structure GroundPlaneAdjustmentProblem.WellFormed (p : GroundPlaneAdjustmentProblem) :
    Prop where
  numViews_nonneg : 0 ≤ p.numViews_
  numViews_le : 9 * p.numViews_ ≤ INT_MAX
  numPoints_nonneg : 0 ≤ p.numPoints_
  numPoints_le : 3 * p.numPoints_ ≤ INT_MAX
  size_xs_le : 2 * p.numPoints_ * p.numViews_ ≤ INT_MAX
  len_K : p.K_.length = 9
  len_Xs : (p.Xs_.length : Int) = 3 * p.numPoints_
  len_Rs : (p.Rs_.length : Int) = 9 * p.numViews_
  len_ts : (p.ts_.length : Int) = 3 * p.numViews_
  len_xs : (p.xs_.length : Int) = 2 * p.numPoints_ * p.numViews_
  len_plane : p.plane_.length = 4
  full_K : Full p.K_
  full_Xs : Full p.Xs_
  full_Rs : Full p.Rs_
  full_ts : Full p.ts_
  full_xs : Full p.xs_
  full_plane : Full p.plane_

/-- The fields in the order in which `loadFile` reads them, each array in
increasing storage-index order. -/
def SingleViewShapeAdjustmentProblem.written (p : SingleViewShapeAdjustmentProblem) : List Tok :=
  [Tok.int p.numPts_] ++ cells p.carCenter_ ++ [Tok.dbl p.h_, Tok.dbl p.w_, Tok.dbl p.l_] ++
    cells p.K_ ++ cells p.observations_ ++ cells p.observationWeights_ ++ cells p.X_bar_ ++
    [Tok.int p.numVec_] ++ cells p.V_ ++ cells p.lambdas_ ++ cells p.rot_ ++ cells p.trans_

/-- The counts are those of a loaded instance and every array has the length
that its `new` expression gave it and is completely written. -/
structure SingleViewShapeAdjustmentProblem.WellFormed (p : SingleViewShapeAdjustmentProblem) :
    Prop where
  numPts_nonneg : 0 ≤ p.numPts_
  numPts_le : 3 * p.numPts_ ≤ INT_MAX
  numVec_nonneg : 0 ≤ p.numVec_
  numVec_le : p.numVec_ * 3 ≤ INT_MAX
  size_V_le : p.numVec_ * 3 * p.numPts_ ≤ INT_MAX
  len_carCenter : p.carCenter_.length = 3
  len_K : p.K_.length = 9
  len_observations : (p.observations_.length : Int) = 2 * p.numPts_
  len_observationWeights : (p.observationWeights_.length : Int) = p.numPts_
  len_X_bar : (p.X_bar_.length : Int) = 3 * p.numPts_
  len_V : (p.V_.length : Int) = p.numVec_ * 3 * p.numPts_
  len_lambdas : (p.lambdas_.length : Int) = p.numVec_
  len_rot : p.rot_.length = 9
  len_trans : p.trans_.length = 3
  full_carCenter : Full p.carCenter_
  full_K : Full p.K_
  full_observations : Full p.observations_
  full_observationWeights : Full p.observationWeights_
  full_X_bar : Full p.X_bar_
  full_V : Full p.V_
  full_lambdas : Full p.lambdas_
  full_rot : Full p.rot_
  full_trans : Full p.trans_

/-- The fields in the order in which `loadFile` reads them, each array in
increasing storage-index order. -/
def MultiViewShapeandPoseAdjuster.written (p : MultiViewShapeandPoseAdjuster) : List Tok :=
  [Tok.int p.numViews_, Tok.int p.numPts_, Tok.int p.numObs_,
    Tok.dbl p.h_, Tok.dbl p.w_, Tok.dbl p.l_] ++
    cells p.K_ ++ cells p.carCenter_ ++ cells p.observations_ ++ cells p.observationWeights_ ++
    cells p.X_bar_ ++ [Tok.int p.numVec_] ++ cells p.V_ ++ cells p.lambdas_ ++ cells p.rot_ ++
    cells p.trans_

/-- The counts are those of a loaded instance and every array has the length
that its `new` expression gave it and is completely written. -/
structure MultiViewShapeandPoseAdjuster.WellFormed (p : MultiViewShapeandPoseAdjuster) :
    Prop where
  numViews_nonneg : 0 ≤ p.numViews_
  numViews_le : p.numViews_ * 9 ≤ INT_MAX
  numVec_nonneg : 0 ≤ p.numVec_
  numPts_ge : INT_MIN ≤ p.numPts_
  numPts_le : p.numPts_ ≤ INT_MAX
  numObs_ge : INT_MIN ≤ p.numObs_
  numObs_le : p.numObs_ ≤ INT_MAX
  size_X_bar_le : p.numViews_ * 3 * p.numObs_ ≤ INT_MAX
  size_V_le : p.numViews_ * p.numVec_ * 3 * p.numPts_ ≤ INT_MAX
  len_K : p.K_.length = 9
  len_carCenter : (p.carCenter_.length : Int) = p.numViews_ * 3
  len_observations : (p.observations_.length : Int) = p.numViews_ * 2 * p.numObs_
  len_observationWeights : (p.observationWeights_.length : Int) = p.numViews_ * p.numObs_
  len_X_bar : (p.X_bar_.length : Int) = p.numViews_ * 3 * p.numObs_
  len_V : (p.V_.length : Int) = p.numViews_ * p.numVec_ * 3 * p.numPts_
  len_lambdas : (p.lambdas_.length : Int) = p.numVec_
  len_rot : (p.rot_.length : Int) = p.numViews_ * 9
  len_trans : (p.trans_.length : Int) = p.numViews_ * 3
  full_K : Full p.K_
  full_carCenter : Full p.carCenter_
  full_observations : Full p.observations_
  full_observationWeights : Full p.observationWeights_
  full_X_bar : Full p.X_bar_
  full_V : Full p.V_
  full_lambdas : Full p.lambdas_
  full_rot : Full p.rot_
  full_trans : Full p.trans_

/-- One conversion, of the kind of `tok`, on the lexeme `l` delivers exactly the
value `tok`; the result is the unread rest of the lexeme. -/
def lexTok (tok : Tok) (l : Lexeme) : Option Lexeme :=
  match tok with
  | .int z =>
    match scanInt l with
    | none => none
    | some (z', r) => if z' = z then some r else none
  | .dbl q =>
    match scanDouble l with
    | none => none
    | some (q', r) => if q' = q then some r else none

/-- Whether the value was delivered by `%d`. -/
def Tok.isInt : Tok → Bool
  | .int _ => true
  | .dbl _ => false

/-- The file declares the counts `numPts = n` and `numVec = v` of the single-view
layout: its conversions deliver `n`, then the `15 + 6 n` floating-point values
of the car center, the car dimensions, the intrinsics, the observations, their
weights and the mean shape, then `v`. -/
def DeclaresSingleView (t : FileStream) (n v : Int) : Prop :=
  ∃ (D : List Double) (s1 : FileStream), (D.length : Int) = 15 + 6 * n ∧
    scanToks ([Tok.int n] ++ D.map Tok.dbl ++ [Tok.int v]) t = some s1

/-- The file declares the counts `numViews = W` and `numPoints = P` of the
ground-plane layout: they are its first two values. -/
def DeclaresGroundPlane (t : FileStream) (W P : Int) : Prop :=
  ∃ s1 : FileStream, scanToks [Tok.int W, Tok.int P] t = some s1

/-- The file declares the counts of the multi-view layout: its conversions
deliver `numViews = W`, `numPts = P`, `numObs = O`, then the `12 + 3 W + 6 O W`
floating-point values of the car dimensions, the intrinsics and the per-view car
centers, observations, weights and mean shapes, then `numVec = v`. -/
def DeclaresMultiView (t : FileStream) (W P O v : Int) : Prop :=
  ∃ (D : List Double) (s1 : FileStream), (D.length : Int) = 12 + 3 * W + 6 * O * W ∧
    scanToks ([Tok.int W, Tok.int P, Tok.int O] ++ D.map Tok.dbl ++ [Tok.int v]) t = some s1

/-- The values of an array in storage order. -/
def vals (a : DoubleArray) : List Double := a.map (fun c => c.getD 0)

/-- The writer's side of the indexing property: the values `s view vec pt coord`
of a basis put in view-major, then vector-major, then keypoint-major, then
coordinate-minor order. -/
def basisSection (W v P : Nat) (s : Nat → Nat → Nat → Nat → Double) : List Double :=
  (List.range W).flatMap fun i =>
    (List.range v).flatMap fun j =>
      (List.range P).flatMap fun k =>
        (List.range 3).map fun c => s i j k c

/-- The file declares the counts `numViews = W`, `numPts = P`, `numObs = O`,
`numVec = v`, and its basis section, the values that follow `numVec`, is
`basisSection W v P s`. -/
def HasBasisSection (t : FileStream) (W P O v : Nat) (s : Nat → Nat → Nat → Nat → Double) : Prop :=
  ∃ (D : List Double) (s1 : FileStream), D.length = 12 + 3 * W + 6 * O * W ∧
    scanToks ([Tok.int W, Tok.int P, Tok.int O] ++ D.map Tok.dbl ++ [Tok.int v] ++
      (basisSection W v P s).map Tok.dbl) t = some s1

/-- Whether, in a sequence of values in reading order, every value read by `%d`
comes before every value read by `%lf`. -/
def countsFirst (toks : List Tok) : Bool :=
  ((toks.map Tok.isInt).dropWhile id).all (fun b => !b)

/-- The number of characters of a stream that are still to be read. -/
def chars (s : FileStream) : Nat := (s.map List.length).sum

/-- The lexemes of a text given word by word. -/
def lexemes (ws : List String) : FileStream := ws.map String.toList

/-- The pose file of the concrete scenario: two keypoints, one basis vector. -/
def poseFile : FileStream := lexemes
  ["2", "1", "2", "3", "1.5", "1.7", "4.2",
   "1", "0", "0", "0", "1", "0", "0", "0", "1",
   "10", "20", "30", "40", "1.0", "0.5",
   "0", "0", "0", "1", "1", "1",
   "1", "0", "0", "0", "0", "0", "0", "0.0"]

/-- A shape file: the pose file followed by a rotation and a translation. -/
def shapeFile : FileStream := poseFile ++ lexemes
  ["1", "0", "0", "0", "1", "0", "0", "0", "1", "0.5", "-0.25", "7"]

/-- A ground-plane file with one view and one point. -/
def groundFile : FileStream := lexemes
  ["1", "1",
   "700", "0", "600", "0", "700", "180", "0", "0", "1",
   "1.5", "-2", "10",
   "1", "0", "0", "0", "1", "0", "0", "0", "1",
   "0", "0", "0",
   "705", "40",
   "0", "1", "0", "1.65"]

/-- A multi-view file with two views, two keypoints, one observation per view
and two basis vectors; the basis value of view `i`, vector `j`, keypoint `k`,
coordinate `c` is written as the digits `ijkc`. -/
def multiFile : FileStream := lexemes
  ["2", "2", "1", "1.5", "1.7", "4.2",
   "700", "0", "600", "0", "700", "180", "0", "0", "1",
   "1", "2", "3", "4", "5", "6",
   "10", "20", "30", "40",
   "1.0", "0.5",
   "0.1", "0.2", "0.3", "0.4", "0.5", "0.6",
   "2",
   "0", "1", "2", "10", "11", "12", "100", "101", "102", "110", "111", "112",
   "1000", "1001", "1002", "1010", "1011", "1012", "1100", "1101", "1102", "1110", "1111",
   "1112",
   "0.25", "-0.25",
   "1", "0", "0", "0", "1", "0", "0", "0", "1", "0", "1", "0", "-1", "0", "0", "0", "0", "1",
   "0", "0", "10", "1", "0", "12"]

/-- An instance on which `loadFile` has not been called. -/
def SingleViewPoseAdjustmentProblem.blank : SingleViewPoseAdjustmentProblem :=
  ⟨0, [], 0, 0, 0, [], [], [], [], 0, [], [], []⟩

/-- An instance on which `loadFile` has not been called. -/
def GroundPlaneAdjustmentProblem.blank : GroundPlaneAdjustmentProblem :=
  ⟨0, 0, [], [], [], [], [], []⟩

/-- An instance on which `loadFile` has not been called. -/
def SingleViewShapeAdjustmentProblem.blank : SingleViewShapeAdjustmentProblem :=
  ⟨0, [], 0, 0, 0, [], [], [], [], 0, [], [], [], []⟩

/-- An instance on which `loadFile` has not been called. -/
def MultiViewShapeandPoseAdjuster.blank : MultiViewShapeandPoseAdjuster :=
  ⟨0, 0, 0, [], 0, 0, 0, [], [], [], [], 0, [], [], [], []⟩

/-- What the pose loader yields on `poseFile`. -/
def poseLoaded : SingleViewPoseAdjustmentProblem where
  numPts_ := 2
  carCenter_ := [some 1, some 2, some 3]
  h_ := 1.5
  w_ := 1.7
  l_ := 4.2
  K_ := [some 1, some 0, some 0, some 0, some 1, some 0, some 0, some 0, some 1]
  observations_ := [some 10, some 20, some 30, some 40]
  observationWeights_ := [some 1.0, some 0.5]
  X_bar_ := [some 0, some 0, some 0, some 1, some 1, some 1]
  numVec_ := 1
  V_ := [some 0, some 0, some 0, some 0, some 0, some 0]
  lambdas_ := [some 0.0]
  carCenter3D_ := []

/-- What the shape loader yields on `shapeFile`. -/
def shapeLoaded : SingleViewShapeAdjustmentProblem where
  numPts_ := 2
  carCenter_ := [some 1, some 2, some 3]
  h_ := 1.5
  w_ := 1.7
  l_ := 4.2
  K_ := [some 1, some 0, some 0, some 0, some 1, some 0, some 0, some 0, some 1]
  observations_ := [some 10, some 20, some 30, some 40]
  observationWeights_ := [some 1.0, some 0.5]
  X_bar_ := [some 0, some 0, some 0, some 1, some 1, some 1]
  numVec_ := 1
  V_ := [some 0, some 0, some 0, some 0, some 0, some 0]
  lambdas_ := [some 0.0]
  rot_ := [some 1, some 0, some 0, some 0, some 1, some 0, some 0, some 0, some 1]
  trans_ := [some 0.5, some (-0.25), some 7]

/-- What the ground-plane loader yields on `groundFile`. -/
def groundLoaded : GroundPlaneAdjustmentProblem where
  numViews_ := 1
  numPoints_ := 1
  K_ := [some 700, some 0, some 600, some 0, some 700, some 180, some 0, some 0, some 1]
  Rs_ := [some 1, some 0, some 0, some 0, some 1, some 0, some 0, some 0, some 1]
  ts_ := [some 0, some 0, some 0]
  Xs_ := [some 1.5, some (-2), some 10]
  xs_ := [some 705, some 40]
  plane_ := [some 0, some 1, some 0, some 1.65]

/-- What the multi-view loader yields on `multiFile`. -/
def multiLoaded : MultiViewShapeandPoseAdjuster where
  numViews_ := 2
  numPts_ := 2
  numObs_ := 1
  carCenter_ := [some 1, some 2, some 3, some 4, some 5, some 6]
  h_ := 1.5
  w_ := 1.7
  l_ := 4.2
  K_ := [some 700, some 0, some 600, some 0, some 700, some 180, some 0, some 0, some 1]
  observations_ := [some 10, some 20, some 30, some 40]
  observationWeights_ := [some 1.0, some 0.5]
  X_bar_ := [some 0.1, some 0.2, some 0.3, some 0.4, some 0.5, some 0.6]
  numVec_ := 2
  V_ := [some 0, some 1, some 2, some 10, some 11, some 12,
         some 100, some 101, some 102, some 110, some 111, some 112,
         some 1000, some 1001, some 1002, some 1010, some 1011, some 1012,
         some 1100, some 1101, some 1102, some 1110, some 1111, some 1112]
  lambdas_ := [some 0.25, some (-0.25)]
  rot_ := [some 1, some 0, some 0, some 0, some 1, some 0, some 0, some 0, some 1,
           some 0, some 1, some 0, some (-1), some 0, some 0, some 0, some 0, some 1]
  trans_ := [some 0, some 0, some 10, some 1, some 0, some 12]

/-- The pose file with the token `2.5` in the place of the count `2`. -/
def poseFileBadCount : FileStream := lexemes ["2.5"] ++ poseFile.tail

/-- What the pose loader yields on `poseFileBadCount`: every value has moved
one place. -/
def poseShifted : SingleViewPoseAdjustmentProblem where
  numPts_ := 2
  carCenter_ := [some 0.5, some 1, some 2]
  h_ := 3
  w_ := 1.5
  l_ := 1.7
  K_ := [some 4.2, some 1, some 0, some 0, some 0, some 1, some 0, some 0, some 0]
  observations_ := [some 1, some 10, some 20, some 30]
  observationWeights_ := [some 40, some 1.0]
  X_bar_ := [some 0.5, some 0, some 0, some 0, some 1, some 1]
  numVec_ := 1
  V_ := [some 1, some 0, some 0, some 0, some 0, some 0]
  lambdas_ := [some 0]
  carCenter3D_ := []

/-- The pose file with one more token after the last field. -/
def poseFileExtra : FileStream := poseFile ++ lexemes ["99"]

/-- The basis values of `multiFile`: the digits `ijkc` for view `i`, vector `j`,
keypoint `k` and coordinate `c`. -/
def sentinel (i j k c : Nat) : Double :=
  .fin ((1000 * i + 100 * j + 10 * k + c : Nat) : ℚ)

/-- A second pose file: one keypoint, no basis vector. -/
def poseFileSmall : FileStream := lexemes
  ["1", "4", "5", "6", "1.5", "1.7", "4.2",
   "1", "0", "0", "0", "1", "0", "0", "0", "1",
   "10", "20", "1.0",
   "0", "0", "0",
   "0"]

/-- What the pose loader yields on `poseFileSmall`. -/
def poseReloaded : SingleViewPoseAdjustmentProblem where
  numPts_ := 1
  carCenter_ := [some 4, some 5, some 6]
  h_ := 1.5
  w_ := 1.7
  l_ := 4.2
  K_ := [some 1, some 0, some 0, some 0, some 1, some 0, some 0, some 0, some 1]
  observations_ := [some 10, some 20]
  observationWeights_ := [some 1.0]
  X_bar_ := [some 0, some 0, some 0]
  numVec_ := 0
  V_ := []
  lambdas_ := []
  carCenter3D_ := []

/-- The pose file with the weights 2.5 and -3 in the place of 1.0 and 0.5. -/
def poseFileHeavy : FileStream := poseFile.take 20 ++ lexemes ["2.5", "-3"] ++ poseFile.drop 22

/-- What the pose loader yields on `poseFileHeavy`. -/
def poseHeavyLoaded : SingleViewPoseAdjustmentProblem :=
  { poseLoaded with
    observationWeights_ := [some 2.5, some (-3)] }

/-- The pose file with `2.5` for its first token, without its last token: 35
tokens. -/
def poseFileShort : FileStream := poseFileBadCount.take 35

/-- A ground-plane file whose second token is `1.5`. -/
def groundFileSplit : FileStream := lexemes
  ["1", "1.5",
   "0", "600", "0", "700", "180", "0", "0", "1",
   "1.5", "-2", "10",
   "1", "0", "0", "0", "1", "0", "0", "0", "1",
   "0", "0", "0",
   "705", "40",
   "0", "1", "0", "1.65"]

/-- What the ground-plane loader yields on `groundFileSplit`. -/
def groundSplitLoaded : GroundPlaneAdjustmentProblem where
  numViews_ := 1
  numPoints_ := 1
  K_ := [some 0.5, some 0, some 600, some 0, some 700, some 180, some 0, some 0, some 1]
  Rs_ := [some 1, some 0, some 0, some 0, some 1, some 0, some 0, some 0, some 1]
  ts_ := [some 0, some 0, some 0]
  Xs_ := [some 1.5, some (-2), some 10]
  xs_ := [some 705, some 40]
  plane_ := [some 0, some 1, some 0, some 1.65]

theorem Load.pure_apply {α : Type} (a : α) (s : FileStream) :
    (pure a : Load α) s = .ok (a, s) := rfl

theorem Load.bind_apply {α β : Type} (m : Load α) (f : α → Load β) (s : FileStream) :
    (m >>= f) s = Load.bind m f s := rfl

theorem Load.bind_ok {α β : Type} (m : Load α) (f : α → Load β) (s : FileStream)
    (x : β × FileStream) :
    (m >>= f) s = .ok x ↔ ∃ a s', m s = .ok (a, s') ∧ f a s' = .ok x := by
  show Load.bind m f s = _ ↔ _
  unfold Load.bind
  cases h : m s with
  | ok p =>
    obtain ⟨a, s'⟩ := p
    constructor
    · intro hf
      exact ⟨a, s', rfl, hf⟩
    · rintro ⟨a1, s1, h1, hf⟩
      simp only [Outcome.ok.injEq, Prod.mk.injEq] at h1
      obtain ⟨rfl, rfl⟩ := h1
      exact hf
  | fatal => simp
  | badAlloc => simp
  | undefined => simp

theorem Load.bind_of_ok {α β : Type} {m : Load α} {f : α → Load β} {s s' : FileStream} {a : α}
    (h : m s = .ok (a, s')) : (m >>= f) s = f a s' := by
  show Load.bind m f s = _
  unfold Load.bind
  rw [h]

theorem Load.bind_of_fatal {α β : Type} {m : Load α} {f : α → Load β} {s : FileStream}
    (h : m s = .fatal) : (m >>= f) s = .fatal := by
  show Load.bind m f s = _
  unfold Load.bind
  rw [h]

theorem Load.bind_pure {α : Type} (m : Load α) : (m >>= fun a => pure a) = m := by
  funext s
  show Load.bind m _ s = _
  unfold Load.bind
  cases h : m s with
  | ok p => obtain ⟨a, s'⟩ := p; rfl
  | fatal => rfl
  | badAlloc => rfl
  | undefined => rfl

theorem scanToks_append (a b : List Tok) (s : FileStream) :
    scanToks (a ++ b) s = (scanToks a s).bind (scanToks b) := by
  induction a generalizing s with
  | nil => rfl
  | cons tok a ih =>
    simp only [List.cons_append, scanToks]
    cases scanTok tok s with
    | none => rfl
    | some s' => exact ih s'

theorem scanToks_append_some {a b : List Tok} {s r : FileStream} :
    scanToks (a ++ b) s = some r ↔ ∃ s1, scanToks a s = some s1 ∧ scanToks b s1 = some r := by
  rw [scanToks_append]
  cases scanToks a s <;> simp

theorem Trace.pure {α : Type} (a : α) (s : FileStream) : Trace (pure a : Load α) s a s [] where
  run := rfl
  scan := rfl
  same := by
    intro s' r' h
    simp only [scanToks, Option.some.injEq] at h
    subst h
    rfl
  fail := by
    intro s' pre tok post r1 h
    simp at h

theorem Trace.bind {α β : Type} {m : Load α} {f : α → Load β} {s r1 r : FileStream} {a : α}
    {b : β} {t1 t2 : List Tok} (h1 : Trace m s a r1 t1) (h2 : Trace (f a) r1 b r t2) :
    Trace (m >>= f) s b r (t1 ++ t2) where
  run := by rw [Load.bind_of_ok h1.run]; exact h2.run
  scan := scanToks_append_some.2 ⟨r1, h1.scan, h2.scan⟩
  same := by
    intro s' r' h
    obtain ⟨s1, ha, hb⟩ := scanToks_append_some.1 h
    rw [Load.bind_of_ok (h1.same s' s1 ha)]
    exact h2.same s1 r' hb
  fail := by
    intro s' pre tok post x hsplit hpre hfail
    rcases List.append_eq_append_iff.1 hsplit with ⟨u, hu1, hu2⟩ | ⟨u, hu1, hu2⟩
    · -- the failing conversion belongs to the continuation
      subst hu1
      obtain ⟨s1, ha, hb⟩ := scanToks_append_some.1 hpre
      rw [Load.bind_of_ok (h1.same s' s1 ha)]
      exact h2.fail s1 u tok post x hu2 hb hfail
    · cases u with
      | nil =>
        simp only [List.append_nil, List.nil_append] at hu1 hu2
        subst hu1
        rw [Load.bind_of_ok (h1.same s' x hpre)]
        exact h2.fail x [] tok post x hu2.symm rfl hfail
      | cons c u =>
        simp only [List.cons_append, List.cons.injEq] at hu2
        obtain ⟨rfl, rfl⟩ := hu2
        exact Load.bind_of_fatal (h1.fail s' pre tok u x hu1 hpre hfail)

theorem Trace.const {α : Type} {m : Load α} {a : α} (s : FileStream)
    (h : ∀ s', m s' = .ok (a, s')) : Trace m s a s [] where
  run := h s
  scan := rfl
  same := by
    intro s' r' hs
    simp only [scanToks, Option.some.injEq] at hs
    subst hs
    exact h s'
  fail := by
    intro s' pre tok post r1 hsplit
    simp at hsplit

theorem fscanfOrDieInt_ok {s r : FileStream} {z : Int} :
    fscanfOrDieInt s = .ok (z, r) ↔ fscanfInt s = some (z, r) ∧ INT_MIN ≤ z ∧ z ≤ INT_MAX := by
  unfold fscanfOrDieInt
  cases h : fscanfInt s with
  | none => simp
  | some p =>
    obtain ⟨z', s'⟩ := p
    by_cases hr : INT_MIN ≤ z' ∧ z' ≤ INT_MAX
    · simp only [hr, and_self, if_true, Outcome.ok.injEq, Prod.mk.injEq, Option.some.injEq]
      constructor
      · rintro ⟨rfl, rfl⟩
        exact ⟨⟨rfl, rfl⟩, hr⟩
      · rintro ⟨⟨rfl, rfl⟩, _⟩
        exact ⟨rfl, rfl⟩
    · simp only [if_neg hr]
      constructor
      · intro hc
        cases hc
      · simp only [Option.some.injEq, Prod.mk.injEq]
        rintro ⟨⟨rfl, rfl⟩, h1, h2⟩
        exact absurd ⟨h1, h2⟩ hr

theorem fscanfOrDieDouble_ok {s r : FileStream} {q : Double} :
    fscanfOrDieDouble s = .ok (q, r) ↔ fscanfDouble s = some (q, r) := by
  unfold fscanfOrDieDouble
  cases h : fscanfDouble s with
  | none => simp
  | some p => obtain ⟨q', s'⟩ := p; simp

theorem scanTok_int {s r : FileStream} {z : Int} :
    scanTok (.int z) s = some r ↔ fscanfInt s = some (z, r) := by
  unfold scanTok
  cases h : fscanfInt s with
  | none => simp
  | some p =>
    obtain ⟨z', s'⟩ := p
    by_cases hz : z' = z <;> simp [hz]

theorem scanTok_dbl {s r : FileStream} {q : Double} :
    scanTok (.dbl q) s = some r ↔ fscanfDouble s = some (q, r) := by
  unfold scanTok
  cases h : fscanfDouble s with
  | none => simp
  | some p =>
    obtain ⟨q', s'⟩ := p
    by_cases hq : q' = q <;> simp [hq]

theorem scanToks_single {tok : Tok} {s r : FileStream} :
    scanToks [tok] s = some r ↔ scanTok tok s = some r := by
  simp only [scanToks]
  cases scanTok tok s <;> simp

theorem scanToks_cons {tok : Tok} {toks : List Tok} {s r : FileStream} :
    scanToks (tok :: toks) s = some r ↔
      ∃ s1, scanTok tok s = some s1 ∧ scanToks toks s1 = some r := by
  simp only [scanToks]
  cases scanTok tok s <;> simp

theorem Trace.readInt {s r : FileStream} {z : Int} (h : fscanfOrDieInt s = .ok (z, r)) :
    Trace fscanfOrDieInt s z r [.int z] where
  run := h
  scan := scanToks_single.2 (scanTok_int.2 (fscanfOrDieInt_ok.1 h).1)
  same := by
    intro s' r' hs
    exact fscanfOrDieInt_ok.2 ⟨scanTok_int.1 (scanToks_single.1 hs), (fscanfOrDieInt_ok.1 h).2⟩
  fail := by
    intro s' pre tok post r1 hsplit hpre hfail
    cases pre with
    | nil =>
      simp only [List.nil_append, List.cons.injEq] at hsplit
      obtain ⟨rfl, _⟩ := hsplit
      simp only [scanToks, Option.some.injEq] at hpre
      subst hpre
      simp only [convFails] at hfail
      simp [fscanfOrDieInt, hfail]
    | cons c pre =>
      simp only [List.cons_append, List.cons.injEq] at hsplit
      have := hsplit.2
      simp at this

theorem Trace.readDouble {s r : FileStream} {q : Double} (h : fscanfOrDieDouble s = .ok (q, r)) :
    Trace fscanfOrDieDouble s q r [.dbl q] where
  run := h
  scan := scanToks_single.2 (scanTok_dbl.2 (fscanfOrDieDouble_ok.1 h))
  same := by
    intro s' r' hs
    exact fscanfOrDieDouble_ok.2 (scanTok_dbl.1 (scanToks_single.1 hs))
  fail := by
    intro s' pre tok post r1 hsplit hpre hfail
    cases pre with
    | nil =>
      simp only [List.nil_append, List.cons.injEq] at hsplit
      obtain ⟨rfl, _⟩ := hsplit
      simp only [scanToks, Option.some.injEq] at hpre
      subst hpre
      simp only [convFails] at hfail
      simp [fscanfOrDieDouble, hfail]
    | cons c pre =>
      simp only [List.cons_append, List.cons.injEq] at hsplit
      have := hsplit.2
      simp at this

theorem imul_ok {a b n : Int} {s r : FileStream} :
    imul a b s = .ok (n, r) ↔ n = a * b ∧ r = s ∧ INT_MIN ≤ a * b ∧ a * b ≤ INT_MAX := by
  unfold imul
  by_cases hr : INT_MIN ≤ a * b ∧ a * b ≤ INT_MAX
  · simp only [hr, and_self, if_true, Outcome.ok.injEq, Prod.mk.injEq, and_true]
    constructor
    · rintro ⟨rfl, rfl⟩; exact ⟨rfl, rfl⟩
    · rintro ⟨rfl, rfl⟩; exact ⟨rfl, rfl⟩
  · rw [if_neg hr]
    constructor
    · intro hc
      cases hc
    · rintro ⟨_, _, h1, h2⟩
      exact absurd ⟨h1, h2⟩ hr

theorem Trace.imul {a b n : Int} {s r : FileStream} (h : imul a b s = .ok (n, r)) :
    Trace (imul a b) s n r [] := by
  obtain ⟨rfl, rfl, hr⟩ := imul_ok.1 h
  exact Trace.const r (fun s' => imul_ok.2 ⟨rfl, rfl, hr⟩)

theorem newDouble_ok {n : Int} {a : DoubleArray} {s r : FileStream} :
    newDouble n s = .ok (a, r) ↔ a = List.replicate n.toNat none ∧ r = s ∧ 0 ≤ n := by
  unfold newDouble
  by_cases hn : n < 0
  · rw [if_pos hn]
    constructor
    · intro hc
      cases hc
    · rintro ⟨_, _, h⟩
      omega
  · simp only [hn, if_false, Outcome.ok.injEq, Prod.mk.injEq]
    constructor
    · rintro ⟨rfl, rfl⟩; exact ⟨rfl, rfl, by omega⟩
    · rintro ⟨rfl, rfl, _⟩; exact ⟨rfl, rfl⟩

theorem Trace.newDouble {n : Int} {a : DoubleArray} {s r : FileStream}
    (h : newDouble n s = .ok (a, r)) : Trace (newDouble n) s a r [] := by
  obtain ⟨rfl, rfl, hn⟩ := newDouble_ok.1 h
  exact Trace.const r (fun s' => newDouble_ok.2 ⟨rfl, rfl, hn⟩)

theorem store_ok {a a' : DoubleArray} {i : Int} {v : Double} {s r : FileStream} :
    store a i v s = .ok (a', r) ↔
      a' = a.set i.toNat (some v) ∧ r = s ∧ 0 ≤ i ∧ i < a.length := by
  unfold store
  by_cases hi : 0 ≤ i ∧ i < a.length
  · simp only [hi, and_self, if_true, Outcome.ok.injEq, Prod.mk.injEq, and_true]
    constructor
    · rintro ⟨rfl, rfl⟩; exact ⟨rfl, rfl⟩
    · rintro ⟨rfl, rfl⟩; exact ⟨rfl, rfl⟩
  · rw [if_neg hi]
    constructor
    · intro hc
      cases hc
    · rintro ⟨_, _, h1, h2⟩
      exact absurd ⟨h1, h2⟩ hi

theorem Trace.store {a a' : DoubleArray} {i : Int} {v : Double} {s r : FileStream}
    (h : store a i v s = .ok (a', r)) : Trace (store a i v) s a' r [] := by
  obtain ⟨rfl, rfl, hi⟩ := store_ok.1 h
  exact Trace.const r (fun s' => store_ok.2 ⟨rfl, rfl, hi⟩)

theorem scanInto_ok {a a' : DoubleArray} {i : Int} {s r : FileStream}
    (h : scanInto a i s = .ok (a', r)) :
    ∃ q, a' = a.set i.toNat (some q) ∧ 0 ≤ i ∧ i < a.length ∧
      Trace (scanInto a i) s a' r [.dbl q] := by
  unfold scanInto at h ⊢
  obtain ⟨q, s1, h1, h2⟩ := (Load.bind_ok _ _ _ _).1 h
  obtain ⟨ha, hr, hi⟩ := store_ok.1 h2
  exact ⟨q, ha, hi.1, hi.2, Trace.bind (Trace.readDouble h1) (Trace.store h2)⟩

theorem Load.pure_bind {α β : Type} (a : α) (f : α → Load β) : (pure a >>= f) = f a := rfl

theorem Load.bind_assoc {α β γ : Type} (m : Load α) (f : α → Load β) (g : β → Load γ) :
    (m >>= f >>= g) = (m >>= fun a => f a >>= g) := by
  funext s
  show Load.bind (Load.bind m f) g s = Load.bind m (fun a => Load.bind (f a) g) s
  unfold Load.bind
  cases h : m s with
  | ok p => rfl
  | fatal => rfl
  | badAlloc => rfl
  | undefined => rfl

theorem forFrom_zero {σ : Type} (body : Nat → σ → Load σ) (i : Nat) (a : σ) :
    forFrom body i 0 a = pure a := rfl

theorem forFrom_succ {σ : Type} (body : Nat → σ → Load σ) (i k : Nat) (a : σ) :
    forFrom body i (k + 1) a = (body i a >>= forFrom body (i + 1) k) := rfl

theorem forFrom_congr {σ : Type} {body body' : Nat → σ → Load σ} :
    ∀ (k i : Nat), (∀ j, i ≤ j → j < i + k → body j = body' j) →
      forFrom body i k = forFrom body' i k := by
  intro k
  induction k with
  | zero => intro i _; rfl
  | succ k ih =>
    intro i h
    funext a
    rw [forFrom_succ, forFrom_succ, h i (Nat.le_refl i) (by omega),
      ih (i + 1) (fun j h1 h2 => h j (by omega) (by omega))]

theorem forFrom_shift {σ : Type} (body : Nat → σ → Load σ) (c : Nat) :
    ∀ (k i : Nat), forFrom (fun j => body (c + j)) i k = forFrom body (c + i) k := by
  intro k
  induction k with
  | zero => intro i; rfl
  | succ k ih =>
    intro i
    funext a
    rw [forFrom_succ, forFrom_succ, ih (i + 1)]
    rfl

theorem forFrom_add {σ : Type} (body : Nat → σ → Load σ) :
    ∀ (k1 k2 i : Nat) (a : σ),
      forFrom body i (k1 + k2) a = (forFrom body i k1 a >>= forFrom body (i + k1) k2) := by
  intro k1
  induction k1 with
  | zero =>
    intro k2 i a
    rw [Nat.zero_add, forFrom_zero, Load.pure_bind]
    rfl
  | succ k1 ih =>
    intro k2 i a
    have e : k1 + 1 + k2 = (k1 + k2) + 1 := by omega
    rw [e, forFrom_succ, forFrom_succ, Load.bind_assoc]
    congr 1
    funext a1
    rw [ih k2 (i + 1) a1]
    have e2 : i + 1 + k1 = i + (k1 + 1) := by omega
    rw [e2]

/-- Two nested loops whose body depends on the linear index only are one loop. -/
theorem forFrom_flatten {σ : Type} (F : Nat → Nat → σ → Load σ) (G : Nat → σ → Load σ)
    (m : Nat) :
    ∀ (n i0 : Nat), (∀ i j, i0 ≤ i → i < i0 + n → j < m → F i j = G (i * m + j)) →
      forFrom (fun i a => forFrom (F i) 0 m a) i0 n = forFrom G (i0 * m) (n * m) := by
  intro n
  induction n with
  | zero =>
    intro i0 _
    rw [Nat.zero_mul]
    rfl
  | succ n ih =>
    intro i0 h
    funext a
    have e : (n + 1) * m = m + n * m := by ring
    rw [e, forFrom_succ, forFrom_add, ih (i0 + 1) (fun i j h1 h2 h3 => h i j (by omega) (by omega) h3)]
    have e1 : forFrom (F i0) 0 m = forFrom G (i0 * m) m := by
      rw [← Nat.add_zero (i0 * m), ← forFrom_shift G (i0 * m) m 0]
      apply forFrom_congr
      intro j _ hj
      exact h i0 j (Nat.le_refl _) (by omega) (by omega)
    have e2 : (i0 + 1) * m = i0 * m + m := by ring
    rw [e1, e2]

theorem List.set_take_succ_eq {α : Type} (x : α) :
    ∀ (a : List α) (i : Nat), i < a.length → (a.set i x).take (i + 1) = a.take i ++ [x] := by
  intro a
  induction a with
  | nil => intro i h; simp at h
  | cons y a ih =>
    intro i h
    cases i with
    | zero => simp
    | succ i =>
      simp only [List.set_cons_succ, List.take_succ_cons, List.cons_append, List.cons.injEq,
        true_and]
      exact ih i (by simpa using h)

theorem List.set_drop_gt_eq {α : Type} (x : α) :
    ∀ (a : List α) (i j : Nat), i < j → (a.set i x).drop j = a.drop j := by
  intro a
  induction a with
  | nil => intro i j _; simp
  | cons y a ih =>
    intro i j h
    cases j with
    | zero => omega
    | succ j =>
      cases i with
      | zero => simp
      | succ i =>
        simp only [List.set_cons_succ, List.drop_succ_cons]
        exact ih i j (by omega)

theorem fill_trace :
    ∀ (k i : Nat) (a a' : DoubleArray) (s r : FileStream), i + k ≤ a.length →
      forFrom fillCell i k a s = .ok (a', r) →
      ∃ vs : List Double, vs.length = k ∧ a' = a.take i ++ vs.map some ++ a.drop (i + k) ∧
        Trace (forFrom fillCell i k a) s a' r (vs.map Tok.dbl) := by
  intro k
  induction k with
  | zero =>
    intro i a a' s r _ h
    rw [forFrom_zero, Load.pure_apply] at h
    simp only [Outcome.ok.injEq, Prod.mk.injEq] at h
    obtain ⟨rfl, rfl⟩ := h
    refine ⟨[], rfl, ?_, ?_⟩
    · simp
    · exact Trace.pure a s
  | succ k ih =>
    intro i a a' s r hlen h
    rw [forFrom_succ] at h ⊢
    obtain ⟨a1, s1, h1, h2⟩ := (Load.bind_ok _ _ _ _).1 h
    obtain ⟨q, ha1, _, hi, T1⟩ := scanInto_ok h1
    have hi' : i < a.length := by omega
    simp only [Int.toNat_ofNat] at ha1
    have hl1 : a1.length = a.length := by rw [ha1]; simp
    obtain ⟨vs, hvs, ha', T2⟩ := ih (i + 1) a1 a' s1 r (by omega) h2
    refine ⟨q :: vs, by simp [hvs], ?_, ?_⟩
    · rw [ha', ha1, List.set_take_succ_eq _ _ _ hi', List.set_drop_gt_eq _ _ _ _ (by omega)]
      have e : i + 1 + k = i + (k + 1) := by omega
      rw [e]
      simp
    · exact Trace.bind T1 T2

theorem forFrom_flatten0 {σ : Type} (F : Nat → Nat → σ → Load σ) (G : Nat → σ → Load σ)
    (n m : Nat) (h : ∀ i j, i < n → j < m → F i j = G (i * m + j)) :
    forFrom (fun i a => forFrom (F i) 0 m a) 0 n = forFrom G 0 (n * m) := by
  have := forFrom_flatten F G m n 0 (fun i j _ h2 h3 => h i j (by omega) h3)
  rw [Nat.zero_mul] at this
  exact this

theorem forFrom_flatten3 {σ : Type} (F : Nat → Nat → Nat → σ → Load σ) (G : Nat → σ → Load σ)
    (n m p : Nat)
    (h : ∀ i j k, i < n → j < m → k < p → F i j k = G (i * (m * p) + (j * p + k))) :
    forFrom (fun i a => forFrom (fun j a => forFrom (F i j) 0 p a) 0 m a) 0 n =
      forFrom G 0 (n * (m * p)) := by
  rw [← forFrom_flatten0 (fun i r => G (i * (m * p) + r)) G n (m * p) (fun _ _ _ _ => rfl)]
  apply forFrom_congr
  intro i _ hi
  funext a
  rw [forFrom_flatten0 (F i) (fun r => G (i * (m * p) + r)) m p
    (fun j k hj hk => h i j k (by omega) hj hk)]

theorem nest1 (n : Int) :
    (fun a => forLoop n (fun i a => scanInto a (i : Int)) a) = forFrom fillCell 0 n.toNat := rfl

theorem nest2 (n m : Int) (idx : Nat → Nat → Int)
    (h : ∀ i j, i < n.toNat → j < m.toNat → idx i j = ((i * m.toNat + j : Nat) : Int)) :
    (fun a => forLoop n (fun i a => forLoop m (fun j a => scanInto a (idx i j)) a) a) =
      forFrom fillCell 0 (n.toNat * m.toNat) := by
  rw [← forFrom_flatten0 (fun i j a => scanInto a (idx i j)) fillCell n.toNat m.toNat]
  · rfl
  · intro i j hi hj
    funext a
    rw [h i j hi hj]
    rfl

theorem nest3 (n m p : Int) (idx : Nat → Nat → Nat → Int)
    (h : ∀ i j k, i < n.toNat → j < m.toNat → k < p.toNat →
      idx i j k = ((i * (m.toNat * p.toNat) + (j * p.toNat + k) : Nat) : Int)) :
    (fun a => forLoop n (fun i a => forLoop m (fun j a =>
        forLoop p (fun k a => scanInto a (idx i j k)) a) a) a) =
      forFrom fillCell 0 (n.toNat * (m.toNat * p.toNat)) := by
  rw [← forFrom_flatten3 (fun i j k a => scanInto a (idx i j k)) fillCell n.toNat m.toNat p.toNat]
  · rfl
  · intro i j k hi hj hk
    funext a
    rw [h i j k hi hj hk]
    rfl

theorem unrolled3 (e : Int) (a : DoubleArray) :
    (do let a ← scanInto a (e + 0)
        let a ← scanInto a (e + 1)
        scanInto a (e + 2)) =
      forLoop 3 (fun c a => scanInto a (e + (c : Int))) a := by
  have h : forLoop 3 (fun c a => scanInto a (e + (c : Int))) a =
      (scanInto a (e + 0) >>= fun a => scanInto a (e + 1) >>= fun a =>
        scanInto a (e + 2) >>= fun a => pure a) := rfl
  rw [h]
  simp only [Load.bind_pure]

theorem nest1u (n : Int) (e : Nat → Int)
    (h : ∀ (i c : Nat), i < n.toNat → c < 3 → e i + (c : Int) = ((i * 3 + c : Nat) : Int)) :
    (fun a => forLoop n (fun i a => do
        let a ← scanInto a (e i + 0)
        let a ← scanInto a (e i + 1)
        scanInto a (e i + 2)) a) =
      forFrom fillCell 0 (n.toNat * 3) :=
  have hb : (fun (i : Nat) (a : DoubleArray) => do
        let a ← scanInto a (e i + 0)
        let a ← scanInto a (e i + 1)
        scanInto a (e i + 2)) =
      (fun i a => forLoop 3 (fun c a => scanInto a (e i + (c : Int))) a) := by
    funext i a
    exact unrolled3 (e i) a
  (congrArg (fun B => fun a => forLoop n B a) hb).trans (nest2 n 3 (fun i c => e i + (c : Int)) h)

theorem nest2u (n m : Int) (e : Nat → Nat → Int)
    (h : ∀ (i j c : Nat), i < n.toNat → j < m.toNat → c < 3 →
      e i j + (c : Int) = ((i * (m.toNat * 3) + (j * 3 + c) : Nat) : Int)) :
    (fun a => forLoop n (fun i a => forLoop m (fun j a => do
        let a ← scanInto a (e i j + 0)
        let a ← scanInto a (e i j + 1)
        scanInto a (e i j + 2)) a) a) =
      forFrom fillCell 0 (n.toNat * (m.toNat * 3)) :=
  have hb : (fun (i j : Nat) (a : DoubleArray) => do
        let a ← scanInto a (e i j + 0)
        let a ← scanInto a (e i j + 1)
        scanInto a (e i j + 2)) =
      (fun i j a => forLoop 3 (fun c a => scanInto a (e i j + (c : Int))) a) := by
    funext i j a
    exact unrolled3 (e i j) a
  (congrArg (fun (B : Nat → Nat → DoubleArray → Load DoubleArray) =>
      fun a => forLoop n (fun i a => forLoop m (fun j a => B i j a) a) a) hb).trans
    (nest3 n m 3 (fun i j c => e i j + (c : Int)) h)

theorem nest3u (n m p : Int) (e : Nat → Nat → Nat → Int)
    (h : ∀ (i j k c : Nat), i < n.toNat → j < m.toNat → k < p.toNat → c < 3 →
      e i j k + (c : Int) =
        ((i * (m.toNat * (p.toNat * 3)) + (j * (p.toNat * 3) + (k * 3 + c)) : Nat) : Int)) :
    (fun a => forLoop n (fun i a => forLoop m (fun j a => forLoop p (fun k a => do
        let a ← scanInto a (e i j k + 0)
        let a ← scanInto a (e i j k + 1)
        scanInto a (e i j k + 2)) a) a) a) =
      forFrom fillCell 0 (n.toNat * (m.toNat * (p.toNat * 3))) := by
  have hb : (fun (i j k : Nat) (a : DoubleArray) => do
        let a ← scanInto a (e i j k + 0)
        let a ← scanInto a (e i j k + 1)
        scanInto a (e i j k + 2)) =
      (fun i j k a => forLoop 3 (fun c a => scanInto a (e i j k + (c : Int))) a) := by
    funext i j k a
    exact unrolled3 (e i j k) a
  refine (congrArg (fun (B : Nat → Nat → Nat → DoubleArray → Load DoubleArray) =>
      fun a => forLoop n (fun i a => forLoop m (fun j a =>
        forLoop p (fun k a => B i j k a) a) a) a) hb).trans ?_
  show forFrom (fun i a => forFrom (fun j a => forFrom (fun k a =>
      forFrom (fun c a => scanInto a (e i j k + (c : Int))) 0 3 a) 0 p.toNat a) 0 m.toNat a)
      0 n.toNat = _
  rw [← forFrom_flatten0 (fun i r => fillCell (i * (m.toNat * (p.toNat * 3)) + r)) fillCell
    n.toNat (m.toNat * (p.toNat * 3)) (fun _ _ _ _ => rfl)]
  apply forFrom_congr
  intro i _ hi
  funext a
  rw [forFrom_flatten3 (fun j k c a => scanInto a (e i j k + (c : Int)))
    (fun r => fillCell (i * (m.toNat * (p.toNat * 3)) + r)) m.toNat p.toNat 3]
  intro j k c hj hk hc
  funext a
  rw [h i j k c (by omega) hj hk hc]
  rfl

theorem block_trace {N : Nat} {nest : DoubleArray → Load DoubleArray} {a' : DoubleArray}
    {s r : FileStream} (hnest : nest = forFrom fillCell 0 N)
    (h : nest (List.replicate N none) s = .ok (a', r)) :
    ∃ vs : List Double, vs.length = N ∧ a' = vs.map some ∧
      Trace (nest (List.replicate N none)) s a' r (vs.map Tok.dbl) := by
  subst hnest
  obtain ⟨vs, hvs, ha, T⟩ := fill_trace N 0 _ a' s r (by simp) h
  refine ⟨vs, hvs, ?_, T⟩
  rw [ha]
  simp

theorem Trace.cast {α : Type} {m : Load α} {s r : FileStream} {a : α} {t t' : List Tok}
    (h : Trace m s a r t) (e : t = t') : Trace m s a r t' := e ▸ h

theorem cells_map_some (vs : List Double) : cells (vs.map some) = vs.map Tok.dbl := by
  simp [cells, Function.comp_def]

theorem cells_cons_some (q : Double) (a : DoubleArray) :
    cells (some q :: a) = Tok.dbl q :: cells a := rfl

theorem cells_nil : cells [] = [] := rfl

theorem full_map_some (vs : List Double) : Full (vs.map some) := by
  intro c hc
  simp only [List.mem_map] at hc
  obtain ⟨v, _, rfl⟩ := hc
  simp

theorem block_ok {n : Int} {N : Nat} {nest : DoubleArray → Load DoubleArray}
    {a0 a' : DoubleArray} {s s1 r : FileStream}
    (hnest : nest = forFrom fillCell 0 N) (hnew : newDouble n s = .ok (a0, s1))
    (hN : 0 ≤ n → n.toNat = N) (hl : nest a0 s1 = .ok (a', r)) :
    0 ≤ n ∧ Trace (newDouble n) s a0 s1 [] ∧
      ∃ vs : List Double, (vs.length : Int) = n ∧ a' = vs.map some ∧
        Trace (nest a0) s1 a' r (vs.map Tok.dbl) := by
  obtain ⟨ha0, hs, hn⟩ := newDouble_ok.1 hnew
  refine ⟨hn, Trace.newDouble hnew, ?_⟩
  rw [hN hn] at ha0
  subst ha0
  obtain ⟨vs, hvs, ha, T⟩ := block_trace hnest hl
  refine ⟨vs, ?_, ha, T⟩
  have := hN hn
  omega

theorem toNat_mul3 (v P : Int) (hP : 0 ≤ P) (h : 0 ≤ v * 3 * P) :
    (v * 3 * P).toNat = v.toNat * (P.toNat * 3) := by
  rcases eq_or_lt_of_le hP with h0 | h0
  · subst h0; simp
  · have hv : 0 ≤ v := by
      by_contra hv
      push_neg at hv
      have : v * 3 * P < 0 := by nlinarith
      omega
    lift v to Nat using hv
    lift P to Nat using hP
    simp only [Int.toNat_ofNat]
    have : ((v : Int) * 3 * P) = ((v * (P * 3) : Nat) : Int) := by push_cast; ring
    rw [this, Int.toNat_ofNat]


/-! ## Facts about successive conversions -/

theorem scanTok_nil (tok : Tok) : scanTok tok [] = none := by
  cases tok <;> rfl

theorem scanTok_cons (tok : Tok) (l : Lexeme) (s : FileStream) :
    scanTok tok (l :: s) = (lexTok tok l).map (fun r => putBack r s) := by
  cases tok with
  | int z =>
    simp only [scanTok, fscanfInt, lexTok]
    cases h : scanInt l with
    | none => rfl
    | some p =>
      obtain ⟨z', r⟩ := p
      by_cases hz : z' = z <;> simp [hz]
  | dbl q =>
    simp only [scanTok, fscanfDouble, lexTok]
    cases h : scanDouble l with
    | none => rfl
    | some p =>
      obtain ⟨q', r⟩ := p
      by_cases hq : q' = q <;> simp [hq]

theorem scanTok_cons_some {tok : Tok} {l : Lexeme} {s s' : FileStream} :
    scanTok tok (l :: s) = some s' ↔ ∃ r, lexTok tok l = some r ∧ s' = putBack r s := by
  rw [scanTok_cons]
  cases lexTok tok l with
  | none => simp
  | some r =>
    simp only [Option.map_some', Option.some.injEq, exists_eq_left']
    exact eq_comm

theorem denotes_iff {l : Lexeme} {tok : Tok} : Denotes l tok ↔ lexTok tok l = some [] := by
  cases tok with
  | int z =>
    simp only [Denotes, lexTok]
    cases h : scanInt l with
    | none => simp
    | some p =>
      obtain ⟨z', r⟩ := p
      by_cases hz : z' = z
      · simp [hz]
      · simp only [Option.some.injEq, Prod.mk.injEq, hz, false_and, if_false]
        simp
  | dbl q =>
    simp only [Denotes, lexTok]
    cases h : scanDouble l with
    | none => simp
    | some p =>
      obtain ⟨q', r⟩ := p
      by_cases hq : q' = q
      · simp [hq]
      · simp only [Option.some.injEq, Prod.mk.injEq, hq, false_and, if_false]
        simp

theorem convFails_nil (tok : Tok) : convFails tok [] := by
  cases tok <;> rfl

theorem putBack_append (r : Lexeme) (s e : FileStream) :
    putBack r (s ++ e) = putBack r s ++ e := by
  cases r <;> rfl

theorem putBack_length_le (r : Lexeme) (s : FileStream) :
    (putBack r s).length ≤ s.length + 1 := by
  cases r <;> simp [putBack]

theorem putBack_length_ge (r : Lexeme) (s : FileStream) :
    s.length ≤ (putBack r s).length := by
  cases r <;> simp [putBack]

theorem putBack_take (r : Lexeme) (s : FileStream) (k : Nat) :
    putBack r (s.take k) = (putBack r s).take (k + ((putBack r s).length - s.length)) := by
  cases r with
  | nil => simp [putBack]
  | cons c cs => simp [putBack]

/-- A conversion never lengthens the stream and removes at most one lexeme. -/
theorem scanToks_length {toks : List Tok} :
    ∀ {s r : FileStream}, scanToks toks s = some r →
      r.length ≤ s.length ∧ s.length ≤ r.length + toks.length := by
  induction toks with
  | nil =>
    intro s r h
    simp only [scanToks, Option.some.injEq] at h
    subst h
    simp
  | cons tok toks ih =>
    intro s r h
    obtain ⟨s1, h1, h2⟩ := scanToks_cons.1 h
    cases s with
    | nil => rw [scanTok_nil] at h1; cases h1
    | cons l s0 =>
      obtain ⟨rem, _, rfl⟩ := scanTok_cons_some.1 h1
      have := ih h2
      have := putBack_length_le rem s0
      have := putBack_length_ge rem s0
      simp only [List.length_cons]
      omega

/-- Lexemes that are, each as a whole, the texts of the values `toks` deliver
these values. -/
theorem scanToks_of_denotes {c : FileStream} {toks : List Tok} (h : List.Forall₂ Denotes c toks)
    (rest : FileStream) : scanToks toks (c ++ rest) = some rest := by
  induction h with
  | nil => rfl
  | cons hd _ ih =>
    rw [List.cons_append]
    refine scanToks_cons.2 ⟨_, scanTok_cons_some.2 ⟨[], denotes_iff.1 hd, rfl⟩, ?_⟩
    exact ih

/-- When the conversions consumed as many lexemes as there were conversions,
every lexeme was read as a whole. -/
theorem denotes_of_scanToks {toks : List Tok} :
    ∀ {c rest : FileStream}, scanToks toks (c ++ rest) = some rest → c.length = toks.length →
      List.Forall₂ Denotes c toks := by
  induction toks with
  | nil =>
    intro c rest _ hl
    have : c = [] := List.length_eq_zero.1 hl
    subst this
    exact List.Forall₂.nil
  | cons tok toks ih =>
    intro c rest h hl
    cases c with
    | nil => simp at hl
    | cons l c =>
      obtain ⟨s1, h1, h2⟩ := scanToks_cons.1 h
      rw [List.cons_append] at h1
      obtain ⟨rem, hrem, rfl⟩ := scanTok_cons_some.1 h1
      have hlen := (scanToks_length h2).2
      simp only [List.length_cons] at hl
      cases rem with
      | nil =>
        simp only [putBack] at h2
        exact List.Forall₂.cons (denotes_iff.2 hrem) (ih h2 (by omega))
      | cons x xs =>
        simp only [putBack, List.length_cons, List.length_append] at hlen
        omega

/-- Tokens after the consumed part of the file do not matter. -/
theorem scanToks_extend {toks : List Tok} :
    ∀ {s r : FileStream} (e : FileStream), scanToks toks s = some r →
      scanToks toks (s ++ e) = some (r ++ e) := by
  induction toks with
  | nil =>
    intro s r e h
    simp only [scanToks, Option.some.injEq] at h
    subst h
    rfl
  | cons tok toks ih =>
    intro s r e h
    obtain ⟨s1, h1, h2⟩ := scanToks_cons.1 h
    cases s with
    | nil => rw [scanTok_nil] at h1; cases h1
    | cons l s0 =>
      obtain ⟨rem, hrem, rfl⟩ := scanTok_cons_some.1 h1
      rw [List.cons_append]
      refine scanToks_cons.2 ⟨_, scanTok_cons_some.2 ⟨rem, hrem, rfl⟩, ?_⟩
      rw [putBack_append]
      exact ih e h2

/-- On a file cut off inside the consumed part, the conversions deliver a
beginning of the values and the next one finds the end of the file. -/
theorem scanToks_truncate {toks : List Tok} :
    ∀ {t rest : FileStream} (k : Nat), scanToks toks t = some rest →
      k < t.length - rest.length →
      ∃ pre tok post r1, toks = pre ++ tok :: post ∧ scanToks pre (t.take k) = some r1 ∧
        convFails tok r1 := by
  induction toks with
  | nil =>
    intro t rest k h hk
    simp only [scanToks, Option.some.injEq] at h
    subst h
    omega
  | cons tok toks ih =>
    intro t rest k h hk
    obtain ⟨s1, h1, h2⟩ := scanToks_cons.1 h
    cases t with
    | nil => rw [scanTok_nil] at h1; cases h1
    | cons l t0 =>
      obtain ⟨rem, hrem, rfl⟩ := scanTok_cons_some.1 h1
      cases k with
      | zero => exact ⟨[], tok, toks, [], rfl, rfl, convFails_nil tok⟩
      | succ k =>
        have hle := putBack_length_le rem t0
        have hge := putBack_length_ge rem t0
        simp only [List.length_cons] at hk
        obtain ⟨pre, tok', post, r1, e, hs, hf⟩ :=
          ih (k + ((putBack rem t0).length - t0.length)) h2 (by omega)
        refine ⟨tok :: pre, tok', post, r1, by rw [e]; rfl, ?_, hf⟩
        rw [List.take_succ_cons]
        refine scanToks_cons.2 ⟨_, scanTok_cons_some.2 ⟨rem, hrem, rfl⟩, ?_⟩
        rw [putBack_take]
        exact hs

/-- The values delivered by conversions of given kinds are determined by the
file. -/
theorem scanToks_det {a : List Tok} :
    ∀ {b : List Tok} {s r r' : FileStream}, scanToks a s = some r → scanToks b s = some r' →
      a.map Tok.isInt = b.map Tok.isInt → a = b ∧ r = r' := by
  induction a with
  | nil =>
    intro b s r r' ha hb hk
    cases b with
    | nil =>
      simp only [scanToks, Option.some.injEq] at ha hb
      exact ⟨rfl, ha.symm.trans hb⟩
    | cons _ _ => simp at hk
  | cons tok a ih =>
    intro b s r r' ha hb hk
    cases b with
    | nil => simp at hk
    | cons tok' b =>
      simp only [List.map_cons, List.cons.injEq] at hk
      obtain ⟨s1, h1, h2⟩ := scanToks_cons.1 ha
      obtain ⟨s1', h1', h2'⟩ := scanToks_cons.1 hb
      have key : tok = tok' ∧ s1 = s1' := by
        cases tok with
        | int z =>
          cases tok' with
          | int z' =>
            have e := (scanTok_int.1 h1).symm.trans (scanTok_int.1 h1')
            simp only [Option.some.injEq, Prod.mk.injEq] at e
            exact ⟨by rw [e.1], e.2⟩
          | dbl q' => simp [Tok.isInt] at hk
        | dbl q =>
          cases tok' with
          | int z' => simp [Tok.isInt] at hk
          | dbl q' =>
            have e := (scanTok_dbl.1 h1).symm.trans (scanTok_dbl.1 h1')
            simp only [Option.some.injEq, Prod.mk.injEq] at e
            exact ⟨by rw [e.1], e.2⟩
      obtain ⟨rfl, rfl⟩ := key
      obtain ⟨rfl, rfl⟩ := ih h2 h2' hk.2
      exact ⟨rfl, rfl⟩

theorem scanToks_det_front {a a2 b b2 : List Tok} {s r r' : FileStream}
    (ha : scanToks (a ++ a2) s = some r) (hb : scanToks (b ++ b2) s = some r')
    (hk : a.map Tok.isInt = b.map Tok.isInt) :
    a = b ∧ ∃ s1, scanToks a s = some s1 ∧ scanToks a2 s1 = some r ∧
      scanToks b2 s1 = some r' := by
  obtain ⟨x, hx, hx2⟩ := scanToks_append_some.1 ha
  obtain ⟨y, hy, hy2⟩ := scanToks_append_some.1 hb
  obtain ⟨rfl, rfl⟩ := scanToks_det hx hy hk
  exact ⟨rfl, x, hx, hx2, hy2⟩

theorem isInt_cells (a : DoubleArray) : (cells a).map Tok.isInt = List.replicate a.length false := by
  induction a with
  | nil => rfl
  | cons c a ih =>
    simp only [cells, List.map_cons, List.length_cons, List.replicate_succ, List.cons.injEq] at ih ⊢
    exact ⟨rfl, ih⟩

theorem isInt_map_dbl (D : List Double) :
    (D.map Tok.dbl).map Tok.isInt = List.replicate D.length false := by
  induction D with
  | nil => rfl
  | cons c a ih =>
    simp only [List.map_cons, List.length_cons, List.replicate_succ, List.cons.injEq] at ih ⊢
    exact ⟨rfl, ih⟩

theorem cells_length (a : DoubleArray) : (cells a).length = a.length := by
  simp [cells]

theorem returnTrue_ok {α : Type} {o : Outcome (α × FileStream)} {p : α} {b : Bool} :
    returnTrue o = .ok (b, p) ↔ b = true ∧ ∃ r, o = .ok (p, r) := by
  cases o with
  | ok x =>
    obtain ⟨a, r⟩ := x
    simp only [returnTrue, Outcome.ok.injEq, Prod.mk.injEq]
    constructor
    · rintro ⟨rfl, rfl⟩
      exact ⟨rfl, r, rfl, rfl⟩
    · rintro ⟨rfl, r', rfl, _⟩
      exact ⟨rfl, rfl⟩
  | fatal =>
    constructor
    · intro h; cases h
    · rintro ⟨_, r, h⟩; cases h
  | badAlloc =>
    constructor
    · intro h; cases h
    · rintro ⟨_, r, h⟩; cases h
  | undefined =>
    constructor
    · intro h; cases h
    · rintro ⟨_, r, h⟩; cases h

theorem returnTrue_fatal {α : Type} {o : Outcome (α × FileStream)} (h : o = .fatal) :
    returnTrue o = .fatal := by
  subst h
  rfl
theorem SingleViewPoseAdjustmentProblem.pose_loadStream_trace
    {self p : SingleViewPoseAdjustmentProblem} {s r : FileStream}
    (h : loadStream self s = .ok (p, r)) :
    Trace (loadStream self) s p r p.written ∧ p.WellFormed ∧
      p.carCenter3D_ = self.carCenter3D_ := by
  unfold loadStream at h ⊢
  obtain ⟨numPts, s1, h1, h⟩ := (Load.bind_ok _ _ _ _).1 h
  obtain ⟨cc0, s2, h2, h⟩ := (Load.bind_ok _ _ _ _).1 h
  obtain ⟨cc1, s3, h3, h⟩ := (Load.bind_ok _ _ _ _).1 h
  obtain ⟨cc2, s4, h4, h⟩ := (Load.bind_ok _ _ _ _).1 h
  obtain ⟨cc3, s5, h5, h⟩ := (Load.bind_ok _ _ _ _).1 h
  obtain ⟨vh, s6, h6, h⟩ := (Load.bind_ok _ _ _ _).1 h
  obtain ⟨vw, s7, h7, h⟩ := (Load.bind_ok _ _ _ _).1 h
  obtain ⟨vl, s8, h8, h⟩ := (Load.bind_ok _ _ _ _).1 h
  obtain ⟨K0, s9, h9, h⟩ := (Load.bind_ok _ _ _ _).1 h
  obtain ⟨K, s10, h10, h⟩ := (Load.bind_ok _ _ _ _).1 h
  obtain ⟨n1, s11, h11, h⟩ := (Load.bind_ok _ _ _ _).1 h
  obtain ⟨ob0, s12, h12, h⟩ := (Load.bind_ok _ _ _ _).1 h
  obtain ⟨ob, s13, h13, h⟩ := (Load.bind_ok _ _ _ _).1 h
  obtain ⟨wt0, s14, h14, h⟩ := (Load.bind_ok _ _ _ _).1 h
  obtain ⟨wt, s15, h15, h⟩ := (Load.bind_ok _ _ _ _).1 h
  obtain ⟨n2, s16, h16, h⟩ := (Load.bind_ok _ _ _ _).1 h
  obtain ⟨xb0, s17, h17, h⟩ := (Load.bind_ok _ _ _ _).1 h
  obtain ⟨xb, s18, h18, h⟩ := (Load.bind_ok _ _ _ _).1 h
  obtain ⟨numVec, s19, h19, h⟩ := (Load.bind_ok _ _ _ _).1 h
  obtain ⟨n3, s20, h20, h⟩ := (Load.bind_ok _ _ _ _).1 h
  obtain ⟨n4, s21, h21, h⟩ := (Load.bind_ok _ _ _ _).1 h
  obtain ⟨V0, s22, h22, h⟩ := (Load.bind_ok _ _ _ _).1 h
  obtain ⟨V, s23, h23, h⟩ := (Load.bind_ok _ _ _ _).1 h
  obtain ⟨lam0, s24, h24, h⟩ := (Load.bind_ok _ _ _ _).1 h
  obtain ⟨lam, s25, h25, h⟩ := (Load.bind_ok _ _ _ _).1 h
  rw [Load.pure_apply] at h
  simp only [Outcome.ok.injEq, Prod.mk.injEq] at h
  obtain ⟨hp, hr⟩ := h
  subst hr
  -- the car center
  obtain ⟨hcc0, _, _⟩ := newDouble_ok.1 h2
  obtain ⟨q0, e3, _, _, T3⟩ := scanInto_ok h3
  obtain ⟨q1, e4, _, _, T4⟩ := scanInto_ok h4
  obtain ⟨q2, e5, _, _, T5⟩ := scanInto_ok h5
  have hcc : cc3 = [some q0, some q1, some q2] := by
    rw [e5, e4, e3, hcc0]
    rfl
  -- the blocks
  obtain ⟨_, T9, vK, lK, eK, T10⟩ := block_ok (nest1 9) h9 (fun _ => rfl) h10
  obtain ⟨hn1, _, hr1⟩ := imul_ok.1 h11
  obtain ⟨p12, T12, vob, lob, eob, T13⟩ := block_ok
    (nest2 numPts 2 (fun i j => (i : Int) * 2 + (j : Int))
      (fun i j _ _ => by push_cast; rfl)) h12
    (fun hn => by subst hn1; show (2 * numPts).toNat = numPts.toNat * 2; omega) h13
  have hP : 0 ≤ numPts := by omega
  obtain ⟨_, T14, vwt, lwt, ewt, T15⟩ := block_ok (nest1 numPts) h14 (fun _ => rfl) h15
  obtain ⟨hn2, _, hr2⟩ := imul_ok.1 h16
  obtain ⟨_, T17, vxb, lxb, exb, T18⟩ := block_ok
    (nest2 numPts 3 (fun i j => (i : Int) * 3 + (j : Int))
      (fun i j _ _ => by push_cast; rfl)) h17
    (fun hn => by subst hn2; show (3 * numPts).toNat = numPts.toNat * 3; omega) h18
  obtain ⟨hn3, _, hr3⟩ := imul_ok.1 h20
  obtain ⟨hn4, _, hr4⟩ := imul_ok.1 h21
  obtain ⟨p22, T22, vV, lV, eV, T23⟩ := block_ok
    (nest2u numVec numPts (fun i j => (i : Int) * 3 * numPts + 3 * (j : Int))
      (fun i j c _ hj _ => by
        have : numPts = (numPts.toNat : Int) := by omega
        rw [this]
        push_cast
        simp only [Int.toNat_ofNat]
        ring)) h22
    (fun hn => by subst hn4 hn3; exact toNat_mul3 numVec numPts hP hn) h23
  obtain ⟨p24, T24, vlam, llam, elam, T25⟩ := block_ok (nest1 numVec) h24 (fun _ => rfl) h25
  simp only [INT_MIN, INT_MAX] at hr1 hr2 hr3 hr4
  subst hp hn1 hn2 hn3 hn4
  refine ⟨?_, ?_, rfl⟩
  · refine Trace.cast
      (Trace.bind (Trace.readInt h1) <| Trace.bind (Trace.newDouble h2) <| Trace.bind T3 <|
        Trace.bind T4 <| Trace.bind T5 <| Trace.bind (Trace.readDouble h6) <|
        Trace.bind (Trace.readDouble h7) <| Trace.bind (Trace.readDouble h8) <|
        Trace.bind T9 <| Trace.bind T10 <| Trace.bind (Trace.imul h11) <| Trace.bind T12 <|
        Trace.bind T13 <| Trace.bind T14 <| Trace.bind T15 <| Trace.bind (Trace.imul h16) <|
        Trace.bind T17 <| Trace.bind T18 <| Trace.bind (Trace.readInt h19) <|
        Trace.bind (Trace.imul h20) <| Trace.bind (Trace.imul h21) <| Trace.bind T22 <|
        Trace.bind T23 <| Trace.bind T24 <| Trace.bind T25 <| Trace.pure _ _) ?_
    simp only [written, hcc, eK, eob, ewt, exb, eV, elam, cells_map_some, cells_cons_some,
      cells_nil, List.nil_append, List.append_nil, List.cons_append, List.append_assoc]
  · exact {
      numPts_nonneg := hP
      numPts_le := hr2.2
      numVec_nonneg := p24
      numVec_le := hr3.2
      size_V_le := hr4.2
      len_carCenter := by rw [hcc]; rfl
      len_K := by rw [eK, List.length_map]; omega
      len_observations := by simp only [eob, List.length_map]; omega
      len_observationWeights := by simp only [ewt, List.length_map]; omega
      len_X_bar := by simp only [exb, List.length_map]; omega
      len_V := by simp only [eV, List.length_map]; omega
      len_lambdas := by simp only [elam, List.length_map]; omega
      full_carCenter := by rw [hcc]; intro c hc; simp at hc; rcases hc with rfl | rfl | rfl <;> simp
      full_K := eK ▸ full_map_some _
      full_observations := eob ▸ full_map_some _
      full_observationWeights := ewt ▸ full_map_some _
      full_X_bar := exb ▸ full_map_some _
      full_V := eV ▸ full_map_some _
      full_lambdas := elam ▸ full_map_some _ }

theorem toNat_mul (a b : Int) (ha : 0 ≤ a) (h : 0 ≤ a * b) :
    (a * b).toNat = a.toNat * b.toNat := by
  rcases eq_or_lt_of_le ha with h0 | h0
  · subst h0; simp
  · have hb : 0 ≤ b := by
      by_contra hb
      push_neg at hb
      have : a * b < 0 := by nlinarith
      omega
    lift a to Nat using ha
    lift b to Nat using hb
    simp only [Int.toNat_ofNat]
    have : ((a : Int) * b) = ((a * b : Nat) : Int) := by push_cast; ring
    rw [this, Int.toNat_ofNat]

theorem GroundPlaneAdjustmentProblem.ground_loadStream_trace
    {self p : GroundPlaneAdjustmentProblem} {s r : FileStream}
    (h : loadStream self s = .ok (p, r)) :
    Trace (loadStream self) s p r p.written ∧ p.WellFormed := by
  unfold loadStream at h ⊢
  obtain ⟨numViews, s1, h1, h⟩ := (Load.bind_ok _ _ _ _).1 h
  obtain ⟨numPoints, s2, h2, h⟩ := (Load.bind_ok _ _ _ _).1 h
  obtain ⟨K0, s3, h3, h⟩ := (Load.bind_ok _ _ _ _).1 h
  obtain ⟨K, s4, h4, h⟩ := (Load.bind_ok _ _ _ _).1 h
  obtain ⟨n1, s5, h5, h⟩ := (Load.bind_ok _ _ _ _).1 h
  obtain ⟨X0, s6, h6, h⟩ := (Load.bind_ok _ _ _ _).1 h
  obtain ⟨X, s7, h7, h⟩ := (Load.bind_ok _ _ _ _).1 h
  obtain ⟨n2, s8, h8, h⟩ := (Load.bind_ok _ _ _ _).1 h
  obtain ⟨R0, s9, h9, h⟩ := (Load.bind_ok _ _ _ _).1 h
  obtain ⟨R, s10, h10, h⟩ := (Load.bind_ok _ _ _ _).1 h
  obtain ⟨n3, s11, h11, h⟩ := (Load.bind_ok _ _ _ _).1 h
  obtain ⟨t0, s12, h12, h⟩ := (Load.bind_ok _ _ _ _).1 h
  obtain ⟨t, s13, h13, h⟩ := (Load.bind_ok _ _ _ _).1 h
  obtain ⟨n4, s14, h14, h⟩ := (Load.bind_ok _ _ _ _).1 h
  obtain ⟨n5, s15, h15, h⟩ := (Load.bind_ok _ _ _ _).1 h
  obtain ⟨x0, s16, h16, h⟩ := (Load.bind_ok _ _ _ _).1 h
  obtain ⟨x, s17, h17, h⟩ := (Load.bind_ok _ _ _ _).1 h
  obtain ⟨pl0, s18, h18, h⟩ := (Load.bind_ok _ _ _ _).1 h
  obtain ⟨pl, s19, h19, h⟩ := (Load.bind_ok _ _ _ _).1 h
  rw [Load.pure_apply] at h
  simp only [Outcome.ok.injEq, Prod.mk.injEq] at h
  obtain ⟨hp, hr⟩ := h
  subst hr
  obtain ⟨_, T3, vK, lK, eK, T4⟩ := block_ok (nest1 9) h3 (fun _ => rfl) h4
  obtain ⟨hn1, _, hr1⟩ := imul_ok.1 h5
  obtain ⟨p6, T6, vX, lX, eX, T7⟩ := block_ok
    (nest2 numPoints 3 (fun i j => 3 * (i : Int) + (j : Int))
      (fun i j _ _ => by push_cast; show _ = (i : Int) * 3 + j; ring)) h6
    (fun hn => by subst hn1; show (3 * numPoints).toNat = numPoints.toNat * 3; omega) h7
  have hP : 0 ≤ numPoints := by omega
  obtain ⟨hn2, _, hr2⟩ := imul_ok.1 h8
  obtain ⟨p9, T9, vR, lR, eR, T10⟩ := block_ok
    (nest2 numViews 9 (fun i j => 9 * (i : Int) + (j : Int))
      (fun i j _ _ => by push_cast; show _ = (i : Int) * 9 + j; ring)) h9
    (fun hn => by subst hn2; show (9 * numViews).toNat = numViews.toNat * 9; omega) h10
  have hW : 0 ≤ numViews := by omega
  obtain ⟨hn3, _, hr3⟩ := imul_ok.1 h11
  obtain ⟨p12, T12, vt, lt, et, T13⟩ := block_ok
    (nest2 numViews 3 (fun i j => 3 * (i : Int) + (j : Int))
      (fun i j _ _ => by push_cast; show _ = (i : Int) * 3 + j; ring)) h12
    (fun hn => by subst hn3; show (3 * numViews).toNat = numViews.toNat * 3; omega) h13
  obtain ⟨hn4, _, hr4⟩ := imul_ok.1 h14
  obtain ⟨hn5, _, hr5⟩ := imul_ok.1 h15
  obtain ⟨p16, T16, vx, lx, ex, T17⟩ := block_ok
    (nest3 numViews numPoints 2
      (fun i j k => (i : Int) * 2 * numPoints + 2 * (j : Int) + (k : Int))
      (fun i j k _ _ _ => by
        have : numPoints = (numPoints.toNat : Int) := by omega
        rw [this]
        push_cast
        simp only [Int.toNat_ofNat]
        show _ = (i : Int) * ((numPoints.toNat : Int) * 2) + ((j : Int) * 2 + k)
        ring)) h16
    (fun hn => by
      subst hn5 hn4
      lift numViews to Nat using hW
      lift numPoints to Nat using hP
      have e : (2 * (numPoints : Int) * numViews) = ((numViews * (numPoints * 2) : Nat) : Int) := by
        push_cast; ring
      rw [e]
      rfl) h17
  obtain ⟨_, T18, vpl, lpl, epl, T19⟩ := block_ok (nest1 4) h18 (fun _ => rfl) h19
  simp only [INT_MIN, INT_MAX] at hr1 hr2 hr3 hr4 hr5
  subst hp hn1 hn2 hn3 hn4 hn5
  refine ⟨?_, ?_⟩
  · refine Trace.cast
      (Trace.bind (Trace.readInt h1) <| Trace.bind (Trace.readInt h2) <|
        Trace.bind T3 <| Trace.bind T4 <| Trace.bind (Trace.imul h5) <| Trace.bind T6 <|
        Trace.bind T7 <| Trace.bind (Trace.imul h8) <| Trace.bind T9 <| Trace.bind T10 <|
        Trace.bind (Trace.imul h11) <| Trace.bind T12 <| Trace.bind T13 <|
        Trace.bind (Trace.imul h14) <| Trace.bind (Trace.imul h15) <| Trace.bind T16 <|
        Trace.bind T17 <| Trace.bind T18 <| Trace.bind T19 <| Trace.pure _ _) ?_
    simp only [written, eK, eX, eR, et, ex, epl, cells_map_some, cells_cons_some,
      cells_nil, List.nil_append, List.append_nil, List.cons_append, List.append_assoc]
  · exact {
      numViews_nonneg := hW
      numViews_le := hr2.2
      numPoints_nonneg := hP
      numPoints_le := hr1.2
      size_xs_le := hr5.2
      len_K := by rw [eK, List.length_map]; omega
      len_Xs := by simp only [eX, List.length_map]; omega
      len_Rs := by simp only [eR, List.length_map]; omega
      len_ts := by simp only [et, List.length_map]; omega
      len_xs := by simp only [ex, List.length_map]; omega
      len_plane := by rw [epl, List.length_map]; omega
      full_K := eK ▸ full_map_some _
      full_Xs := eX ▸ full_map_some _
      full_Rs := eR ▸ full_map_some _
      full_ts := et ▸ full_map_some _
      full_xs := ex ▸ full_map_some _
      full_plane := epl ▸ full_map_some _ }

theorem SingleViewShapeAdjustmentProblem.shape_loadStream_trace
    {self p : SingleViewShapeAdjustmentProblem} {s r : FileStream}
    (h : loadStream self s = .ok (p, r)) :
    Trace (loadStream self) s p r p.written ∧ p.WellFormed := by
  unfold loadStream at h ⊢
  obtain ⟨numPts, s1, h1, h⟩ := (Load.bind_ok _ _ _ _).1 h
  obtain ⟨cc0, s2, h2, h⟩ := (Load.bind_ok _ _ _ _).1 h
  obtain ⟨cc1, s3, h3, h⟩ := (Load.bind_ok _ _ _ _).1 h
  obtain ⟨cc2, s4, h4, h⟩ := (Load.bind_ok _ _ _ _).1 h
  obtain ⟨cc3, s5, h5, h⟩ := (Load.bind_ok _ _ _ _).1 h
  obtain ⟨vh, s6, h6, h⟩ := (Load.bind_ok _ _ _ _).1 h
  obtain ⟨vw, s7, h7, h⟩ := (Load.bind_ok _ _ _ _).1 h
  obtain ⟨vl, s8, h8, h⟩ := (Load.bind_ok _ _ _ _).1 h
  obtain ⟨K0, s9, h9, h⟩ := (Load.bind_ok _ _ _ _).1 h
  obtain ⟨K, s10, h10, h⟩ := (Load.bind_ok _ _ _ _).1 h
  obtain ⟨n1, s11, h11, h⟩ := (Load.bind_ok _ _ _ _).1 h
  obtain ⟨ob0, s12, h12, h⟩ := (Load.bind_ok _ _ _ _).1 h
  obtain ⟨ob, s13, h13, h⟩ := (Load.bind_ok _ _ _ _).1 h
  obtain ⟨wt0, s14, h14, h⟩ := (Load.bind_ok _ _ _ _).1 h
  obtain ⟨wt, s15, h15, h⟩ := (Load.bind_ok _ _ _ _).1 h
  obtain ⟨n2, s16, h16, h⟩ := (Load.bind_ok _ _ _ _).1 h
  obtain ⟨xb0, s17, h17, h⟩ := (Load.bind_ok _ _ _ _).1 h
  obtain ⟨xb, s18, h18, h⟩ := (Load.bind_ok _ _ _ _).1 h
  obtain ⟨numVec, s19, h19, h⟩ := (Load.bind_ok _ _ _ _).1 h
  obtain ⟨n3, s20, h20, h⟩ := (Load.bind_ok _ _ _ _).1 h
  obtain ⟨n4, s21, h21, h⟩ := (Load.bind_ok _ _ _ _).1 h
  obtain ⟨V0, s22, h22, h⟩ := (Load.bind_ok _ _ _ _).1 h
  obtain ⟨V, s23, h23, h⟩ := (Load.bind_ok _ _ _ _).1 h
  obtain ⟨lam0, s24, h24, h⟩ := (Load.bind_ok _ _ _ _).1 h
  obtain ⟨lam, s25, h25, h⟩ := (Load.bind_ok _ _ _ _).1 h
  obtain ⟨rot0, s26, h26, h⟩ := (Load.bind_ok _ _ _ _).1 h
  obtain ⟨rot, s27, h27, h⟩ := (Load.bind_ok _ _ _ _).1 h
  obtain ⟨tr0, s28, h28, h⟩ := (Load.bind_ok _ _ _ _).1 h
  obtain ⟨tr, s29, h29, h⟩ := (Load.bind_ok _ _ _ _).1 h
  rw [Load.pure_apply] at h
  simp only [Outcome.ok.injEq, Prod.mk.injEq] at h
  obtain ⟨hp, hr⟩ := h
  subst hr
  -- the car center
  obtain ⟨hcc0, _, _⟩ := newDouble_ok.1 h2
  obtain ⟨q0, e3, _, _, T3⟩ := scanInto_ok h3
  obtain ⟨q1, e4, _, _, T4⟩ := scanInto_ok h4
  obtain ⟨q2, e5, _, _, T5⟩ := scanInto_ok h5
  have hcc : cc3 = [some q0, some q1, some q2] := by
    rw [e5, e4, e3, hcc0]
    rfl
  -- the blocks
  obtain ⟨_, T9, vK, lK, eK, T10⟩ := block_ok (nest1 9) h9 (fun _ => rfl) h10
  obtain ⟨hn1, _, hr1⟩ := imul_ok.1 h11
  obtain ⟨p12, T12, vob, lob, eob, T13⟩ := block_ok
    (nest2 numPts 2 (fun i j => (i : Int) * 2 + (j : Int))
      (fun i j _ _ => by push_cast; rfl)) h12
    (fun hn => by subst hn1; show (2 * numPts).toNat = numPts.toNat * 2; omega) h13
  have hP : 0 ≤ numPts := by omega
  obtain ⟨_, T14, vwt, lwt, ewt, T15⟩ := block_ok (nest1 numPts) h14 (fun _ => rfl) h15
  obtain ⟨hn2, _, hr2⟩ := imul_ok.1 h16
  obtain ⟨_, T17, vxb, lxb, exb, T18⟩ := block_ok
    (nest2 numPts 3 (fun i j => (i : Int) * 3 + (j : Int))
      (fun i j _ _ => by push_cast; rfl)) h17
    (fun hn => by subst hn2; show (3 * numPts).toNat = numPts.toNat * 3; omega) h18
  obtain ⟨hn3, _, hr3⟩ := imul_ok.1 h20
  obtain ⟨hn4, _, hr4⟩ := imul_ok.1 h21
  obtain ⟨p22, T22, vV, lV, eV, T23⟩ := block_ok
    (nest2u numVec numPts (fun i j => (i : Int) * 3 * numPts + 3 * (j : Int))
      (fun i j c _ hj _ => by
        have : numPts = (numPts.toNat : Int) := by omega
        rw [this]
        push_cast
        simp only [Int.toNat_ofNat]
        ring)) h22
    (fun hn => by subst hn4 hn3; exact toNat_mul3 numVec numPts hP hn) h23
  obtain ⟨p24, T24, vlam, llam, elam, T25⟩ := block_ok (nest1 numVec) h24 (fun _ => rfl) h25
  obtain ⟨_, T26, vrot, lrot, erot, T27⟩ := block_ok (nest1 9) h26 (fun _ => rfl) h27
  obtain ⟨_, T28, vtr, ltr, etr, T29⟩ := block_ok (nest1 3) h28 (fun _ => rfl) h29
  simp only [INT_MIN, INT_MAX] at hr1 hr2 hr3 hr4
  subst hp hn1 hn2 hn3 hn4
  refine ⟨?_, ?_⟩
  · refine Trace.cast
      (Trace.bind (Trace.readInt h1) <| Trace.bind (Trace.newDouble h2) <| Trace.bind T3 <|
        Trace.bind T4 <| Trace.bind T5 <| Trace.bind (Trace.readDouble h6) <|
        Trace.bind (Trace.readDouble h7) <| Trace.bind (Trace.readDouble h8) <|
        Trace.bind T9 <| Trace.bind T10 <| Trace.bind (Trace.imul h11) <| Trace.bind T12 <|
        Trace.bind T13 <| Trace.bind T14 <| Trace.bind T15 <| Trace.bind (Trace.imul h16) <|
        Trace.bind T17 <| Trace.bind T18 <| Trace.bind (Trace.readInt h19) <|
        Trace.bind (Trace.imul h20) <| Trace.bind (Trace.imul h21) <| Trace.bind T22 <|
        Trace.bind T23 <| Trace.bind T24 <| Trace.bind T25 <| Trace.bind T26 <|
        Trace.bind T27 <| Trace.bind T28 <| Trace.bind T29 <| Trace.pure _ _) ?_
    simp only [written, hcc, eK, eob, ewt, exb, eV, elam, erot, etr, cells_map_some,
      cells_cons_some, cells_nil, List.nil_append, List.append_nil, List.cons_append,
      List.append_assoc]
  · exact {
      numPts_nonneg := hP
      numPts_le := hr2.2
      numVec_nonneg := p24
      numVec_le := hr3.2
      size_V_le := hr4.2
      len_carCenter := by rw [hcc]; rfl
      len_K := by rw [eK, List.length_map]; omega
      len_observations := by simp only [eob, List.length_map]; omega
      len_observationWeights := by simp only [ewt, List.length_map]; omega
      len_X_bar := by simp only [exb, List.length_map]; omega
      len_V := by simp only [eV, List.length_map]; omega
      len_lambdas := by simp only [elam, List.length_map]; omega
      len_rot := by rw [erot, List.length_map]; omega
      len_trans := by rw [etr, List.length_map]; omega
      full_carCenter := by rw [hcc]; intro c hc; simp at hc; rcases hc with rfl | rfl | rfl <;> simp
      full_K := eK ▸ full_map_some _
      full_observations := eob ▸ full_map_some _
      full_observationWeights := ewt ▸ full_map_some _
      full_X_bar := exb ▸ full_map_some _
      full_V := eV ▸ full_map_some _
      full_lambdas := elam ▸ full_map_some _
      full_rot := erot ▸ full_map_some _
      full_trans := etr ▸ full_map_some _ }

theorem MultiViewShapeandPoseAdjuster.multi_loadStream_trace
    {self p : MultiViewShapeandPoseAdjuster} {s r : FileStream}
    (h : loadStream self s = .ok (p, r)) :
    Trace (loadStream self) s p r p.written ∧ p.WellFormed := by
  unfold loadStream at h ⊢
  obtain ⟨numViews, s1, h1, h⟩ := (Load.bind_ok _ _ _ _).1 h
  obtain ⟨numPts, s2, h2, h⟩ := (Load.bind_ok _ _ _ _).1 h
  obtain ⟨numObs, s3, h3, h⟩ := (Load.bind_ok _ _ _ _).1 h
  obtain ⟨vh, s4, h4, h⟩ := (Load.bind_ok _ _ _ _).1 h
  obtain ⟨vw, s5, h5, h⟩ := (Load.bind_ok _ _ _ _).1 h
  obtain ⟨vl, s6, h6, h⟩ := (Load.bind_ok _ _ _ _).1 h
  obtain ⟨K0, s7, h7, h⟩ := (Load.bind_ok _ _ _ _).1 h
  obtain ⟨K, s8, h8, h⟩ := (Load.bind_ok _ _ _ _).1 h
  obtain ⟨n1, s9, h9, h⟩ := (Load.bind_ok _ _ _ _).1 h
  obtain ⟨cc0, s10, h10, h⟩ := (Load.bind_ok _ _ _ _).1 h
  obtain ⟨cc, s11, h11, h⟩ := (Load.bind_ok _ _ _ _).1 h
  obtain ⟨n2, s12, h12, h⟩ := (Load.bind_ok _ _ _ _).1 h
  obtain ⟨n3, s13, h13, h⟩ := (Load.bind_ok _ _ _ _).1 h
  obtain ⟨ob0, s14, h14, h⟩ := (Load.bind_ok _ _ _ _).1 h
  obtain ⟨ob, s15, h15, h⟩ := (Load.bind_ok _ _ _ _).1 h
  obtain ⟨n4, s16, h16, h⟩ := (Load.bind_ok _ _ _ _).1 h
  obtain ⟨wt0, s17, h17, h⟩ := (Load.bind_ok _ _ _ _).1 h
  obtain ⟨wt, s18, h18, h⟩ := (Load.bind_ok _ _ _ _).1 h
  obtain ⟨n5, s19, h19, h⟩ := (Load.bind_ok _ _ _ _).1 h
  obtain ⟨n6, s20, h20, h⟩ := (Load.bind_ok _ _ _ _).1 h
  obtain ⟨xb0, s21, h21, h⟩ := (Load.bind_ok _ _ _ _).1 h
  obtain ⟨xb, s22, h22, h⟩ := (Load.bind_ok _ _ _ _).1 h
  obtain ⟨numVec, s23, h23, h⟩ := (Load.bind_ok _ _ _ _).1 h
  obtain ⟨n7, s24, h24, h⟩ := (Load.bind_ok _ _ _ _).1 h
  obtain ⟨n8, s25, h25, h⟩ := (Load.bind_ok _ _ _ _).1 h
  obtain ⟨n9, s26, h26, h⟩ := (Load.bind_ok _ _ _ _).1 h
  obtain ⟨V0, s27, h27, h⟩ := (Load.bind_ok _ _ _ _).1 h
  obtain ⟨V, s28, h28, h⟩ := (Load.bind_ok _ _ _ _).1 h
  obtain ⟨lam0, s29, h29, h⟩ := (Load.bind_ok _ _ _ _).1 h
  obtain ⟨lam, s30, h30, h⟩ := (Load.bind_ok _ _ _ _).1 h
  obtain ⟨n10, s31, h31, h⟩ := (Load.bind_ok _ _ _ _).1 h
  obtain ⟨rot0, s32, h32, h⟩ := (Load.bind_ok _ _ _ _).1 h
  obtain ⟨rot, s33, h33, h⟩ := (Load.bind_ok _ _ _ _).1 h
  obtain ⟨n11, s34, h34, h⟩ := (Load.bind_ok _ _ _ _).1 h
  obtain ⟨tr0, s35, h35, h⟩ := (Load.bind_ok _ _ _ _).1 h
  obtain ⟨tr, s36, h36, h⟩ := (Load.bind_ok _ _ _ _).1 h
  rw [Load.pure_apply] at h
  simp only [Outcome.ok.injEq, Prod.mk.injEq] at h
  obtain ⟨hp, hr⟩ := h
  subst hr
  have hrP := (fscanfOrDieInt_ok.1 h2).2
  have hrO := (fscanfOrDieInt_ok.1 h3).2
  obtain ⟨_, T7, vK, lK, eK, T8⟩ := block_ok (nest1 9) h7 (fun _ => rfl) h8
  obtain ⟨hn1, _, hr1⟩ := imul_ok.1 h9
  obtain ⟨p10, T10, vcc, lcc, ecc, T11⟩ := block_ok
    (nest1u numViews (fun i => 3 * (i : Int))
      (fun i c _ _ => by push_cast; ring)) h10
    (fun hn => by subst hn1; show (numViews * 3).toNat = numViews.toNat * 3; omega) h11
  have hW : 0 ≤ numViews := by omega
  obtain ⟨hn2, _, hr2⟩ := imul_ok.1 h12
  obtain ⟨hn3, _, hr3⟩ := imul_ok.1 h13
  obtain ⟨p14, T14, vob, lob, eob, T15⟩ := block_ok
    (nest3 numViews numObs 2
      (fun i j k => (i : Int) * numObs * 2 + (j : Int) * 2 + (k : Int))
      (fun i j k _ hj _ => by
        have : numObs = (numObs.toNat : Int) := by omega
        rw [this]
        push_cast
        simp only [Int.toNat_ofNat]
        show _ = (i : Int) * ((numObs.toNat : Int) * 2) + ((j : Int) * 2 + k)
        ring)) h14
    (fun hn => by
      subst hn3 hn2
      rw [toNat_mul (numViews * 2) numObs (by omega) hn]
      have : (numViews * 2).toNat = numViews.toNat * 2 := by omega
      rw [this]
      show _ = numViews.toNat * (numObs.toNat * 2)
      ring) h15
  obtain ⟨hn4, _, hr4⟩ := imul_ok.1 h16
  obtain ⟨p17, T17, vwt, lwt, ewt, T18⟩ := block_ok
    (nest2 numViews numObs (fun i j => (i : Int) * numObs + (j : Int))
      (fun i j _ hj => by
        have : numObs = (numObs.toNat : Int) := by omega
        rw [this]
        push_cast
        simp only [Int.toNat_ofNat])) h17
    (fun hn => by subst hn4; exact toNat_mul numViews numObs hW hn) h18
  obtain ⟨hn5, _, hr5⟩ := imul_ok.1 h19
  obtain ⟨hn6, _, hr6⟩ := imul_ok.1 h20
  obtain ⟨p21, T21, vxb, lxb, exb, T22⟩ := block_ok
    (nest3 numViews numObs 3
      (fun i j k => (i : Int) * 3 * numObs + (j : Int) * 3 + (k : Int))
      (fun i j k _ hj _ => by
        have : numObs = (numObs.toNat : Int) := by omega
        rw [this]
        push_cast
        simp only [Int.toNat_ofNat]
        show _ = (i : Int) * ((numObs.toNat : Int) * 3) + ((j : Int) * 3 + k)
        ring)) h21
    (fun hn => by
      subst hn6 hn5
      rw [toNat_mul (numViews * 3) numObs (by omega) hn]
      have : (numViews * 3).toNat = numViews.toNat * 3 := by omega
      rw [this]
      show _ = numViews.toNat * (numObs.toNat * 3)
      ring) h22
  have hrv := (fscanfOrDieInt_ok.1 h23).2
  obtain ⟨_, _, hv⟩ := newDouble_ok.1 h29
  obtain ⟨hn7, _, hr7⟩ := imul_ok.1 h24
  obtain ⟨hn8, _, hr8⟩ := imul_ok.1 h25
  obtain ⟨hn9, _, hr9⟩ := imul_ok.1 h26
  obtain ⟨p27, T27, vV, lV, eV, T28⟩ := block_ok
    (nest3u numViews numVec numPts
      (fun i j k => (i : Int) * 3 * numVec * numPts + (j : Int) * 3 * numPts + 3 * (k : Int))
      (fun i j k c _ hj hk _ => by
        have e1 : numVec = (numVec.toNat : Int) := by omega
        have e2 : numPts = (numPts.toNat : Int) := by omega
        rw [e1, e2]
        push_cast
        simp only [Int.toNat_ofNat]
        ring)) h27
    (fun hn => by
      subst hn9 hn8 hn7
      have ha : 0 ≤ numViews * numVec * 3 := by positivity
      rw [toNat_mul (numViews * numVec * 3) numPts ha hn]
      have : (numViews * numVec * 3).toNat = numViews.toNat * numVec.toNat * 3 := by
        have := toNat_mul numViews numVec hW (by positivity)
        omega
      rw [this]
      ring) h28
  obtain ⟨_, T29, vlam, llam, elam, T30⟩ := block_ok (nest1 numVec) h29 (fun _ => rfl) h30
  obtain ⟨hn10, _, hr10⟩ := imul_ok.1 h31
  obtain ⟨p32, T32, vrot, lrot, erot, T33⟩ := block_ok
    (nest2 numViews 9 (fun i j => (i : Int) * 9 + (j : Int))
      (fun i j _ _ => by push_cast; rfl)) h32
    (fun hn => by subst hn10; show (numViews * 9).toNat = numViews.toNat * 9; omega) h33
  obtain ⟨hn11, _, hr11⟩ := imul_ok.1 h34
  obtain ⟨p35, T35, vtr, ltr, etr, T36⟩ := block_ok
    (nest2 numViews 3 (fun i j => (i : Int) * 3 + (j : Int))
      (fun i j _ _ => by push_cast; rfl)) h35
    (fun hn => by subst hn11; show (numViews * 3).toNat = numViews.toNat * 3; omega) h36
  subst hp hn1 hn2 hn3 hn4 hn5 hn6 hn7 hn8 hn9 hn10 hn11
  refine ⟨?_, ?_⟩
  · refine Trace.cast
      (Trace.bind (Trace.readInt h1) <| Trace.bind (Trace.readInt h2) <|
        Trace.bind (Trace.readInt h3) <| Trace.bind (Trace.readDouble h4) <|
        Trace.bind (Trace.readDouble h5) <| Trace.bind (Trace.readDouble h6) <|
        Trace.bind T7 <| Trace.bind T8 <| Trace.bind (Trace.imul h9) <| Trace.bind T10 <|
        Trace.bind T11 <| Trace.bind (Trace.imul h12) <| Trace.bind (Trace.imul h13) <|
        Trace.bind T14 <| Trace.bind T15 <| Trace.bind (Trace.imul h16) <| Trace.bind T17 <|
        Trace.bind T18 <| Trace.bind (Trace.imul h19) <| Trace.bind (Trace.imul h20) <|
        Trace.bind T21 <| Trace.bind T22 <| Trace.bind (Trace.readInt h23) <|
        Trace.bind (Trace.imul h24) <| Trace.bind (Trace.imul h25) <|
        Trace.bind (Trace.imul h26) <| Trace.bind T27 <| Trace.bind T28 <| Trace.bind T29 <|
        Trace.bind T30 <| Trace.bind (Trace.imul h31) <| Trace.bind T32 <| Trace.bind T33 <|
        Trace.bind (Trace.imul h34) <| Trace.bind T35 <| Trace.bind T36 <| Trace.pure _ _) ?_
    simp only [written, eK, ecc, eob, ewt, exb, eV, elam, erot, etr, cells_map_some,
      cells_cons_some, cells_nil, List.nil_append, List.append_nil, List.cons_append,
      List.append_assoc]
  · exact {
      numViews_nonneg := hW
      numViews_le := hr10.2
      numVec_nonneg := hv
      numPts_ge := hrP.1
      numPts_le := hrP.2
      numObs_ge := hrO.1
      numObs_le := hrO.2
      size_X_bar_le := hr6.2
      size_V_le := hr9.2
      len_K := by rw [eK, List.length_map]; omega
      len_carCenter := by simp only [ecc, List.length_map]; omega
      len_observations := by simp only [eob, List.length_map]; omega
      len_observationWeights := by simp only [ewt, List.length_map]; omega
      len_X_bar := by simp only [exb, List.length_map]; omega
      len_V := by simp only [eV, List.length_map]; omega
      len_lambdas := by simp only [elam, List.length_map]; omega
      len_rot := by simp only [erot, List.length_map]; omega
      len_trans := by simp only [etr, List.length_map]; omega
      full_K := eK ▸ full_map_some _
      full_carCenter := ecc ▸ full_map_some _
      full_observations := eob ▸ full_map_some _
      full_observationWeights := ewt ▸ full_map_some _
      full_X_bar := exb ▸ full_map_some _
      full_V := eV ▸ full_map_some _
      full_lambdas := elam ▸ full_map_some _
      full_rot := erot ▸ full_map_some _
      full_trans := etr ▸ full_map_some _ }

/-! ## The concrete files load -/

theorem poseFile_loads :
    SingleViewPoseAdjustmentProblem.loadStream .blank poseFile = .ok (poseLoaded, []) := by
  decide!

theorem shapeFile_loads :
    SingleViewShapeAdjustmentProblem.loadStream .blank shapeFile = .ok (shapeLoaded, []) := by
  decide!

theorem groundFile_loads :
    GroundPlaneAdjustmentProblem.loadStream .blank groundFile = .ok (groundLoaded, []) := by
  decide!

theorem multiFile_loads :
    MultiViewShapeandPoseAdjuster.loadStream .blank multiFile = .ok (multiLoaded, []) := by
  decide!

/-! ## Declared counts -/

theorem SingleViewPoseAdjustmentProblem.pose_counts_of_declares
    {p : SingleViewPoseAdjustmentProblem} {t rest : FileStream} {n v : Int}
    (hs : scanToks p.written t = some rest) (wf : p.WellFormed)
    (hd : DeclaresSingleView t n v) : p.numPts_ = n ∧ p.numVec_ = v := by
  obtain ⟨D, s1, hD, hscan⟩ := hd
  simp only [written, List.append_assoc] at hs
  simp only [List.append_assoc] at hscan
  obtain ⟨e1, x, _, hx, hy⟩ := scanToks_det_front hs hscan rfl
  simp only [List.cons.injEq, Tok.int.injEq, and_true] at e1
  subst e1
  have hk : (cells p.carCenter_ ++ ([Tok.dbl p.h_, Tok.dbl p.w_, Tok.dbl p.l_] ++
      (cells p.K_ ++ (cells p.observations_ ++ (cells p.observationWeights_ ++
      cells p.X_bar_))))).map Tok.isInt = (D.map Tok.dbl).map Tok.isInt := by
    simp only [List.map_append, isInt_cells, isInt_map_dbl, List.map_cons, List.map_nil,
      Tok.isInt]
    have h1 := wf.len_carCenter
    have h2 := wf.len_K
    have h3 := wf.len_observations
    have h4 := wf.len_observationWeights
    have h5 := wf.len_X_bar
    have e : D.length = p.carCenter_.length + (3 + (p.K_.length + (p.observations_.length +
        (p.observationWeights_.length + p.X_bar_.length)))) := by omega
    rw [e]
    simp only [List.replicate_add]
    rfl
  simp only [← List.append_assoc] at hx
  simp only [List.append_assoc] at hx
  have hx' : scanToks ((cells p.carCenter_ ++ ([Tok.dbl p.h_, Tok.dbl p.w_, Tok.dbl p.l_] ++
      (cells p.K_ ++ (cells p.observations_ ++ (cells p.observationWeights_ ++
      cells p.X_bar_))))) ++ ([Tok.int p.numVec_] ++ (cells p.V_ ++ cells p.lambdas_))) x =
      some rest := by
    simpa only [List.append_assoc, List.cons_append, List.nil_append] using hx
  obtain ⟨_, y, _, hy1, hy2⟩ := scanToks_det_front hx' hy hk
  have hy2' : scanToks ([Tok.int v] ++ []) y = some s1 := by simpa using hy2
  obtain ⟨e2, _⟩ := scanToks_det_front hy1 hy2' rfl
  simp only [List.cons.injEq, Tok.int.injEq, and_true] at e2
  exact ⟨rfl, e2⟩

theorem SingleViewShapeAdjustmentProblem.shape_counts_of_declares
    {p : SingleViewShapeAdjustmentProblem} {t rest : FileStream} {n v : Int}
    (hs : scanToks p.written t = some rest) (wf : p.WellFormed)
    (hd : DeclaresSingleView t n v) : p.numPts_ = n ∧ p.numVec_ = v := by
  obtain ⟨D, s1, hD, hscan⟩ := hd
  simp only [written, List.append_assoc] at hs
  simp only [List.append_assoc] at hscan
  obtain ⟨e1, x, _, hx, hy⟩ := scanToks_det_front hs hscan rfl
  simp only [List.cons.injEq, Tok.int.injEq, and_true] at e1
  subst e1
  have hk : (cells p.carCenter_ ++ ([Tok.dbl p.h_, Tok.dbl p.w_, Tok.dbl p.l_] ++
      (cells p.K_ ++ (cells p.observations_ ++ (cells p.observationWeights_ ++
      cells p.X_bar_))))).map Tok.isInt = (D.map Tok.dbl).map Tok.isInt := by
    simp only [List.map_append, isInt_cells, isInt_map_dbl, List.map_cons, List.map_nil,
      Tok.isInt]
    have h1 := wf.len_carCenter
    have h2 := wf.len_K
    have h3 := wf.len_observations
    have h4 := wf.len_observationWeights
    have h5 := wf.len_X_bar
    have e : D.length = p.carCenter_.length + (3 + (p.K_.length + (p.observations_.length +
        (p.observationWeights_.length + p.X_bar_.length)))) := by omega
    rw [e]
    simp only [List.replicate_add]
    rfl
  have hx' : scanToks ((cells p.carCenter_ ++ ([Tok.dbl p.h_, Tok.dbl p.w_, Tok.dbl p.l_] ++
      (cells p.K_ ++ (cells p.observations_ ++ (cells p.observationWeights_ ++
      cells p.X_bar_))))) ++ ([Tok.int p.numVec_] ++ (cells p.V_ ++ (cells p.lambdas_ ++
      (cells p.rot_ ++ cells p.trans_))))) x = some rest := by
    simpa only [List.append_assoc, List.cons_append, List.nil_append] using hx
  obtain ⟨_, y, _, hy1, hy2⟩ := scanToks_det_front hx' hy hk
  have hy2' : scanToks ([Tok.int v] ++ []) y = some s1 := by simpa using hy2
  obtain ⟨e2, _⟩ := scanToks_det_front hy1 hy2' rfl
  simp only [List.cons.injEq, Tok.int.injEq, and_true] at e2
  exact ⟨rfl, e2⟩

theorem GroundPlaneAdjustmentProblem.ground_counts_of_declares
    {p : GroundPlaneAdjustmentProblem} {t rest : FileStream} {W P : Int}
    (hs : scanToks p.written t = some rest) (hd : DeclaresGroundPlane t W P) :
    p.numViews_ = W ∧ p.numPoints_ = P := by
  obtain ⟨s1, hscan⟩ := hd
  simp only [written, List.append_assoc] at hs
  have hscan' : scanToks ([Tok.int W, Tok.int P] ++ []) t = some s1 := by simpa using hscan
  obtain ⟨e1, _⟩ := scanToks_det_front hs hscan' rfl
  simp only [List.cons.injEq, Tok.int.injEq, and_true] at e1
  exact e1

theorem MultiViewShapeandPoseAdjuster.multi_counts_of_declares
    {p : MultiViewShapeandPoseAdjuster} {t rest : FileStream} {W P O v : Int}
    (hs : scanToks p.written t = some rest) (wf : p.WellFormed)
    (hd : DeclaresMultiView t W P O v) :
    p.numViews_ = W ∧ p.numPts_ = P ∧ p.numObs_ = O ∧ p.numVec_ = v := by
  obtain ⟨D, s1, hD, hscan⟩ := hd
  simp only [written, List.append_assoc] at hs
  simp only [List.append_assoc] at hscan
  have hs0 : scanToks ([Tok.int p.numViews_, Tok.int p.numPts_, Tok.int p.numObs_] ++
      ([Tok.dbl p.h_, Tok.dbl p.w_, Tok.dbl p.l_] ++ (cells p.K_ ++ (cells p.carCenter_ ++
      (cells p.observations_ ++ (cells p.observationWeights_ ++ (cells p.X_bar_ ++
      ([Tok.int p.numVec_] ++ (cells p.V_ ++ (cells p.lambdas_ ++ (cells p.rot_ ++
      cells p.trans_))))))))))) t = some rest := by
    simpa only [List.append_assoc, List.cons_append, List.nil_append] using hs
  obtain ⟨e1, x, _, hx, hy⟩ := scanToks_det_front hs0 hscan rfl
  simp only [List.cons.injEq, Tok.int.injEq, and_true] at e1
  obtain ⟨eW, eP, eO⟩ := e1
  subst eW eP eO
  have hk : ([Tok.dbl p.h_, Tok.dbl p.w_, Tok.dbl p.l_] ++ (cells p.K_ ++ (cells p.carCenter_ ++
      (cells p.observations_ ++ (cells p.observationWeights_ ++ cells p.X_bar_))))).map
      Tok.isInt = (D.map Tok.dbl).map Tok.isInt := by
    simp only [List.map_append, isInt_cells, isInt_map_dbl, List.map_cons, List.map_nil,
      Tok.isInt]
    have h1 := wf.len_carCenter
    have h2 := wf.len_K
    have h3 := wf.len_observations
    have h4 := wf.len_observationWeights
    have h5 := wf.len_X_bar
    have e : D.length = 3 + (p.K_.length + (p.carCenter_.length + (p.observations_.length +
        (p.observationWeights_.length + p.X_bar_.length)))) := by
      have : (D.length : Int) = 3 + (p.K_.length + (p.carCenter_.length +
          (p.observations_.length + (p.observationWeights_.length + p.X_bar_.length)))) := by
        rw [hD, h1, h2, h3, h4, h5]
        push_cast
        ring
      exact_mod_cast this
    rw [e]
    simp only [List.replicate_add]
    rfl
  have hx' : scanToks (([Tok.dbl p.h_, Tok.dbl p.w_, Tok.dbl p.l_] ++ (cells p.K_ ++
      (cells p.carCenter_ ++ (cells p.observations_ ++ (cells p.observationWeights_ ++
      cells p.X_bar_))))) ++ ([Tok.int p.numVec_] ++ (cells p.V_ ++ (cells p.lambdas_ ++
      (cells p.rot_ ++ cells p.trans_))))) x = some rest := by
    simpa only [List.append_assoc, List.cons_append, List.nil_append] using hx
  obtain ⟨_, y, _, hy1, hy2⟩ := scanToks_det_front hx' hy hk
  have hy2' : scanToks ([Tok.int v] ++ []) y = some s1 := by simpa using hy2
  obtain ⟨e2, _⟩ := scanToks_det_front hy1 hy2' rfl
  simp only [List.cons.injEq, Tok.int.injEq, and_true] at e2
  exact ⟨rfl, rfl, rfl, e2⟩

theorem cells_eq_vals (a : DoubleArray) : cells a = (vals a).map Tok.dbl := by
  simp [cells, vals]

theorem vals_length (a : DoubleArray) : (vals a).length = a.length := by
  simp [vals]

theorem SingleViewPoseAdjustmentProblem.pose_declares_of_scan
    {p : SingleViewPoseAdjustmentProblem} {t rest : FileStream}
    (hs : scanToks p.written t = some rest) (wf : p.WellFormed) :
    DeclaresSingleView t p.numPts_ p.numVec_ := by
  have e : p.written = ([Tok.int p.numPts_] ++ (vals p.carCenter_ ++ [p.h_, p.w_, p.l_] ++
      vals p.K_ ++ vals p.observations_ ++ vals p.observationWeights_ ++
      vals p.X_bar_).map Tok.dbl ++ [Tok.int p.numVec_]) ++ (cells p.V_ ++ cells p.lambdas_) := by
    simp only [written, cells_eq_vals, List.map_append, List.map_cons, List.map_nil,
      List.append_assoc]
  rw [e] at hs
  obtain ⟨s1, h1, _⟩ := scanToks_append_some.1 hs
  refine ⟨_, s1, ?_, h1⟩
  have h1 := wf.len_carCenter
  have h2 := wf.len_K
  have h3 := wf.len_observations
  have h4 := wf.len_observationWeights
  have h5 := wf.len_X_bar
  simp only [List.length_append, vals_length, List.length_cons, List.length_nil]
  push_cast
  omega

theorem SingleViewShapeAdjustmentProblem.shape_declares_of_scan
    {p : SingleViewShapeAdjustmentProblem} {t rest : FileStream}
    (hs : scanToks p.written t = some rest) (wf : p.WellFormed) :
    DeclaresSingleView t p.numPts_ p.numVec_ := by
  have e : p.written = ([Tok.int p.numPts_] ++ (vals p.carCenter_ ++ [p.h_, p.w_, p.l_] ++
      vals p.K_ ++ vals p.observations_ ++ vals p.observationWeights_ ++
      vals p.X_bar_).map Tok.dbl ++ [Tok.int p.numVec_]) ++
      (cells p.V_ ++ cells p.lambdas_ ++ cells p.rot_ ++ cells p.trans_) := by
    simp only [written, cells_eq_vals, List.map_append, List.map_cons, List.map_nil,
      List.append_assoc]
  rw [e] at hs
  obtain ⟨s1, h1, _⟩ := scanToks_append_some.1 hs
  refine ⟨_, s1, ?_, h1⟩
  have h1 := wf.len_carCenter
  have h2 := wf.len_K
  have h3 := wf.len_observations
  have h4 := wf.len_observationWeights
  have h5 := wf.len_X_bar
  simp only [List.length_append, vals_length, List.length_cons, List.length_nil]
  push_cast
  omega

theorem GroundPlaneAdjustmentProblem.ground_declares_of_scan
    {p : GroundPlaneAdjustmentProblem} {t rest : FileStream}
    (hs : scanToks p.written t = some rest) :
    DeclaresGroundPlane t p.numViews_ p.numPoints_ := by
  have e : p.written = [Tok.int p.numViews_, Tok.int p.numPoints_] ++ (cells p.K_ ++
      cells p.Xs_ ++ cells p.Rs_ ++ cells p.ts_ ++ cells p.xs_ ++ cells p.plane_) := by
    simp only [written, List.append_assoc]
  rw [e] at hs
  obtain ⟨s1, h1, _⟩ := scanToks_append_some.1 hs
  exact ⟨s1, h1⟩

theorem MultiViewShapeandPoseAdjuster.multi_declares_of_scan
    {p : MultiViewShapeandPoseAdjuster} {t rest : FileStream}
    (hs : scanToks p.written t = some rest) (wf : p.WellFormed) :
    DeclaresMultiView t p.numViews_ p.numPts_ p.numObs_ p.numVec_ := by
  have e : p.written = ([Tok.int p.numViews_, Tok.int p.numPts_, Tok.int p.numObs_] ++
      ([p.h_, p.w_, p.l_] ++ vals p.K_ ++ vals p.carCenter_ ++ vals p.observations_ ++
      vals p.observationWeights_ ++ vals p.X_bar_).map Tok.dbl ++ [Tok.int p.numVec_]) ++
      (cells p.V_ ++ cells p.lambdas_ ++ cells p.rot_ ++ cells p.trans_) := by
    simp only [written, cells_eq_vals, List.map_append, List.map_cons, List.map_nil,
      List.append_assoc, List.cons_append, List.nil_append]
  rw [e] at hs
  obtain ⟨s1, h1, _⟩ := scanToks_append_some.1 hs
  refine ⟨_, s1, ?_, h1⟩
  have h1 := wf.len_carCenter
  have h2 := wf.len_K
  have h3 := wf.len_observations
  have h4 := wf.len_observationWeights
  have h5 := wf.len_X_bar
  simp only [List.length_append, vals_length, List.length_cons, List.length_nil]
  push_cast
  rw [h1, h2, h3, h4, h5]
  push_cast
  ring

/-! ## C1 to C3: array lengths -/

/-- C1: when `loadFile` of `SingleViewPoseAdjustmentProblem` succeeds on a file
that declares `numPts = n` and `numVec = v`, the arrays have the lengths
carCenter 3, K 9, observations `2 n`, observationWeights `n`, X_bar `3 n`,
V `v * 3 * n`, lambdas `v`, and `getNumPts() = n`, `getNumVec() = v`; the same
holds for `SingleViewShapeAdjustmentProblem`, with rot 9 and trans 3 in
addition.  Every file on which the load succeeds declares its counts. -/
theorem C1_single_view_array_lengths :
    (∀ (self p : SingleViewPoseAdjustmentProblem) (t : FileStream),
      self.loadFile (some t) = .ok (true, p) →
        DeclaresSingleView t p.getNumPts p.getNumVec ∧
        ∀ n v : Int, DeclaresSingleView t n v →
          p.getCarCenter.length = 3 ∧ p.getK.length = 9 ∧
          (p.observations.length : Int) = 2 * n ∧
          (p.observationWeights.length : Int) = n ∧
          (p.getX_bar.length : Int) = 3 * n ∧
          (p.getV.length : Int) = v * 3 * n ∧
          (p.getLambdas.length : Int) = v ∧
          p.getNumPts = n ∧ p.getNumVec = v) ∧
    (∀ (self p : SingleViewShapeAdjustmentProblem) (t : FileStream),
      self.loadFile (some t) = .ok (true, p) →
        DeclaresSingleView t p.getNumPts p.getNumVec ∧
        ∀ n v : Int, DeclaresSingleView t n v →
          p.getCarCenter.length = 3 ∧ p.getK.length = 9 ∧
          (p.observations.length : Int) = 2 * n ∧
          (p.observationWeights.length : Int) = n ∧
          (p.getX_bar.length : Int) = 3 * n ∧
          (p.getV.length : Int) = v * 3 * n ∧
          (p.getLambdas.length : Int) = v ∧
          p.getRot.length = 9 ∧ p.getTrans.length = 3 ∧
          p.getNumPts = n ∧ p.getNumVec = v) := by
  constructor
  · intro self p t h
    obtain ⟨_, r, hl⟩ := returnTrue_ok.1 h
    obtain ⟨T, wf, _⟩ := SingleViewPoseAdjustmentProblem.pose_loadStream_trace hl
    refine ⟨SingleViewPoseAdjustmentProblem.pose_declares_of_scan T.scan wf, ?_⟩
    intro n v hd
    obtain ⟨rfl, rfl⟩ := SingleViewPoseAdjustmentProblem.pose_counts_of_declares T.scan wf hd
    exact ⟨wf.len_carCenter, wf.len_K, wf.len_observations, wf.len_observationWeights,
      wf.len_X_bar, wf.len_V, wf.len_lambdas, rfl, rfl⟩
  · intro self p t h
    obtain ⟨_, r, hl⟩ := returnTrue_ok.1 h
    obtain ⟨T, wf⟩ := SingleViewShapeAdjustmentProblem.shape_loadStream_trace hl
    refine ⟨SingleViewShapeAdjustmentProblem.shape_declares_of_scan T.scan wf, ?_⟩
    intro n v hd
    obtain ⟨rfl, rfl⟩ := SingleViewShapeAdjustmentProblem.shape_counts_of_declares T.scan wf hd
    exact ⟨wf.len_carCenter, wf.len_K, wf.len_observations, wf.len_observationWeights,
      wf.len_X_bar, wf.len_V, wf.len_lambdas, wf.len_rot, wf.len_trans, rfl, rfl⟩

theorem C1_single_view_array_lengths_witness :
    (SingleViewPoseAdjustmentProblem.blank.loadFile (some poseFile) = .ok (true, poseLoaded) ∧
      DeclaresSingleView poseFile 2 1 ∧
      (poseLoaded.getCarCenter.length = 3 ∧ poseLoaded.getK.length = 9 ∧
        (poseLoaded.observations.length : Int) = 2 * 2 ∧
        (poseLoaded.observationWeights.length : Int) = 2 ∧
        (poseLoaded.getX_bar.length : Int) = 3 * 2 ∧
        (poseLoaded.getV.length : Int) = 1 * 3 * 2 ∧
        (poseLoaded.getLambdas.length : Int) = 1 ∧
        poseLoaded.getNumPts = 2 ∧ poseLoaded.getNumVec = 1)) ∧
    (SingleViewShapeAdjustmentProblem.blank.loadFile (some shapeFile) = .ok (true, shapeLoaded) ∧
      DeclaresSingleView shapeFile 2 1 ∧
      (shapeLoaded.getCarCenter.length = 3 ∧ shapeLoaded.getK.length = 9 ∧
        (shapeLoaded.observations.length : Int) = 2 * 2 ∧
        (shapeLoaded.observationWeights.length : Int) = 2 ∧
        (shapeLoaded.getX_bar.length : Int) = 3 * 2 ∧
        (shapeLoaded.getV.length : Int) = 1 * 3 * 2 ∧
        (shapeLoaded.getLambdas.length : Int) = 1 ∧
        shapeLoaded.getRot.length = 9 ∧ shapeLoaded.getTrans.length = 3 ∧
        shapeLoaded.getNumPts = 2 ∧ shapeLoaded.getNumVec = 1)) :=
  have hp : SingleViewPoseAdjustmentProblem.blank.loadFile (some poseFile) =
      .ok (true, poseLoaded) := by decide!
  have hs : SingleViewShapeAdjustmentProblem.blank.loadFile (some shapeFile) =
      .ok (true, shapeLoaded) := by decide!
  ⟨⟨hp, (C1_single_view_array_lengths.1 _ _ _ hp).1,
      (C1_single_view_array_lengths.1 _ _ _ hp).2 2 1
        (C1_single_view_array_lengths.1 _ _ _ hp).1⟩,
    ⟨hs, (C1_single_view_array_lengths.2 _ _ _ hs).1,
      (C1_single_view_array_lengths.2 _ _ _ hs).2 2 1
        (C1_single_view_array_lengths.2 _ _ _ hs).1⟩⟩

/-- C2: when `loadFile` of `MultiViewShapeandPoseAdjuster` succeeds on a file that
declares `numViews = W`, `numPts = P`, `numObs = O`, `numVec = v`, the arrays
have the lengths K 9, carCenter `3 W`, observations `2 O W`,
observationWeights `O W`, X_bar `3 O W`, V `v * 3 * P * W`, rotations `9 W`,
translations `3 W` and lambdas `v` (one set, whatever `W` is).  Every file on
which the load succeeds declares its counts. -/
theorem C2_multi_view_array_lengths (self p : MultiViewShapeandPoseAdjuster) (t : FileStream)
    (h : self.loadFile (some t) = .ok (true, p)) :
    DeclaresMultiView t p.getNumViews p.getNumPts p.getNumObs p.getNumVec ∧
    ∀ W P O v : Int, DeclaresMultiView t W P O v →
      p.getK.length = 9 ∧
      (p.getCarCenter.length : Int) = 3 * W ∧
      (p.observations.length : Int) = 2 * O * W ∧
      (p.observationWeights.length : Int) = O * W ∧
      (p.getX_bar.length : Int) = 3 * O * W ∧
      (p.getV.length : Int) = v * 3 * P * W ∧
      (p.getRotations.length : Int) = 9 * W ∧
      (p.getTranslations.length : Int) = 3 * W ∧
      (p.getLambdas.length : Int) = v ∧
      p.getNumViews = W ∧ p.getNumPts = P ∧ p.getNumObs = O ∧ p.getNumVec = v := by
  obtain ⟨_, r, hl⟩ := returnTrue_ok.1 h
  obtain ⟨T, wf⟩ := MultiViewShapeandPoseAdjuster.multi_loadStream_trace hl
  refine ⟨MultiViewShapeandPoseAdjuster.multi_declares_of_scan T.scan wf, ?_⟩
  intro W P O v hd
  obtain ⟨rfl, rfl, rfl, rfl⟩ := MultiViewShapeandPoseAdjuster.multi_counts_of_declares T.scan wf hd
  refine ⟨wf.len_K, ?_, ?_, ?_, ?_, ?_, ?_, ?_, wf.len_lambdas, rfl, rfl, rfl, rfl⟩
  · exact wf.len_carCenter.trans (by ring)
  · exact wf.len_observations.trans (by ring)
  · exact wf.len_observationWeights.trans (by ring)
  · exact wf.len_X_bar.trans (by ring)
  · exact wf.len_V.trans (by ring)
  · exact wf.len_rot.trans (by ring)
  · exact wf.len_trans.trans (by ring)

theorem C2_multi_view_array_lengths_witness :
    MultiViewShapeandPoseAdjuster.blank.loadFile (some multiFile) = .ok (true, multiLoaded) ∧
    DeclaresMultiView multiFile 2 2 1 2 ∧
    (multiLoaded.getK.length = 9 ∧
      (multiLoaded.getCarCenter.length : Int) = 3 * 2 ∧
      (multiLoaded.observations.length : Int) = 2 * 1 * 2 ∧
      (multiLoaded.observationWeights.length : Int) = 1 * 2 ∧
      (multiLoaded.getX_bar.length : Int) = 3 * 1 * 2 ∧
      (multiLoaded.getV.length : Int) = 2 * 3 * 2 * 2 ∧
      (multiLoaded.getRotations.length : Int) = 9 * 2 ∧
      (multiLoaded.getTranslations.length : Int) = 3 * 2 ∧
      (multiLoaded.getLambdas.length : Int) = 2 ∧
      multiLoaded.getNumViews = 2 ∧ multiLoaded.getNumPts = 2 ∧ multiLoaded.getNumObs = 1 ∧
      multiLoaded.getNumVec = 2) :=
  have hm : MultiViewShapeandPoseAdjuster.blank.loadFile (some multiFile) =
      .ok (true, multiLoaded) := by decide!
  ⟨hm, (C2_multi_view_array_lengths _ _ _ hm).1,
    (C2_multi_view_array_lengths _ _ _ hm).2 2 2 1 2 (C2_multi_view_array_lengths _ _ _ hm).1⟩

/-- C3: when `loadFile` of `GroundPlaneAdjustmentProblem` succeeds on a file that
declares `numViews = W` and `numPoints = P`, the arrays have the lengths K 9,
Xs `3 P` (whatever `W` is), Rs `9 W`, ts `3 W`, xs `2 P W` and plane 4; with
`W = 1` and `P = 1` these are Rs 9, ts 3, xs 2, Xs 3, plane 4.  Every file on
which the load succeeds declares its counts. -/
theorem C3_ground_plane_array_lengths (self p : GroundPlaneAdjustmentProblem) (t : FileStream)
    (h : self.loadFile (some t) = .ok (true, p)) :
    DeclaresGroundPlane t p.numViews_ p.numPoints_ ∧
    (∀ W P : Int, DeclaresGroundPlane t W P →
      p.getK.length = 9 ∧
      (p.get3DPts.length : Int) = 3 * P ∧
      (p.getRs.length : Int) = 9 * W ∧
      (p.getts.length : Int) = 3 * W ∧
      (p.get2DPts.length : Int) = 2 * P * W ∧
      p.getPlaneParameters.length = 4 ∧
      p.getNumViews = Double.ofInt W ∧ p.getNumPts = Double.ofInt P) ∧
    (DeclaresGroundPlane t 1 1 →
      p.getRs.length = 9 ∧ p.getts.length = 3 ∧ p.get2DPts.length = 2 ∧
      p.get3DPts.length = 3 ∧ p.getPlaneParameters.length = 4) := by
  obtain ⟨_, r, hl⟩ := returnTrue_ok.1 h
  obtain ⟨T, wf⟩ := GroundPlaneAdjustmentProblem.ground_loadStream_trace hl
  have key : ∀ W P : Int, DeclaresGroundPlane t W P →
      p.getK.length = 9 ∧
      (p.get3DPts.length : Int) = 3 * P ∧
      (p.getRs.length : Int) = 9 * W ∧
      (p.getts.length : Int) = 3 * W ∧
      (p.get2DPts.length : Int) = 2 * P * W ∧
      p.getPlaneParameters.length = 4 ∧
      p.getNumViews = Double.ofInt W ∧ p.getNumPts = Double.ofInt P := by
    intro W P hd
    obtain ⟨rfl, rfl⟩ := GroundPlaneAdjustmentProblem.ground_counts_of_declares T.scan hd
    exact ⟨wf.len_K, wf.len_Xs, wf.len_Rs, wf.len_ts, wf.len_xs, wf.len_plane, rfl, rfl⟩
  refine ⟨GroundPlaneAdjustmentProblem.ground_declares_of_scan T.scan, key, ?_⟩
  intro hd
  obtain ⟨_, h1, h2, h3, h4, h5, _, _⟩ := key 1 1 hd
  refine ⟨?_, ?_, ?_, ?_, h5⟩ <;> omega

theorem C3_ground_plane_array_lengths_witness :
    GroundPlaneAdjustmentProblem.blank.loadFile (some groundFile) = .ok (true, groundLoaded) ∧
    DeclaresGroundPlane groundFile 1 1 ∧
    (groundLoaded.getRs.length = 9 ∧ groundLoaded.getts.length = 3 ∧
      groundLoaded.get2DPts.length = 2 ∧ groundLoaded.get3DPts.length = 3 ∧
      groundLoaded.getPlaneParameters.length = 4) :=
  have hg : GroundPlaneAdjustmentProblem.blank.loadFile (some groundFile) =
      .ok (true, groundLoaded) := by decide!
  ⟨hg, (C3_ground_plane_array_lengths _ _ _ hg).1,
    (C3_ground_plane_array_lengths _ _ _ hg).2.2 (C3_ground_plane_array_lengths _ _ _ hg).1⟩

/-! ## C4, C5: failures -/

theorem Trace.truncate {α : Type} {m : Load α} {t rest : FileStream} {a : α} {toks : List Tok}
    (T : Trace m t a rest toks) {k : Nat} (hk : k < t.length - rest.length) :
    m (t.take k) = .fatal := by
  obtain ⟨pre, tok, post, r1, e, hs, hf⟩ := scanToks_truncate k T.scan hk
  exact T.fail _ pre tok post r1 e hs hf

theorem Trace.extend {α : Type} {m : Load α} {t rest : FileStream} {a : α} {toks : List Tok}
    (T : Trace m t a rest toks) (e : FileStream) : m (t ++ e) = .ok (a, rest ++ e) :=
  T.same _ _ (scanToks_extend e T.scan)

/-- C4: for each of the four loaders, when the load of a file `t` succeeds and
leaves `rest` unread, the load of the first `k` tokens of `t`, for any `k`
smaller than the number of tokens consumed, ends in the fatal error
`Invalid data file`. -/
theorem C4_truncated_file_is_fatal :
    (∀ (self p : SingleViewPoseAdjustmentProblem) (t rest : FileStream) (k : Nat),
      self.loadStream t = .ok (p, rest) → k < t.length - rest.length →
        self.loadFile (some (t.take k)) = .fatal) ∧
    (∀ (self p : GroundPlaneAdjustmentProblem) (t rest : FileStream) (k : Nat),
      self.loadStream t = .ok (p, rest) → k < t.length - rest.length →
        self.loadFile (some (t.take k)) = .fatal) ∧
    (∀ (self p : SingleViewShapeAdjustmentProblem) (t rest : FileStream) (k : Nat),
      self.loadStream t = .ok (p, rest) → k < t.length - rest.length →
        self.loadFile (some (t.take k)) = .fatal) ∧
    (∀ (self p : MultiViewShapeandPoseAdjuster) (t rest : FileStream) (k : Nat),
      self.loadStream t = .ok (p, rest) → k < t.length - rest.length →
        self.loadFile (some (t.take k)) = .fatal) := by
  refine ⟨?_, ?_, ?_, ?_⟩
  · intro self p t rest k h hk
    exact returnTrue_fatal
      ((SingleViewPoseAdjustmentProblem.pose_loadStream_trace h).1.truncate hk)
  · intro self p t rest k h hk
    exact returnTrue_fatal
      ((GroundPlaneAdjustmentProblem.ground_loadStream_trace h).1.truncate hk)
  · intro self p t rest k h hk
    exact returnTrue_fatal
      ((SingleViewShapeAdjustmentProblem.shape_loadStream_trace h).1.truncate hk)
  · intro self p t rest k h hk
    exact returnTrue_fatal
      ((MultiViewShapeandPoseAdjuster.multi_loadStream_trace h).1.truncate hk)

theorem C4_truncated_file_is_fatal_witness :
    SingleViewPoseAdjustmentProblem.blank.loadFile (some (poseFile.take 20)) = .fatal ∧
    GroundPlaneAdjustmentProblem.blank.loadFile (some (groundFile.take 31)) = .fatal ∧
    SingleViewShapeAdjustmentProblem.blank.loadFile (some (shapeFile.take 40)) = .fatal ∧
    MultiViewShapeandPoseAdjuster.blank.loadFile (some (multiFile.take 50)) = .fatal :=
  ⟨C4_truncated_file_is_fatal.1 _ _ _ _ 20 poseFile_loads (by decide),
   C4_truncated_file_is_fatal.2.1 _ _ _ _ 31 groundFile_loads (by decide),
   C4_truncated_file_is_fatal.2.2.1 _ _ _ _ 40 shapeFile_loads (by decide),
   C4_truncated_file_is_fatal.2.2.2 _ _ _ _ 50 multiFile_loads (by decide)⟩

/-- C5: for each of the four loaders, when the file cannot be opened (`fopen`
returned `NULL`), `loadFile` returns `false`: the outcome is a normal return, not
the fatal error, and no token is read (the instance is as before). -/
theorem C5_open_failure_returns_false :
    (∀ self : SingleViewPoseAdjustmentProblem, self.loadFile none = .ok (false, self)) ∧
    (∀ self : GroundPlaneAdjustmentProblem, self.loadFile none = .ok (false, self)) ∧
    (∀ self : SingleViewShapeAdjustmentProblem, self.loadFile none = .ok (false, self)) ∧
    (∀ self : MultiViewShapeandPoseAdjuster, self.loadFile none = .ok (false, self)) :=
  ⟨fun _ => rfl, fun _ => rfl, fun _ => rfl, fun _ => rfl⟩

/-! ## C8: the concrete pose file -/

theorem SingleViewPoseAdjustmentProblem.loadStream_self
    (self : SingleViewPoseAdjustmentProblem) :
    loadStream self =
      (loadStream blank >>= fun p => pure { p with carCenter3D_ := self.carCenter3D_ }) := by
  unfold loadStream
  simp only [Load.bind_assoc, Load.pure_bind]

/-- C8: on the token stream `2 1 2 3 1.5 1.7 4.2 1 0 0 0 1 0 0 0 1 10 20 30 40 1.0
0.5 0 0 0 1 1 1 1 0 0 0 0 0 0 0.0` the pose loader succeeds, whatever the
instance held before, with `getNumPts() = 2`, `getK()` the identity,
`observations() = [10,20,30,40]`, `observationWeights() = [1.0,0.5]`, car
center `[1,2,3]`, dimensions 1.5, 1.7, 4.2, mean shape `[0,0,0,1,1,1]`,
`numVec = 1`, six zeros in `V` and `lambdas = [0.0]`. -/
theorem C8_concrete_pose_file (self : SingleViewPoseAdjustmentProblem) :
    ∃ p : SingleViewPoseAdjustmentProblem,
      self.loadFile (some poseFile) = .ok (true, p) ∧
      p.getNumPts = 2 ∧
      p.getK = [some 1, some 0, some 0, some 0, some 1, some 0, some 0, some 0, some 1] ∧
      p.observations = [some 10, some 20, some 30, some 40] ∧
      p.observationWeights = [some 1.0, some 0.5] ∧
      p.getCarCenter = [some 1, some 2, some 3] ∧
      p.getCarHeight = 1.5 ∧ p.getCarWidth = 1.7 ∧ p.getCarLength = 4.2 ∧
      p.getX_bar = [some 0, some 0, some 0, some 1, some 1, some 1] ∧
      p.getNumVec = 1 ∧
      p.getV = [some 0, some 0, some 0, some 0, some 0, some 0] ∧
      p.getLambdas = [some 0.0] := by
  refine ⟨{ poseLoaded with carCenter3D_ := self.carCenter3D_ }, ?_, rfl, rfl, rfl, rfl, rfl,
    rfl, rfl, rfl, rfl, rfl, rfl, rfl⟩
  simp only [SingleViewPoseAdjustmentProblem.loadFile]
  rw [SingleViewPoseAdjustmentProblem.loadStream_self, Load.bind_of_ok poseFile_loads]
  rfl

/-! ## C9: the number of tokens -/

/-- C9, as stated, fails: the pose file followed by one more token has 37 tokens
where the declared counts call for 36, and `loadFile` succeeds on it, with the
same instance as without the extra token. -/
theorem C9_extra_token_counterexample :
    poseFileExtra.length = 37 ∧
    17 + 6 * poseLoaded.getNumPts + poseLoaded.getNumVec * (3 * poseLoaded.getNumPts + 1) = 36 ∧
    SingleViewPoseAdjustmentProblem.blank.loadFile (some poseFileExtra) =
      .ok (true, poseLoaded) := by
  decide!

/-- C9, amended: for each of the four loaders, when the load of a file `t`
succeeds, tokens that follow `t` are ignored (the load of `t ++ extra` succeeds
with the same instance), and a file that stops before the last consumed token
is a fatal format error. -/
theorem C9_missing_tokens_fatal_extra_tokens_ignored :
    (∀ (self p : SingleViewPoseAdjustmentProblem) (t rest : FileStream),
      self.loadStream t = .ok (p, rest) →
        (∀ extra, self.loadFile (some (t ++ extra)) = .ok (true, p)) ∧
        (∀ k, k < t.length - rest.length → self.loadFile (some (t.take k)) = .fatal)) ∧
    (∀ (self p : GroundPlaneAdjustmentProblem) (t rest : FileStream),
      self.loadStream t = .ok (p, rest) →
        (∀ extra, self.loadFile (some (t ++ extra)) = .ok (true, p)) ∧
        (∀ k, k < t.length - rest.length → self.loadFile (some (t.take k)) = .fatal)) ∧
    (∀ (self p : SingleViewShapeAdjustmentProblem) (t rest : FileStream),
      self.loadStream t = .ok (p, rest) →
        (∀ extra, self.loadFile (some (t ++ extra)) = .ok (true, p)) ∧
        (∀ k, k < t.length - rest.length → self.loadFile (some (t.take k)) = .fatal)) ∧
    (∀ (self p : MultiViewShapeandPoseAdjuster) (t rest : FileStream),
      self.loadStream t = .ok (p, rest) →
        (∀ extra, self.loadFile (some (t ++ extra)) = .ok (true, p)) ∧
        (∀ k, k < t.length - rest.length → self.loadFile (some (t.take k)) = .fatal)) := by
  refine ⟨?_, ?_, ?_, ?_⟩
  · intro self p t rest h
    have T := (SingleViewPoseAdjustmentProblem.pose_loadStream_trace h).1
    exact ⟨fun e => returnTrue_ok.2 ⟨rfl, _, T.extend e⟩,
      fun k hk => returnTrue_fatal (T.truncate hk)⟩
  · intro self p t rest h
    have T := (GroundPlaneAdjustmentProblem.ground_loadStream_trace h).1
    exact ⟨fun e => returnTrue_ok.2 ⟨rfl, _, T.extend e⟩,
      fun k hk => returnTrue_fatal (T.truncate hk)⟩
  · intro self p t rest h
    have T := (SingleViewShapeAdjustmentProblem.shape_loadStream_trace h).1
    exact ⟨fun e => returnTrue_ok.2 ⟨rfl, _, T.extend e⟩,
      fun k hk => returnTrue_fatal (T.truncate hk)⟩
  · intro self p t rest h
    have T := (MultiViewShapeandPoseAdjuster.multi_loadStream_trace h).1
    exact ⟨fun e => returnTrue_ok.2 ⟨rfl, _, T.extend e⟩,
      fun k hk => returnTrue_fatal (T.truncate hk)⟩

theorem C9_missing_tokens_fatal_extra_tokens_ignored_witness :
    (SingleViewPoseAdjustmentProblem.blank.loadFile (some (poseFile ++ lexemes ["99", "x"])) =
        .ok (true, poseLoaded) ∧
      SingleViewPoseAdjustmentProblem.blank.loadFile (some (poseFile.take 35)) = .fatal) ∧
    (GroundPlaneAdjustmentProblem.blank.loadFile (some (groundFile ++ lexemes ["99", "x"])) =
        .ok (true, groundLoaded) ∧
      GroundPlaneAdjustmentProblem.blank.loadFile (some (groundFile.take 31)) = .fatal) ∧
    (SingleViewShapeAdjustmentProblem.blank.loadFile (some (shapeFile ++ lexemes ["99", "x"])) =
        .ok (true, shapeLoaded) ∧
      SingleViewShapeAdjustmentProblem.blank.loadFile (some (shapeFile.take 47)) = .fatal) ∧
    (MultiViewShapeandPoseAdjuster.blank.loadFile (some (multiFile ++ lexemes ["99", "x"])) =
        .ok (true, multiLoaded) ∧
      MultiViewShapeandPoseAdjuster.blank.loadFile (some (multiFile.take 83)) = .fatal) :=
  ⟨⟨(C9_missing_tokens_fatal_extra_tokens_ignored.1 _ _ _ _ poseFile_loads).1 _,
     (C9_missing_tokens_fatal_extra_tokens_ignored.1 _ _ _ _ poseFile_loads).2 35 (by decide)⟩,
   ⟨(C9_missing_tokens_fatal_extra_tokens_ignored.2.1 _ _ _ _ groundFile_loads).1 _,
     (C9_missing_tokens_fatal_extra_tokens_ignored.2.1 _ _ _ _ groundFile_loads).2 31
       (by decide)⟩,
   ⟨(C9_missing_tokens_fatal_extra_tokens_ignored.2.2.1 _ _ _ _ shapeFile_loads).1 _,
     (C9_missing_tokens_fatal_extra_tokens_ignored.2.2.1 _ _ _ _ shapeFile_loads).2 47
       (by decide)⟩,
   ⟨(C9_missing_tokens_fatal_extra_tokens_ignored.2.2.2 _ _ _ _ multiFile_loads).1 _,
     (C9_missing_tokens_fatal_extra_tokens_ignored.2.2.2 _ _ _ _ multiFile_loads).2 83
       (by decide)⟩⟩

/-! ## C6: round trip -/

/-- C6, amended: for each of the four loaders, when the load of `t` succeeds
with the instance `p` and leaves `rest`, the fields of `p` written in the
loader's field order, each array in storage order (`p.written`), are exactly
the values that the successive conversions took from `t`, in this order: the
load reorders and transposes nothing.  They are the values of the tokens
consumed, token by token, when the load consumed one token for each conversion;
in general one token can feed two conversions, so the written sequence need not
be the sequence of the tokens.  Conversely, the load of any file that delivers
the values `p.written`, such as one made of tokens that are their texts, yields
`p` again. -/
theorem C6_round_trip :
    (∀ (self p : SingleViewPoseAdjustmentProblem) (t rest : FileStream),
      self.loadStream t = .ok (p, rest) →
        scanToks p.written t = some rest ∧
        (∀ c, t = c ++ rest → c.length = p.written.length → List.Forall₂ Denotes c p.written) ∧
        (∀ t' rest', scanToks p.written t' = some rest' → self.loadStream t' = .ok (p, rest')) ∧
        (∀ c, List.Forall₂ Denotes c p.written → self.loadFile (some c) = .ok (true, p))) ∧
    (∀ (self p : GroundPlaneAdjustmentProblem) (t rest : FileStream),
      self.loadStream t = .ok (p, rest) →
        scanToks p.written t = some rest ∧
        (∀ c, t = c ++ rest → c.length = p.written.length → List.Forall₂ Denotes c p.written) ∧
        (∀ t' rest', scanToks p.written t' = some rest' → self.loadStream t' = .ok (p, rest')) ∧
        (∀ c, List.Forall₂ Denotes c p.written → self.loadFile (some c) = .ok (true, p))) ∧
    (∀ (self p : SingleViewShapeAdjustmentProblem) (t rest : FileStream),
      self.loadStream t = .ok (p, rest) →
        scanToks p.written t = some rest ∧
        (∀ c, t = c ++ rest → c.length = p.written.length → List.Forall₂ Denotes c p.written) ∧
        (∀ t' rest', scanToks p.written t' = some rest' → self.loadStream t' = .ok (p, rest')) ∧
        (∀ c, List.Forall₂ Denotes c p.written → self.loadFile (some c) = .ok (true, p))) ∧
    (∀ (self p : MultiViewShapeandPoseAdjuster) (t rest : FileStream),
      self.loadStream t = .ok (p, rest) →
        scanToks p.written t = some rest ∧
        (∀ c, t = c ++ rest → c.length = p.written.length → List.Forall₂ Denotes c p.written) ∧
        (∀ t' rest', scanToks p.written t' = some rest' → self.loadStream t' = .ok (p, rest')) ∧
        (∀ c, List.Forall₂ Denotes c p.written → self.loadFile (some c) = .ok (true, p))) := by
  have key : ∀ {α : Type} {m : Load α} {t rest : FileStream} {a : α} {toks : List Tok},
      Trace m t a rest toks →
        scanToks toks t = some rest ∧
        (∀ c, t = c ++ rest → c.length = toks.length → List.Forall₂ Denotes c toks) ∧
        (∀ t' rest', scanToks toks t' = some rest' → m t' = .ok (a, rest')) ∧
        (∀ c, List.Forall₂ Denotes c toks → returnTrue (m c) = .ok (true, a)) := by
    intro α m t rest a toks T
    refine ⟨T.scan, ?_, T.same, ?_⟩
    · intro c hc hl
      have hs := T.scan
      rw [hc] at hs
      exact denotes_of_scanToks hs hl
    · intro c hc
      have hs := scanToks_of_denotes hc []
      rw [List.append_nil] at hs
      exact returnTrue_ok.2 ⟨rfl, [], T.same c [] hs⟩
  refine ⟨?_, ?_, ?_, ?_⟩
  · intro self p t rest h
    exact key (SingleViewPoseAdjustmentProblem.pose_loadStream_trace h).1
  · intro self p t rest h
    exact key (GroundPlaneAdjustmentProblem.ground_loadStream_trace h).1
  · intro self p t rest h
    exact key (SingleViewShapeAdjustmentProblem.shape_loadStream_trace h).1
  · intro self p t rest h
    exact key (MultiViewShapeandPoseAdjuster.multi_loadStream_trace h).1

theorem C6_round_trip_witness :
    (scanToks poseLoaded.written poseFile = some [] ∧
      List.Forall₂ Denotes poseFile poseLoaded.written ∧
      SingleViewPoseAdjustmentProblem.blank.loadFile (some poseFile) = .ok (true, poseLoaded)) ∧
    (scanToks groundLoaded.written groundFile = some [] ∧
      List.Forall₂ Denotes groundFile groundLoaded.written ∧
      GroundPlaneAdjustmentProblem.blank.loadFile (some groundFile) = .ok (true, groundLoaded)) ∧
    (scanToks shapeLoaded.written shapeFile = some [] ∧
      List.Forall₂ Denotes shapeFile shapeLoaded.written ∧
      SingleViewShapeAdjustmentProblem.blank.loadFile (some shapeFile) = .ok (true, shapeLoaded)) ∧
    (scanToks multiLoaded.written multiFile = some [] ∧
      List.Forall₂ Denotes multiFile multiLoaded.written ∧
      MultiViewShapeandPoseAdjuster.blank.loadFile (some multiFile) = .ok (true, multiLoaded)) :=
  have hp := C6_round_trip.1 _ _ _ _ poseFile_loads
  have hg := C6_round_trip.2.1 _ _ _ _ groundFile_loads
  have hs := C6_round_trip.2.2.1 _ _ _ _ shapeFile_loads
  have hm := C6_round_trip.2.2.2 _ _ _ _ multiFile_loads
  have dp := hp.2.1 poseFile (List.append_nil _).symm (by decide)
  have dg := hg.2.1 groundFile (List.append_nil _).symm (by decide)
  have ds := hs.2.1 shapeFile (List.append_nil _).symm (by decide)
  have dm := hm.2.1 multiFile (List.append_nil _).symm (by decide)
  ⟨⟨hp.1, dp, hp.2.2.2 _ dp⟩, ⟨hg.1, dg, hg.2.2.2 _ dg⟩, ⟨hs.1, ds, hs.2.2.2 _ ds⟩,
    ⟨hm.1, dm, hm.2.2.2 _ dm⟩⟩

/-! ## C7: the offset of a basis value -/

theorem length_flatMap_range {α : Type} (f : Nat → List α) (m : Nat)
    (hlen : ∀ i, (f i).length = m) (n : Nat) : ((List.range n).flatMap f).length = n * m := by
  induction n with
  | zero => simp
  | succ n ih =>
    rw [List.range_succ, List.flatMap_append, List.length_append, ih]
    simp only [List.flatMap_cons, List.flatMap_nil, List.append_nil, hlen]
    ring

theorem getElem?_flatMap_range {α : Type} (f : Nat → List α) (m : Nat)
    (hlen : ∀ i, (f i).length = m) (n i r : Nat) (hi : i < n) (hr : r < m) :
    ((List.range n).flatMap f)[i * m + r]? = (f i)[r]? := by
  induction n with
  | zero => omega
  | succ n ih =>
    rw [List.range_succ, List.flatMap_append]
    have hl := length_flatMap_range f m hlen n
    by_cases h : i < n
    · rw [List.getElem?_append_left, ih h]
      rw [hl]
      have : i * m + m ≤ n * m := by
        have := Nat.mul_le_mul_right m (Nat.succ_le_of_lt h)
        simpa [Nat.succ_mul] using this
      omega
    · have e : i = n := by omega
      subst e
      rw [List.getElem?_append_right (by rw [hl]; omega), hl]
      simp only [List.flatMap_cons, List.flatMap_nil, List.append_nil]
      congr 1
      omega

theorem basisSection_length (W v P : Nat) (s : Nat → Nat → Nat → Nat → Double) :
    (basisSection W v P s).length = W * (v * (P * 3)) := by
  unfold basisSection
  refine length_flatMap_range _ _ (fun i => ?_) W
  refine length_flatMap_range _ _ (fun j => ?_) v
  refine length_flatMap_range _ _ (fun k => ?_) P
  simp

theorem basisSection_getElem? (W v P : Nat) (s : Nat → Nat → Nat → Nat → Double) (i j k c : Nat)
    (hi : i < W) (hj : j < v) (hk : k < P) (hc : c < 3) :
    (basisSection W v P s)[i * (v * (P * 3)) + (j * (P * 3) + (k * 3 + c))]? =
      some (s i j k c) := by
  have l3 : ∀ i j k, ((List.range 3).map fun c => s i j k c).length = 3 := by
    intro i j k
    simp
  have l2 : ∀ i j, ((List.range P).flatMap fun k =>
      (List.range 3).map fun c => s i j k c).length = P * 3 :=
    fun i j => length_flatMap_range _ _ (l3 i j) P
  have l1 : ∀ i, ((List.range v).flatMap fun j => (List.range P).flatMap fun k =>
      (List.range 3).map fun c => s i j k c).length = v * (P * 3) :=
    fun i => length_flatMap_range _ _ (l2 i) v
  have hk3 : k * 3 + c < P * 3 := by omega
  have hj3 : j * (P * 3) + (k * 3 + c) < v * (P * 3) := by
    have := Nat.mul_le_mul_right (P * 3) (Nat.succ_le_of_lt hj)
    rw [Nat.succ_mul] at this
    omega
  unfold basisSection
  rw [getElem?_flatMap_range _ _ l1 W i _ hi hj3,
    getElem?_flatMap_range _ _ (l2 i) v j _ hj hk3,
    getElem?_flatMap_range _ _ (l3 i j) P k c hk hc]
  simp [hc]

theorem eq_map_some_of_cells {a : DoubleArray} :
    ∀ {l : List Double}, Full a → cells a = l.map Tok.dbl → a = l.map some := by
  induction a with
  | nil =>
    intro l _ h
    cases l with
    | nil => rfl
    | cons _ _ => simp [cells] at h
  | cons x a ih =>
    intro l hf h
    cases l with
    | nil => simp [cells] at h
    | cons q l =>
      have hx : x ≠ none := hf x (by simp)
      have hfa : Full a := fun c hc => hf c (by simp [hc])
      cases x with
      | none => exact absurd rfl hx
      | some y =>
        rw [cells_cons_some] at h
        simp only [List.map_cons, List.cons.injEq, Tok.dbl.injEq] at h
        simp only [List.map_cons, List.cons.injEq, Option.some.injEq]
        exact ⟨h.1, ih hfa h.2⟩

/-- C7: when `loadFile` of `MultiViewShapeandPoseAdjuster` succeeds on a file
whose basis section holds the values `s view vec pt coord` in view-major, then
vector-major, then keypoint-major, then coordinate-minor order, the array `V`
has `V[view*3*numVec*numPts + vec*3*numPts + 3*pt + coord] = s view vec pt coord`
for every view, vector, keypoint and coordinate in range. -/
theorem C7_basis_offset_formula (self p : MultiViewShapeandPoseAdjuster) (t : FileStream)
    (W P O v : Nat) (s : Nat → Nat → Nat → Nat → Double)
    (h : self.loadFile (some t) = .ok (true, p)) (hb : HasBasisSection t W P O v s) :
    ∀ i j k c : Nat, i < W → j < v → k < P → c < 3 →
      p.getV[i * 3 * v * P + j * 3 * P + 3 * k + c]? = some (some (s i j k c)) := by
  obtain ⟨_, rest, hl⟩ := returnTrue_ok.1 h
  obtain ⟨T, wf⟩ := MultiViewShapeandPoseAdjuster.multi_loadStream_trace hl
  obtain ⟨D, s1, hD, hscan⟩ := hb
  obtain ⟨x, hx, hx2⟩ := scanToks_append_some.1 hscan
  have hdecl : DeclaresMultiView t W P O v := ⟨D, x, by rw [hD]; push_cast; ring, hx⟩
  obtain ⟨eW, eP, eO, ev⟩ := MultiViewShapeandPoseAdjuster.multi_counts_of_declares T.scan wf hdecl
  have e : p.written = ([Tok.int p.numViews_, Tok.int p.numPts_, Tok.int p.numObs_] ++
      ([p.h_, p.w_, p.l_] ++ vals p.K_ ++ vals p.carCenter_ ++ vals p.observations_ ++
      vals p.observationWeights_ ++ vals p.X_bar_).map Tok.dbl ++ [Tok.int p.numVec_]) ++
      (cells p.V_ ++ (cells p.lambdas_ ++ cells p.rot_ ++ cells p.trans_)) := by
    simp only [MultiViewShapeandPoseAdjuster.written, cells_eq_vals, List.map_append,
      List.map_cons, List.map_nil, List.append_assoc, List.cons_append, List.nil_append]
  have hs := T.scan
  rw [e] at hs
  obtain ⟨y, hy, hy2⟩ := scanToks_append_some.1 hs
  have hlen : ([p.h_, p.w_, p.l_] ++ vals p.K_ ++ vals p.carCenter_ ++ vals p.observations_ ++
      vals p.observationWeights_ ++ vals p.X_bar_).length = D.length := by
    have h1 := wf.len_carCenter
    have h2 := wf.len_K
    have h3 := wf.len_observations
    have h4 := wf.len_observationWeights
    have h5 := wf.len_X_bar
    have : ((([p.h_, p.w_, p.l_] ++ vals p.K_ ++ vals p.carCenter_ ++ vals p.observations_ ++
        vals p.observationWeights_ ++ vals p.X_bar_).length : Nat) : Int) = (D.length : Int) := by
      simp only [List.length_append, vals_length, List.length_cons, List.length_nil]
      push_cast
      rw [h1, h2, h3, h4, h5, hD, eW, eO]
      push_cast
      ring
    exact_mod_cast this
  have hk : (([Tok.int p.numViews_, Tok.int p.numPts_, Tok.int p.numObs_] ++
      ([p.h_, p.w_, p.l_] ++ vals p.K_ ++ vals p.carCenter_ ++ vals p.observations_ ++
      vals p.observationWeights_ ++ vals p.X_bar_).map Tok.dbl ++ [Tok.int p.numVec_])).map
      Tok.isInt = (([Tok.int W, Tok.int P, Tok.int O] ++ D.map Tok.dbl ++ [Tok.int v])).map
      Tok.isInt := by
    generalize ([p.h_, p.w_, p.l_] ++ vals p.K_ ++ vals p.carCenter_ ++ vals p.observations_ ++
      vals p.observationWeights_ ++ vals p.X_bar_) = L at hlen
    simp only [List.map_append, isInt_map_dbl, hlen, List.map_cons, List.map_nil, Tok.isInt]
  obtain ⟨_, exy⟩ := scanToks_det hy hx hk
  subst exy
  have hVlen : p.V_.length = (basisSection W v P s).length := by
    have h6 := wf.len_V
    rw [eW, eP, ev] at h6
    rw [basisSection_length]
    have : (p.V_.length : Int) = ((W * (v * (P * 3)) : Nat) : Int) := by
      rw [h6]
      push_cast
      ring
    exact_mod_cast this
  have hx2' : scanToks ((basisSection W v P s).map Tok.dbl ++ []) y = some s1 := by
    simpa using hx2
  have hkV : (cells p.V_).map Tok.isInt = ((basisSection W v P s).map Tok.dbl).map Tok.isInt := by
    rw [isInt_cells, isInt_map_dbl, hVlen]
  obtain ⟨eV, _⟩ := scanToks_det_front hy2 hx2' hkV
  have hV : p.V_ = (basisSection W v P s).map some := eq_map_some_of_cells wf.full_V eV
  intro i j k c hi hj hk hc
  have eidx : i * 3 * v * P + j * 3 * P + 3 * k + c =
      i * (v * (P * 3)) + (j * (P * 3) + (k * 3 + c)) := by ring
  show p.V_[_]? = _
  rw [eidx, hV, List.getElem?_map, basisSection_getElem? W v P s i j k c hi hj hk hc]
  rfl

theorem C7_basis_offset_formula_witness :
    MultiViewShapeandPoseAdjuster.blank.loadFile (some multiFile) = .ok (true, multiLoaded) ∧
    HasBasisSection multiFile 2 2 1 2 sentinel ∧
    multiLoaded.getV[1 * 3 * 2 * 2 + 1 * 3 * 2 + 3 * 0 + 2]? = some (some (sentinel 1 1 0 2)) :=
  have hm : MultiViewShapeandPoseAdjuster.blank.loadFile (some multiFile) =
      .ok (true, multiLoaded) := by decide!
  have hb : HasBasisSection multiFile 2 2 1 2 sentinel :=
    ⟨[1.5, 1.7, 4.2] ++ vals multiLoaded.K_ ++ vals multiLoaded.carCenter_ ++
      vals multiLoaded.observations_ ++ vals multiLoaded.observationWeights_ ++
      vals multiLoaded.X_bar_, multiFile.drop 58, by decide, by decide!⟩
  ⟨hm, hb, C7_basis_offset_formula _ _ _ 2 2 1 2 sentinel hm hb 1 1 0 2
    (by decide) (by decide) (by decide) (by decide)⟩

/-! ## C11: the shape loader extends the pose loader -/

/-- C12, as stated, fails: in the pose file the count `numVec` (the 29th value)
is read after floating-point fields, and in the ground-plane file the four
plane coefficients, a fixed-size field, are read after the count-sized tensor
`xs`. -/
theorem C12_count_after_doubles_counterexample :
    SingleViewPoseAdjustmentProblem.blank.loadFile (some poseFile) = .ok (true, poseLoaded) ∧
    scanToks poseLoaded.written poseFile = some [] ∧
    countsFirst poseLoaded.written = false ∧
    poseLoaded.written[1]? = some (Tok.dbl 1) ∧
    poseLoaded.written[28]? = some (Tok.int poseLoaded.getNumVec) ∧
    GroundPlaneAdjustmentProblem.blank.loadFile (some groundFile) = .ok (true, groundLoaded) ∧
    scanToks groundLoaded.written groundFile = some [] ∧
    (groundLoaded.written.drop 26).take 2 = cells groundLoaded.get2DPts ∧
    groundLoaded.written.drop 28 = cells groundLoaded.getPlaneParameters := by
  decide!

theorem replicate_false_three : [false, false, false] = List.replicate 3 false := rfl

/-- C12, amended: each loader reads its fields in the order of its source text.
The counts that size the first tensors come first (`numPts`; `numViews`,
`numPoints`; `numViews`, `numPts`, `numObs`), but `numVec` is read after the
mean shape, right before the basis, and fixed-size fields are read where the
source has them, also after count-sized tensors (`plane` after `xs`; `rot` and
`trans` after `lambdas`).  Stated on the values that the conversions of a
successful load deliver: their order, and which of them are read by `%d`. -/
theorem C12_field_order :
    (∀ (self p : SingleViewPoseAdjustmentProblem) (t rest : FileStream),
      self.loadStream t = .ok (p, rest) →
        scanToks ([Tok.int p.getNumPts] ++ cells p.getCarCenter ++
          [Tok.dbl p.getCarHeight, Tok.dbl p.getCarWidth, Tok.dbl p.getCarLength] ++
          cells p.getK ++ cells p.observations ++ cells p.observationWeights ++
          cells p.getX_bar ++ [Tok.int p.getNumVec] ++ cells p.getV ++ cells p.getLambdas) t =
          some rest ∧
        p.written.map Tok.isInt =
          [true] ++ List.replicate (15 + 6 * p.getNumPts.toNat) false ++ [true] ++
            List.replicate (p.getNumVec.toNat * (3 * p.getNumPts.toNat + 1)) false) ∧
    (∀ (self p : GroundPlaneAdjustmentProblem) (t rest : FileStream),
      self.loadStream t = .ok (p, rest) →
        scanToks ([Tok.int p.numViews_, Tok.int p.numPoints_] ++ cells p.getK ++
          cells p.get3DPts ++ cells p.getRs ++ cells p.getts ++ cells p.get2DPts ++
          cells p.getPlaneParameters) t = some rest ∧
        p.written.map Tok.isInt =
          [true, true] ++ List.replicate (13 + 3 * p.numPoints_.toNat + 12 * p.numViews_.toNat +
            2 * p.numPoints_.toNat * p.numViews_.toNat) false) ∧
    (∀ (self p : SingleViewShapeAdjustmentProblem) (t rest : FileStream),
      self.loadStream t = .ok (p, rest) →
        scanToks ([Tok.int p.getNumPts] ++ cells p.getCarCenter ++
          [Tok.dbl p.getCarHeight, Tok.dbl p.getCarWidth, Tok.dbl p.getCarLength] ++
          cells p.getK ++ cells p.observations ++ cells p.observationWeights ++
          cells p.getX_bar ++ [Tok.int p.getNumVec] ++ cells p.getV ++ cells p.getLambdas ++
          cells p.getRot ++ cells p.getTrans) t = some rest ∧
        p.written.map Tok.isInt =
          [true] ++ List.replicate (15 + 6 * p.getNumPts.toNat) false ++ [true] ++
            List.replicate (p.getNumVec.toNat * (3 * p.getNumPts.toNat + 1) + 12) false) ∧
    (∀ (self p : MultiViewShapeandPoseAdjuster) (t rest : FileStream),
      self.loadStream t = .ok (p, rest) →
        scanToks ([Tok.int p.getNumViews, Tok.int p.getNumPts, Tok.int p.getNumObs,
          Tok.dbl p.getCarHeight, Tok.dbl p.getCarWidth, Tok.dbl p.getCarLength] ++
          cells p.getK ++ cells p.getCarCenter ++ cells p.observations ++
          cells p.observationWeights ++ cells p.getX_bar ++ [Tok.int p.getNumVec] ++
          cells p.getV ++ cells p.getLambdas ++ cells p.getRotations ++
          cells p.getTranslations) t = some rest ∧
        p.written.map Tok.isInt =
          [true, true, true] ++
            List.replicate (12 + 3 * p.getNumViews.toNat +
              6 * p.getNumObs.toNat * p.getNumViews.toNat) false ++ [true] ++
            List.replicate (3 * p.getNumViews.toNat * p.getNumVec.toNat * p.getNumPts.toNat +
              p.getNumVec.toNat + 12 * p.getNumViews.toNat) false) := by
  refine ⟨?_, ?_, ?_, ?_⟩
  · intro self p t rest h
    obtain ⟨T, wf, _⟩ := SingleViewPoseAdjustmentProblem.pose_loadStream_trace h
    refine ⟨T.scan, ?_⟩
    have h0 := wf.numPts_nonneg
    have h0v := wf.numVec_nonneg
    have h1 := wf.len_carCenter
    have h2 := wf.len_K
    have h3 := wf.len_observations
    have h4 := wf.len_observationWeights
    have h5 := wf.len_X_bar
    have h6 := wf.len_V
    have h7 := wf.len_lambdas
    have hV : p.V_.length = p.numVec_.toNat * (3 * p.numPts_.toNat) := by
      have : (p.V_.length : Int) = ((p.numVec_.toNat * (3 * p.numPts_.toNat) : Nat) : Int) := by
        rw [h6]
        push_cast
        rw [Int.toNat_of_nonneg h0, Int.toNat_of_nonneg h0v]
        ring
      exact_mod_cast this
    have e1 : 15 + 6 * p.getNumPts.toNat = p.carCenter_.length + (3 + (p.K_.length +
        (p.observations_.length + (p.observationWeights_.length + p.X_bar_.length)))) := by
      show 15 + 6 * p.numPts_.toNat = _
      omega
    have e2 : p.getNumVec.toNat * (3 * p.getNumPts.toNat + 1) =
        p.V_.length + p.lambdas_.length := by
      show p.numVec_.toNat * (3 * p.numPts_.toNat + 1) = _
      rw [hV, Nat.mul_add, Nat.mul_one]
      omega
    rw [e1, e2]
    simp only [SingleViewPoseAdjustmentProblem.written, List.map_append, isInt_cells,
      List.map_cons, List.map_nil, Tok.isInt, List.replicate_add, List.append_assoc,
      replicate_false_three]
  · intro self p t rest h
    obtain ⟨T, wf⟩ := GroundPlaneAdjustmentProblem.ground_loadStream_trace h
    refine ⟨T.scan, ?_⟩
    have h0 := wf.numViews_nonneg
    have h0p := wf.numPoints_nonneg
    have h2 := wf.len_K
    have h3 := wf.len_Xs
    have h4 := wf.len_Rs
    have h5 := wf.len_ts
    have h6 := wf.len_xs
    have h7 := wf.len_plane
    have hx : p.xs_.length = 2 * p.numPoints_.toNat * p.numViews_.toNat := by
      have : (p.xs_.length : Int) =
          ((2 * p.numPoints_.toNat * p.numViews_.toNat : Nat) : Int) := by
        rw [h6]
        push_cast
        rw [Int.toNat_of_nonneg h0, Int.toNat_of_nonneg h0p]
      exact_mod_cast this
    have e1 : 13 + 3 * p.numPoints_.toNat + 12 * p.numViews_.toNat +
        2 * p.numPoints_.toNat * p.numViews_.toNat = p.K_.length + (p.Xs_.length +
        (p.Rs_.length + (p.ts_.length + (p.xs_.length + p.plane_.length)))) := by
      rw [hx]
      omega
    rw [e1]
    simp only [GroundPlaneAdjustmentProblem.written, List.map_append, isInt_cells,
      List.map_cons, List.map_nil, Tok.isInt, List.replicate_add, List.append_assoc]
  · intro self p t rest h
    obtain ⟨T, wf⟩ := SingleViewShapeAdjustmentProblem.shape_loadStream_trace h
    refine ⟨T.scan, ?_⟩
    have h0 := wf.numPts_nonneg
    have h0v := wf.numVec_nonneg
    have h1 := wf.len_carCenter
    have h2 := wf.len_K
    have h3 := wf.len_observations
    have h4 := wf.len_observationWeights
    have h5 := wf.len_X_bar
    have h6 := wf.len_V
    have h7 := wf.len_lambdas
    have h8 := wf.len_rot
    have h9 := wf.len_trans
    have hV : p.V_.length = p.numVec_.toNat * (3 * p.numPts_.toNat) := by
      have : (p.V_.length : Int) = ((p.numVec_.toNat * (3 * p.numPts_.toNat) : Nat) : Int) := by
        rw [h6]
        push_cast
        rw [Int.toNat_of_nonneg h0, Int.toNat_of_nonneg h0v]
        ring
      exact_mod_cast this
    have e1 : 15 + 6 * p.getNumPts.toNat = p.carCenter_.length + (3 + (p.K_.length +
        (p.observations_.length + (p.observationWeights_.length + p.X_bar_.length)))) := by
      show 15 + 6 * p.numPts_.toNat = _
      omega
    have e2 : p.getNumVec.toNat * (3 * p.getNumPts.toNat + 1) + 12 =
        p.V_.length + (p.lambdas_.length + (p.rot_.length + p.trans_.length)) := by
      show p.numVec_.toNat * (3 * p.numPts_.toNat + 1) + 12 = _
      rw [hV, Nat.mul_add, Nat.mul_one]
      omega
    rw [e1, e2]
    simp only [SingleViewShapeAdjustmentProblem.written, List.map_append, isInt_cells,
      List.map_cons, List.map_nil, Tok.isInt, List.replicate_add, List.append_assoc,
      replicate_false_three]
  · intro self p t rest h
    obtain ⟨T, wf⟩ := MultiViewShapeandPoseAdjuster.multi_loadStream_trace h
    refine ⟨T.scan, ?_⟩
    have h0 := wf.numViews_nonneg
    have h0v := wf.numVec_nonneg
    have h1 := wf.len_carCenter
    have h2 := wf.len_K
    have h3 := wf.len_observations
    have h4 := wf.len_observationWeights
    have h5 := wf.len_X_bar
    have h6 := wf.len_V
    have h7 := wf.len_lambdas
    have h8 := wf.len_rot
    have h9 := wf.len_trans
    have hWO : (p.numViews_ * p.numObs_).toNat = p.numViews_.toNat * p.numObs_.toNat :=
      toNat_mul _ _ h0 (by omega)
    have hWvP : (p.numViews_ * p.numVec_ * 3 * p.numPts_).toNat =
        p.numViews_.toNat * p.numVec_.toNat * 3 * p.numPts_.toNat := by
      have ha : 0 ≤ p.numViews_ * p.numVec_ * 3 := by positivity
      rw [toNat_mul _ _ ha (by omega)]
      have := toNat_mul p.numViews_ p.numVec_ h0 (by positivity)
      have e3 : (p.numViews_ * p.numVec_ * 3).toNat = (p.numViews_ * p.numVec_).toNat * 3 := by
        omega
      rw [e3, this]
    have lw : p.observationWeights_.length = p.numViews_.toNat * p.numObs_.toNat := by
      rw [← hWO]
      omega
    have lo : p.observations_.length = 2 * (p.numViews_.toNat * p.numObs_.toNat) := by
      rw [← hWO]
      have : (p.observations_.length : Int) = 2 * (p.numViews_ * p.numObs_) := by
        rw [h3]
        ring
      omega
    have lx : p.X_bar_.length = 3 * (p.numViews_.toNat * p.numObs_.toNat) := by
      rw [← hWO]
      have : (p.X_bar_.length : Int) = 3 * (p.numViews_ * p.numObs_) := by
        rw [h5]
        ring
      omega
    have lV : p.V_.length = p.numViews_.toNat * p.numVec_.toNat * 3 * p.numPts_.toNat := by
      rw [← hWvP]
      omega
    have e1 : 12 + 3 * p.getNumViews.toNat + 6 * p.getNumObs.toNat * p.getNumViews.toNat =
        3 + (p.K_.length + (p.carCenter_.length + (p.observations_.length +
        (p.observationWeights_.length + p.X_bar_.length)))) := by
      show 12 + 3 * p.numViews_.toNat + 6 * p.numObs_.toNat * p.numViews_.toNat = _
      rw [lw, lo, lx]
      have : 6 * p.numObs_.toNat * p.numViews_.toNat =
          6 * (p.numViews_.toNat * p.numObs_.toNat) := by ring
      omega
    have e2 : 3 * p.getNumViews.toNat * p.getNumVec.toNat * p.getNumPts.toNat +
        p.getNumVec.toNat + 12 * p.getNumViews.toNat =
        p.V_.length + (p.lambdas_.length + (p.rot_.length + p.trans_.length)) := by
      show 3 * p.numViews_.toNat * p.numVec_.toNat * p.numPts_.toNat +
        p.numVec_.toNat + 12 * p.numViews_.toNat = _
      rw [lV]
      have : 3 * p.numViews_.toNat * p.numVec_.toNat * p.numPts_.toNat =
          p.numViews_.toNat * p.numVec_.toNat * 3 * p.numPts_.toNat := by ring
      omega
    rw [e1, e2]
    simp only [MultiViewShapeandPoseAdjuster.written, List.map_append, isInt_cells,
      List.map_cons, List.map_nil, Tok.isInt, List.replicate_add, List.append_assoc,
      replicate_false_three, List.cons_append, List.nil_append]
    rfl

/-! ## C13: positions of the ground-plane fields -/

theorem getElem?_mid {α : Type} (pre mid post : List α) (n i : Nat) (hn : pre.length = n)
    (hi : i < mid.length) : (pre ++ mid ++ post)[n + i]? = mid[i]? := by
  subst hn
  rw [List.append_assoc, List.getElem?_append_right (by omega), Nat.add_sub_cancel_left,
    List.getElem?_append_left hi]

theorem cells_getElem?_full {a : DoubleArray} (hf : Full a) {i : Nat} (hi : i < a.length) :
    ∃ q, a[i]? = some (some q) ∧ (cells a)[i]? = some (Tok.dbl q) := by
  have hm : a[i] ∈ a := List.getElem_mem hi
  have hne := hf _ hm
  cases hc : a[i] with
  | none => exact absurd hc hne
  | some q =>
    refine ⟨q, ?_, ?_⟩
    · rw [List.getElem?_eq_getElem hi, hc]
    · simp only [cells, List.getElem?_map, List.getElem?_eq_getElem hi, hc, Option.map_some',
        Option.getD_some]

theorem section_cell (pre post : List Tok) {a : DoubleArray} (hf : Full a) (n i : Nat)
    (hn : pre.length = n) (hi : i < a.length) :
    ∃ q, a[i]? = some (some q) ∧ (pre ++ cells a ++ post)[n + i]? = some (Tok.dbl q) := by
  obtain ⟨q, h1, h2⟩ := cells_getElem?_full hf hi
  exact ⟨q, h1, by rw [getElem?_mid pre (cells a) post n i hn (by rw [cells_length]; exact hi), h2]⟩

theorem forall₂_getElem? {α β : Type} {R : α → β → Prop} {x : List α} {y : List β}
    (h : List.Forall₂ R x y) : ∀ {n : Nat} {b : β}, y[n]? = some b →
      ∃ a, x[n]? = some a ∧ R a b := by
  induction h with
  | nil =>
    intro n b hb
    simp at hb
  | cons hd _ ih =>
    intro n b hb
    cases n with
    | zero =>
      simp only [List.getElem?_cons_zero, Option.some.injEq] at hb
      subst hb
      exact ⟨_, by simp, hd⟩
    | succ n =>
      simp only [List.getElem?_cons_succ] at hb
      obtain ⟨a, ha, hr⟩ := ih hb
      exact ⟨a, by simpa using ha, hr⟩

theorem whole_lexemes {toks : List Tok} {t c0 rest : FileStream}
    (hs : scanToks toks t = some rest) (ht : t = c0 ++ rest) (hl : c0.length = toks.length) :
    ∀ (n : Nat) (tok : Tok), toks[n]? = some tok → ∃ l, t[n]? = some l ∧ Denotes l tok := by
  subst ht
  have hd := denotes_of_scanToks hs hl
  intro n tok hn
  obtain ⟨l, h1, h2⟩ := forall₂_getElem? hd hn
  refine ⟨l, ?_, h2⟩
  have hlt : n < c0.length := by
    by_contra hc
    rw [List.getElem?_eq_none (by omega)] at h1
    cases h1
  rw [List.getElem?_append_left hlt, h1]

/-- C13, amended: after `GroundPlaneAdjustmentProblem::loadFile` succeeds with
`numViews = W` and `numPoints = P`, the values that the conversions delivered,
in reading order (0-based), are stored as follows: value `11 + 3*j + c` in
`Xs[3*j + c]` (one block of `3*P` cells, with no view index), value
`11 + 3*P + 9*i + r` in `Rs[9*i + r]`, value `11 + 3*P + 9*W + 3*i + c` in
`ts[3*i + c]`, and value `11 + 3*P + 12*W + i*2*P + 2*j + k` in
`xs[i*2*P + 2*j + k]`.  These are positions in the file's token stream when
every value is one whole token of the file: then the `n`-th token of the file
denotes the `n`-th value.  A token that feeds two conversions moves the later
values to earlier tokens. -/
theorem C13_ground_plane_positions (self p : GroundPlaneAdjustmentProblem) (t : FileStream)
    (W P : Nat) (h : self.loadFile (some t) = .ok (true, p))
    (hW : p.numViews_ = W) (hP : p.numPoints_ = P) :
    ∃ rest, scanToks p.written t = some rest ∧
      p.written.length = 15 + 3 * P + 12 * W + 2 * P * W ∧
      p.get3DPts.length = 3 * P ∧
      (∀ j c : Nat, j < P → c < 3 → ∃ q, p.get3DPts[3 * j + c]? = some (some q) ∧
        p.written[11 + 3 * j + c]? = some (Tok.dbl q)) ∧
      (∀ i r : Nat, i < W → r < 9 → ∃ q, p.getRs[9 * i + r]? = some (some q) ∧
        p.written[11 + 3 * P + 9 * i + r]? = some (Tok.dbl q)) ∧
      (∀ i c : Nat, i < W → c < 3 → ∃ q, p.getts[3 * i + c]? = some (some q) ∧
        p.written[11 + 3 * P + 9 * W + 3 * i + c]? = some (Tok.dbl q)) ∧
      (∀ i j k : Nat, i < W → j < P → k < 2 →
        ∃ q, p.get2DPts[i * 2 * P + 2 * j + k]? = some (some q) ∧
          p.written[11 + 3 * P + 12 * W + i * 2 * P + 2 * j + k]? = some (Tok.dbl q)) ∧
      (∀ c0 : FileStream, t = c0 ++ rest → c0.length = p.written.length →
        ∀ (n : Nat) (tok : Tok), p.written[n]? = some tok →
          ∃ l, t[n]? = some l ∧ Denotes l tok) := by
  obtain ⟨_, rest, hl⟩ := returnTrue_ok.1 h
  obtain ⟨T, wf⟩ := GroundPlaneAdjustmentProblem.ground_loadStream_trace hl
  have lK := wf.len_K
  have lp := wf.len_plane
  have lX : p.Xs_.length = 3 * P := by
    have := wf.len_Xs
    rw [hP] at this
    exact_mod_cast this
  have lR : p.Rs_.length = 9 * W := by
    have := wf.len_Rs
    rw [hW] at this
    exact_mod_cast this
  have lt : p.ts_.length = 3 * W := by
    have := wf.len_ts
    rw [hW] at this
    exact_mod_cast this
  have lx : p.xs_.length = 2 * P * W := by
    have := wf.len_xs
    rw [hW, hP] at this
    exact_mod_cast this
  refine ⟨rest, T.scan, ?_, lX, ?_, ?_, ?_, ?_, ?_⟩
  · simp only [GroundPlaneAdjustmentProblem.written, List.length_append, cells_length,
      List.length_cons, List.length_nil, lK, lp, lX, lR, lt, lx]
    omega
  · intro j c hj hc
    have e : p.written = ([Tok.int p.numViews_, Tok.int p.numPoints_] ++ cells p.K_) ++
        cells p.Xs_ ++ (cells p.Rs_ ++ (cells p.ts_ ++ (cells p.xs_ ++ cells p.plane_))) := by
      simp only [GroundPlaneAdjustmentProblem.written, List.append_assoc]
    have hn : ([Tok.int p.numViews_, Tok.int p.numPoints_] ++ cells p.K_).length = 11 := by
      simp only [List.length_append, cells_length, List.length_cons, List.length_nil, lK]
    obtain ⟨q, h1, h2⟩ := section_cell _ (cells p.Rs_ ++ (cells p.ts_ ++
      (cells p.xs_ ++ cells p.plane_))) wf.full_Xs 11 (3 * j + c) hn (by omega)
    have ei : 11 + 3 * j + c = 11 + (3 * j + c) := by omega
    exact ⟨q, h1, by rw [e, ei]; exact h2⟩
  · intro i r hi hr
    have e : p.written = ([Tok.int p.numViews_, Tok.int p.numPoints_] ++ cells p.K_ ++
        cells p.Xs_) ++ cells p.Rs_ ++ (cells p.ts_ ++ (cells p.xs_ ++ cells p.plane_)) := by
      simp only [GroundPlaneAdjustmentProblem.written, List.append_assoc]
    have hn : ([Tok.int p.numViews_, Tok.int p.numPoints_] ++ cells p.K_ ++
        cells p.Xs_).length = 11 + 3 * P := by
      simp only [List.length_append, cells_length, List.length_cons, List.length_nil, lK, lX]
    obtain ⟨q, h1, h2⟩ := section_cell _ (cells p.ts_ ++
      (cells p.xs_ ++ cells p.plane_)) wf.full_Rs (11 + 3 * P) (9 * i + r) hn (by omega)
    have ei : 11 + 3 * P + 9 * i + r = 11 + 3 * P + (9 * i + r) := by omega
    exact ⟨q, h1, by rw [e, ei]; exact h2⟩
  · intro i c hi hc
    have e : p.written = ([Tok.int p.numViews_, Tok.int p.numPoints_] ++ cells p.K_ ++
        cells p.Xs_ ++ cells p.Rs_) ++ cells p.ts_ ++ (cells p.xs_ ++ cells p.plane_) := by
      simp only [GroundPlaneAdjustmentProblem.written, List.append_assoc]
    have hn : ([Tok.int p.numViews_, Tok.int p.numPoints_] ++ cells p.K_ ++
        cells p.Xs_ ++ cells p.Rs_).length = 11 + 3 * P + 9 * W := by
      simp only [List.length_append, cells_length, List.length_cons, List.length_nil, lK, lX, lR]
    obtain ⟨q, h1, h2⟩ := section_cell _ (cells p.xs_ ++ cells p.plane_) wf.full_ts
      (11 + 3 * P + 9 * W) (3 * i + c) hn (by omega)
    have ei : 11 + 3 * P + 9 * W + 3 * i + c = 11 + 3 * P + 9 * W + (3 * i + c) := by omega
    exact ⟨q, h1, by rw [e, ei]; exact h2⟩
  · intro i j k hi hj hk
    have e : p.written = ([Tok.int p.numViews_, Tok.int p.numPoints_] ++ cells p.K_ ++
        cells p.Xs_ ++ cells p.Rs_ ++ cells p.ts_) ++ cells p.xs_ ++ cells p.plane_ := by
      simp only [GroundPlaneAdjustmentProblem.written, List.append_assoc]
    have hn : ([Tok.int p.numViews_, Tok.int p.numPoints_] ++ cells p.K_ ++
        cells p.Xs_ ++ cells p.Rs_ ++ cells p.ts_).length = 11 + 3 * P + 12 * W := by
      simp only [List.length_append, cells_length, List.length_cons, List.length_nil, lK, lX, lR,
        lt]
      omega
    have hlt : i * 2 * P + 2 * j + k < p.xs_.length := by
      rw [lx]
      have h1 : (i + 1) * (2 * P) ≤ W * (2 * P) := Nat.mul_le_mul_right _ hi
      have h2 : (i + 1) * (2 * P) = i * 2 * P + 2 * P := by ring
      have h3 : W * (2 * P) = 2 * P * W := by ring
      omega
    obtain ⟨q, h1, h2⟩ := section_cell _ (cells p.plane_) wf.full_xs
      (11 + 3 * P + 12 * W) (i * 2 * P + 2 * j + k) hn hlt
    have ei : 11 + 3 * P + 12 * W + i * 2 * P + 2 * j + k =
        11 + 3 * P + 12 * W + (i * 2 * P + 2 * j + k) := by omega
    exact ⟨q, h1, by rw [e, ei]; exact h2⟩
  · intro c0 ht hl0
    exact whole_lexemes T.scan ht hl0

theorem C13_ground_plane_positions_witness :
    GroundPlaneAdjustmentProblem.blank.loadFile (some groundFile) = .ok (true, groundLoaded) ∧
    ∃ rest, scanToks groundLoaded.written groundFile = some rest ∧
      groundLoaded.written.length = 15 + 3 * 1 + 12 * 1 + 2 * 1 * 1 ∧
      groundLoaded.get3DPts.length = 3 * 1 ∧
      (∀ j c : Nat, j < 1 → c < 3 → ∃ q, groundLoaded.get3DPts[3 * j + c]? = some (some q) ∧
        groundLoaded.written[11 + 3 * j + c]? = some (Tok.dbl q)) ∧
      (∀ i r : Nat, i < 1 → r < 9 → ∃ q, groundLoaded.getRs[9 * i + r]? = some (some q) ∧
        groundLoaded.written[11 + 3 * 1 + 9 * i + r]? = some (Tok.dbl q)) ∧
      (∀ i c : Nat, i < 1 → c < 3 → ∃ q, groundLoaded.getts[3 * i + c]? = some (some q) ∧
        groundLoaded.written[11 + 3 * 1 + 9 * 1 + 3 * i + c]? = some (Tok.dbl q)) ∧
      (∀ i j k : Nat, i < 1 → j < 1 → k < 2 →
        ∃ q, groundLoaded.get2DPts[i * 2 * 1 + 2 * j + k]? = some (some q) ∧
          groundLoaded.written[11 + 3 * 1 + 12 * 1 + i * 2 * 1 + 2 * j + k]? =
            some (Tok.dbl q)) ∧
      (∀ c0 : FileStream, groundFile = c0 ++ rest → c0.length = groundLoaded.written.length →
        ∀ (n : Nat) (tok : Tok), groundLoaded.written[n]? = some tok →
          ∃ l, groundFile[n]? = some l ∧ Denotes l tok) :=
  have hm : GroundPlaneAdjustmentProblem.blank.loadFile (some groundFile) =
      .ok (true, groundLoaded) := by decide!
  ⟨hm, C13_ground_plane_positions _ _ _ 1 1 hm (by decide) (by decide)⟩

/-! ## C14: the counts of a loaded instance -/

/-- C14, as stated, fails: an instance loaded from the pose file has
`getNumPts() = 2` and `getNumVec() = 1`; a further `loadFile` call on this
instance, on a file with one keypoint and no basis vector, succeeds and leaves
`getNumPts() = 1` and `getNumVec() = 0`. -/
theorem C14_reload_changes_counts_counterexample :
    SingleViewPoseAdjustmentProblem.blank.loadFile (some poseFile) = .ok (true, poseLoaded) ∧
    poseLoaded.loadFile (some poseFileSmall) = .ok (true, poseReloaded) ∧
    poseLoaded.getNumPts = 2 ∧ poseReloaded.getNumPts = 1 ∧
    poseLoaded.getNumVec = 1 ∧ poseReloaded.getNumVec = 0 := by
  decide!

/-- C14, amended: the counts of a loaded instance are those of the last
`loadFile` call that opened its file.  A `loadFile` call that does not open its
file leaves the instance as it was (the accessors assign no member: they are
functions of the instance).  A further `loadFile` call that succeeds makes the
counts those that the newly read file declares, whatever the instance held
before: any instance loaded from the same file has the same counts. -/
theorem C14_counts_follow_the_last_load :
    (∀ (self p : SingleViewPoseAdjustmentProblem) (t : FileStream),
      self.loadFile (some t) = .ok (true, p) →
        p.loadFile none = .ok (false, p) ∧
        DeclaresSingleView t p.getNumPts p.getNumVec ∧
        ∀ other : SingleViewPoseAdjustmentProblem, ∃ p2,
          other.loadFile (some t) = .ok (true, p2) ∧
          p2.getNumPts = p.getNumPts ∧ p2.getNumVec = p.getNumVec) ∧
    (∀ (self p : SingleViewShapeAdjustmentProblem) (t : FileStream),
      self.loadFile (some t) = .ok (true, p) →
        p.loadFile none = .ok (false, p) ∧
        DeclaresSingleView t p.getNumPts p.getNumVec ∧
        ∀ other : SingleViewShapeAdjustmentProblem,
          other.loadFile (some t) = .ok (true, p)) ∧
    (∀ (self p : GroundPlaneAdjustmentProblem) (t : FileStream),
      self.loadFile (some t) = .ok (true, p) →
        p.loadFile none = .ok (false, p) ∧
        DeclaresGroundPlane t p.numViews_ p.numPoints_ ∧
        ∀ other : GroundPlaneAdjustmentProblem,
          other.loadFile (some t) = .ok (true, p)) ∧
    (∀ (self p : MultiViewShapeandPoseAdjuster) (t : FileStream),
      self.loadFile (some t) = .ok (true, p) →
        p.loadFile none = .ok (false, p) ∧
        DeclaresMultiView t p.getNumViews p.getNumPts p.getNumObs p.getNumVec ∧
        ∀ other : MultiViewShapeandPoseAdjuster,
          other.loadFile (some t) = .ok (true, p)) := by
  refine ⟨?_, ?_, ?_, ?_⟩
  · intro self p t h
    obtain ⟨_, rest, hl⟩ := returnTrue_ok.1 h
    obtain ⟨T, wf, _⟩ := SingleViewPoseAdjustmentProblem.pose_loadStream_trace hl
    refine ⟨rfl, SingleViewPoseAdjustmentProblem.pose_declares_of_scan T.scan wf, ?_⟩
    intro other
    rw [SingleViewPoseAdjustmentProblem.loadStream_self] at hl
    obtain ⟨q, r, hq, hp⟩ := (Load.bind_ok _ _ _ _).1 hl
    simp only [Load.pure_apply, Outcome.ok.injEq, Prod.mk.injEq] at hp
    obtain ⟨hp, _⟩ := hp
    subst hp
    refine ⟨{ q with carCenter3D_ := other.carCenter3D_ }, ?_, rfl, rfl⟩
    simp only [SingleViewPoseAdjustmentProblem.loadFile]
    rw [SingleViewPoseAdjustmentProblem.loadStream_self, Load.bind_of_ok hq]
    rfl
  · intro self p t h
    obtain ⟨_, rest, hl⟩ := returnTrue_ok.1 h
    obtain ⟨T, wf⟩ := SingleViewShapeAdjustmentProblem.shape_loadStream_trace hl
    exact ⟨rfl, SingleViewShapeAdjustmentProblem.shape_declares_of_scan T.scan wf,
      fun _ => h⟩
  · intro self p t h
    obtain ⟨_, rest, hl⟩ := returnTrue_ok.1 h
    obtain ⟨T, wf⟩ := GroundPlaneAdjustmentProblem.ground_loadStream_trace hl
    exact ⟨rfl, GroundPlaneAdjustmentProblem.ground_declares_of_scan T.scan, fun _ => h⟩
  · intro self p t h
    obtain ⟨_, rest, hl⟩ := returnTrue_ok.1 h
    obtain ⟨T, wf⟩ := MultiViewShapeandPoseAdjuster.multi_loadStream_trace hl
    exact ⟨rfl, MultiViewShapeandPoseAdjuster.multi_declares_of_scan T.scan wf, fun _ => h⟩

theorem C14_counts_follow_the_last_load_witness :
    poseLoaded.loadFile (some poseFileSmall) = .ok (true, poseReloaded) ∧
    poseReloaded.loadFile none = .ok (false, poseReloaded) ∧
    DeclaresSingleView poseFileSmall poseReloaded.getNumPts poseReloaded.getNumVec ∧
    ∀ other : SingleViewPoseAdjustmentProblem, ∃ p2,
      other.loadFile (some poseFileSmall) = .ok (true, p2) ∧
      p2.getNumPts = poseReloaded.getNumPts ∧ p2.getNumVec = poseReloaded.getNumVec :=
  have hm : poseLoaded.loadFile (some poseFileSmall) = .ok (true, poseReloaded) := by decide!
  ⟨hm, C14_counts_follow_the_last_load.1 poseLoaded poseReloaded poseFileSmall hm⟩

/-! ## C15: the observation weights -/

/-- C15, as stated, fails: on the pose file with the weight tokens `2.5` and
`-3` the load succeeds and `observationWeights()` holds 2.5, which is above 1,
and -3, which is below 0. -/
theorem C15_weight_outside_unit_interval_counterexample :
    SingleViewPoseAdjustmentProblem.blank.loadFile (some poseFileHeavy) =
      .ok (true, poseHeavyLoaded) ∧
    poseHeavyLoaded.observationWeights[0]? = some (some (Double.fin 2.5)) ∧ (1 : ℚ) < 2.5 ∧
    poseHeavyLoaded.observationWeights[1]? = some (some (Double.fin (-3))) ∧ (-3 : ℚ) < 0 := by
  decide!

/-- C15, amended: the loaders store the weights as read, with no range check.
After a successful load there are `numPts` weights (`numViews * numObs` in the
multi-view class), and `observationWeights()[i]` is the value that the
conversion number `16 + 2*numPts + i` delivered (number
`15 + 3*numViews + 2*numViews*numObs + i` in the multi-view class), 0-based; so
a weight lies in `[0, 1]` exactly when the file has such a value there.  When
every value is one whole token of the file, the `n`-th token denotes the `n`-th
value. -/
theorem C15_weights_are_the_file_values :
    (∀ (self p : SingleViewPoseAdjustmentProblem) (t : FileStream),
      self.loadFile (some t) = .ok (true, p) →
        ∃ rest, scanToks p.written t = some rest ∧
          p.observationWeights.length = p.getNumPts.toNat ∧
          (∀ i : Nat, i < p.getNumPts.toNat → ∃ q, p.observationWeights[i]? = some (some q) ∧
            p.written[16 + 2 * p.getNumPts.toNat + i]? = some (Tok.dbl q)) ∧
          (∀ c0 : FileStream, t = c0 ++ rest → c0.length = p.written.length →
            ∀ (n : Nat) (tok : Tok), p.written[n]? = some tok →
              ∃ l, t[n]? = some l ∧ Denotes l tok)) ∧
    (∀ (self p : SingleViewShapeAdjustmentProblem) (t : FileStream),
      self.loadFile (some t) = .ok (true, p) →
        ∃ rest, scanToks p.written t = some rest ∧
          p.observationWeights.length = p.getNumPts.toNat ∧
          (∀ i : Nat, i < p.getNumPts.toNat → ∃ q, p.observationWeights[i]? = some (some q) ∧
            p.written[16 + 2 * p.getNumPts.toNat + i]? = some (Tok.dbl q)) ∧
          (∀ c0 : FileStream, t = c0 ++ rest → c0.length = p.written.length →
            ∀ (n : Nat) (tok : Tok), p.written[n]? = some tok →
              ∃ l, t[n]? = some l ∧ Denotes l tok)) ∧
    (∀ (self p : MultiViewShapeandPoseAdjuster) (t : FileStream),
      self.loadFile (some t) = .ok (true, p) →
        ∃ rest, scanToks p.written t = some rest ∧
          p.observationWeights.length = p.getNumViews.toNat * p.getNumObs.toNat ∧
          (∀ i : Nat, i < p.getNumViews.toNat * p.getNumObs.toNat →
            ∃ q, p.observationWeights[i]? = some (some q) ∧
              p.written[15 + 3 * p.getNumViews.toNat +
                2 * p.getNumViews.toNat * p.getNumObs.toNat + i]? = some (Tok.dbl q)) ∧
          (∀ c0 : FileStream, t = c0 ++ rest → c0.length = p.written.length →
            ∀ (n : Nat) (tok : Tok), p.written[n]? = some tok →
              ∃ l, t[n]? = some l ∧ Denotes l tok)) := by
  refine ⟨?_, ?_, ?_⟩
  · intro self p t h
    obtain ⟨_, rest, hl⟩ := returnTrue_ok.1 h
    obtain ⟨T, wf, _⟩ := SingleViewPoseAdjustmentProblem.pose_loadStream_trace hl
    have h0 := wf.numPts_nonneg
    have l1 := wf.len_carCenter
    have l2 := wf.len_K
    have l3 : p.observations_.length = 2 * p.numPts_.toNat := by
      have := wf.len_observations
      omega
    have l4 : p.observationWeights_.length = p.numPts_.toNat := by
      have := wf.len_observationWeights
      omega
    refine ⟨rest, T.scan, l4, ?_, fun c0 ht hl0 => whole_lexemes T.scan ht hl0⟩
    intro i hi
    have e : p.written = ([Tok.int p.numPts_] ++ cells p.carCenter_ ++
        [Tok.dbl p.h_, Tok.dbl p.w_, Tok.dbl p.l_] ++ cells p.K_ ++ cells p.observations_) ++
        cells p.observationWeights_ ++
        (cells p.X_bar_ ++ ([Tok.int p.numVec_] ++ (cells p.V_ ++ cells p.lambdas_))) := by
      simp only [SingleViewPoseAdjustmentProblem.written, List.append_assoc]
    have hn : ([Tok.int p.numPts_] ++ cells p.carCenter_ ++
        [Tok.dbl p.h_, Tok.dbl p.w_, Tok.dbl p.l_] ++ cells p.K_ ++
        cells p.observations_).length = 16 + 2 * p.numPts_.toNat := by
      simp only [List.length_append, cells_length, List.length_cons, List.length_nil, l1, l2, l3]
    obtain ⟨q, h1, h2⟩ := section_cell _ (cells p.X_bar_ ++ ([Tok.int p.numVec_] ++
      (cells p.V_ ++ cells p.lambdas_))) wf.full_observationWeights
      (16 + 2 * p.numPts_.toNat) i hn (by rw [l4]; exact hi)
    exact ⟨q, h1, by rw [e]; exact h2⟩
  · intro self p t h
    obtain ⟨_, rest, hl⟩ := returnTrue_ok.1 h
    obtain ⟨T, wf⟩ := SingleViewShapeAdjustmentProblem.shape_loadStream_trace hl
    have h0 := wf.numPts_nonneg
    have l1 := wf.len_carCenter
    have l2 := wf.len_K
    have l3 : p.observations_.length = 2 * p.numPts_.toNat := by
      have := wf.len_observations
      omega
    have l4 : p.observationWeights_.length = p.numPts_.toNat := by
      have := wf.len_observationWeights
      omega
    refine ⟨rest, T.scan, l4, ?_, fun c0 ht hl0 => whole_lexemes T.scan ht hl0⟩
    intro i hi
    have e : p.written = ([Tok.int p.numPts_] ++ cells p.carCenter_ ++
        [Tok.dbl p.h_, Tok.dbl p.w_, Tok.dbl p.l_] ++ cells p.K_ ++ cells p.observations_) ++
        cells p.observationWeights_ ++
        (cells p.X_bar_ ++ ([Tok.int p.numVec_] ++ (cells p.V_ ++ (cells p.lambdas_ ++
        (cells p.rot_ ++ cells p.trans_))))) := by
      simp only [SingleViewShapeAdjustmentProblem.written, List.append_assoc]
    have hn : ([Tok.int p.numPts_] ++ cells p.carCenter_ ++
        [Tok.dbl p.h_, Tok.dbl p.w_, Tok.dbl p.l_] ++ cells p.K_ ++
        cells p.observations_).length = 16 + 2 * p.numPts_.toNat := by
      simp only [List.length_append, cells_length, List.length_cons, List.length_nil, l1, l2, l3]
    obtain ⟨q, h1, h2⟩ := section_cell _ (cells p.X_bar_ ++ ([Tok.int p.numVec_] ++
      (cells p.V_ ++ (cells p.lambdas_ ++ (cells p.rot_ ++ cells p.trans_)))))
      wf.full_observationWeights (16 + 2 * p.numPts_.toNat) i hn (by rw [l4]; exact hi)
    exact ⟨q, h1, by rw [e]; exact h2⟩
  · intro self p t h
    obtain ⟨_, rest, hl⟩ := returnTrue_ok.1 h
    obtain ⟨T, wf⟩ := MultiViewShapeandPoseAdjuster.multi_loadStream_trace hl
    have h0 := wf.numViews_nonneg
    have l2 := wf.len_K
    have hWO : (p.numViews_ * p.numObs_).toNat = p.numViews_.toNat * p.numObs_.toNat :=
      toNat_mul _ _ h0 (by have := wf.len_observationWeights; omega)
    have l1 : p.carCenter_.length = 3 * p.numViews_.toNat := by
      have := wf.len_carCenter
      omega
    have l3 : p.observations_.length = 2 * p.numViews_.toNat * p.numObs_.toNat := by
      rw [Nat.mul_assoc, ← hWO]
      have h3 := wf.len_observations
      have : (p.observations_.length : Int) = 2 * (p.numViews_ * p.numObs_) := by
        rw [h3]
        ring
      omega
    have l4 : p.observationWeights_.length = p.numViews_.toNat * p.numObs_.toNat := by
      rw [← hWO]
      have := wf.len_observationWeights
      omega
    refine ⟨rest, T.scan, l4, ?_, fun c0 ht hl0 => whole_lexemes T.scan ht hl0⟩
    intro i hi
    have e : p.written = ([Tok.int p.numViews_, Tok.int p.numPts_, Tok.int p.numObs_,
        Tok.dbl p.h_, Tok.dbl p.w_, Tok.dbl p.l_] ++ cells p.K_ ++ cells p.carCenter_ ++
        cells p.observations_) ++ cells p.observationWeights_ ++
        (cells p.X_bar_ ++ ([Tok.int p.numVec_] ++ (cells p.V_ ++ (cells p.lambdas_ ++
        (cells p.rot_ ++ cells p.trans_))))) := by
      simp only [MultiViewShapeandPoseAdjuster.written, List.append_assoc]
    have hn : ([Tok.int p.numViews_, Tok.int p.numPts_, Tok.int p.numObs_,
        Tok.dbl p.h_, Tok.dbl p.w_, Tok.dbl p.l_] ++ cells p.K_ ++ cells p.carCenter_ ++
        cells p.observations_).length =
        15 + 3 * p.numViews_.toNat + 2 * p.numViews_.toNat * p.numObs_.toNat := by
      simp only [List.length_append, cells_length, List.length_cons, List.length_nil, l1, l2, l3]
    obtain ⟨q, h1, h2⟩ := section_cell _ (cells p.X_bar_ ++ ([Tok.int p.numVec_] ++
      (cells p.V_ ++ (cells p.lambdas_ ++ (cells p.rot_ ++ cells p.trans_)))))
      wf.full_observationWeights
      (15 + 3 * p.numViews_.toNat + 2 * p.numViews_.toNat * p.numObs_.toNat) i hn
      (by rw [l4]; exact hi)
    exact ⟨q, h1, by rw [e]; exact h2⟩

theorem C15_weights_are_the_file_values_witness :
    SingleViewPoseAdjustmentProblem.blank.loadFile (some poseFileHeavy) =
      .ok (true, poseHeavyLoaded) ∧
    ∃ rest, scanToks poseHeavyLoaded.written poseFileHeavy = some rest ∧
      poseHeavyLoaded.observationWeights.length = poseHeavyLoaded.getNumPts.toNat ∧
      (∀ i : Nat, i < poseHeavyLoaded.getNumPts.toNat →
        ∃ q, poseHeavyLoaded.observationWeights[i]? = some (some q) ∧
          poseHeavyLoaded.written[16 + 2 * poseHeavyLoaded.getNumPts.toNat + i]? =
            some (Tok.dbl q)) ∧
      (∀ c0 : FileStream, poseFileHeavy = c0 ++ rest →
        c0.length = poseHeavyLoaded.written.length →
        ∀ (n : Nat) (tok : Tok), poseHeavyLoaded.written[n]? = some tok →
          ∃ l, poseFileHeavy[n]? = some l ∧ Denotes l tok) :=
  have hm : SingleViewPoseAdjustmentProblem.blank.loadFile (some poseFileHeavy) =
      .ok (true, poseHeavyLoaded) := by decide!
  ⟨hm, C15_weights_are_the_file_values.1 _ _ _ hm⟩

theorem C12_field_order_witness :
    SingleViewPoseAdjustmentProblem.blank.loadStream poseFile = .ok (poseLoaded, []) ∧
    scanToks ([Tok.int poseLoaded.getNumPts] ++ cells poseLoaded.getCarCenter ++
      [Tok.dbl poseLoaded.getCarHeight, Tok.dbl poseLoaded.getCarWidth,
        Tok.dbl poseLoaded.getCarLength] ++
      cells poseLoaded.getK ++ cells poseLoaded.observations ++
      cells poseLoaded.observationWeights ++ cells poseLoaded.getX_bar ++
      [Tok.int poseLoaded.getNumVec] ++ cells poseLoaded.getV ++
      cells poseLoaded.getLambdas) poseFile = some [] ∧
    poseLoaded.written.map Tok.isInt =
      [true] ++ List.replicate (15 + 6 * poseLoaded.getNumPts.toNat) false ++ [true] ++
        List.replicate (poseLoaded.getNumVec.toNat * (3 * poseLoaded.getNumPts.toNat + 1))
          false :=
  have hm : SingleViewPoseAdjustmentProblem.blank.loadStream poseFile =
      .ok (poseLoaded, []) := by decide!
  ⟨hm, C12_field_order.1 _ _ _ _ hm⟩

/-! ## C16: the basis offset of the multi-view loader is a bijection -/

theorem MultiViewShapeandPoseAdjuster.multi_nat_lengths {p : MultiViewShapeandPoseAdjuster}
    (wf : p.WellFormed) :
    p.K_.length = 9 ∧ p.carCenter_.length = 3 * p.numViews_.toNat ∧
    p.observations_.length = 2 * (p.numViews_.toNat * p.numObs_.toNat) ∧
    p.observationWeights_.length = p.numViews_.toNat * p.numObs_.toNat ∧
    p.X_bar_.length = 3 * (p.numViews_.toNat * p.numObs_.toNat) ∧
    p.V_.length = p.numViews_.toNat * p.numVec_.toNat * p.numPts_.toNat * 3 ∧
    p.lambdas_.length = p.numVec_.toNat ∧
    p.rot_.length = 9 * p.numViews_.toNat ∧ p.trans_.length = 3 * p.numViews_.toNat := by
  have h0 := wf.numViews_nonneg
  have h0v := wf.numVec_nonneg
  have h1 := wf.len_carCenter
  have h3 := wf.len_observations
  have h4 := wf.len_observationWeights
  have h5 := wf.len_X_bar
  have h6 := wf.len_V
  have h7 := wf.len_lambdas
  have h8 := wf.len_rot
  have h9 := wf.len_trans
  have hWO : (p.numViews_ * p.numObs_).toNat = p.numViews_.toNat * p.numObs_.toNat :=
    toNat_mul _ _ h0 (by omega)
  have hWvP : (p.numViews_ * p.numVec_ * 3 * p.numPts_).toNat =
      p.numViews_.toNat * p.numVec_.toNat * p.numPts_.toNat * 3 := by
    have ha : 0 ≤ p.numViews_ * p.numVec_ * 3 := by positivity
    rw [toNat_mul _ _ ha (by omega)]
    have := toNat_mul p.numViews_ p.numVec_ h0 (by positivity)
    have e3 : (p.numViews_ * p.numVec_ * 3).toNat = (p.numViews_ * p.numVec_).toNat * 3 := by
      omega
    rw [e3, this]
    ring
  refine ⟨wf.len_K, by omega, ?_, ?_, ?_, ?_, by omega, by omega, by omega⟩
  · rw [← hWO]
    have : (p.observations_.length : Int) = 2 * (p.numViews_ * p.numObs_) := by
      rw [h3]
      ring
    omega
  · rw [← hWO]
    omega
  · rw [← hWO]
    have : (p.X_bar_.length : Int) = 3 * (p.numViews_ * p.numObs_) := by
      rw [h5]
      ring
    omega
  · rw [← hWvP]
    omega

theorem digitsOf_length (cs : List Char) :
    (digitsOf cs).1.length + (digitsOf cs).2.length = cs.length := by
  induction cs with
  | nil => rfl
  | cons c cs ih =>
    unfold digitsOf
    by_cases h : c.isDigit = true
    · simp only [h, if_true, List.length_cons]
      omega
    · simp only [h, if_false, List.length_nil, List.length_cons, Bool.false_eq_true]
      omega

theorem hexDigitsOf_length (cs : List Char) :
    (hexDigitsOf cs).1.length + (hexDigitsOf cs).2.length = cs.length := by
  induction cs with
  | nil => rfl
  | cons c cs ih =>
    unfold hexDigitsOf
    by_cases h : isHexDigit c = true
    · simp only [h, if_true, List.length_cons]
      omega
    · simp only [h, if_false, List.length_nil, List.length_cons, Bool.false_eq_true]
      omega

theorem signOf_length (l : List Char) : (signOf l).2.length ≤ l.length := by
  unfold signOf
  split <;> simp

theorem scanInt_length {l r : Lexeme} {z : Int} (h : scanInt l = some (z, r)) :
    r.length < l.length := by
  unfold scanInt at h
  by_cases hd : (digitsOf (signOf l).2).1 = []
  · rw [if_pos hd] at h
    cases h
  · rw [if_neg hd] at h
    simp only [Option.some.injEq, Prod.mk.injEq] at h
    obtain ⟨_, hr⟩ := h
    subst hr
    have h1 := digitsOf_length (signOf l).2
    have h2 := signOf_length l
    have h3 : 0 < (digitsOf (signOf l).2).1.length := List.length_pos.2 hd
    omega

theorem fracOf_length (digits : List Char → List Char × List Char)
    (hd : ∀ cs, (digits cs).1.length + (digits cs).2.length = cs.length) (cs : List Char) :
    (fracOf digits cs).1.length + (fracOf digits cs).2.length ≤ cs.length := by
  unfold fracOf
  split
  · rename_i cs2
    have := hd cs2
    simp only [List.length_cons]
    omega
  · simp

theorem scanExp_length (marker : Char) (x : List Char) :
    (scanExp marker x).2.length ≤ x.length := by
  cases x with
  | nil => simp [scanExp]
  | cons c cs =>
    simp only [scanExp]
    by_cases hc : c.toLower = marker
    · rw [if_pos hc]
      have h1 := digitsOf_length (signOf cs).2
      have h2 := signOf_length cs
      simp only [List.length_cons]
      omega
    · rw [if_neg hc]

theorem afterWord_length : ∀ (w s : List Char) {r : List Char}, afterWord w s = some r →
    r.length ≤ s.length := by
  intro w
  induction w with
  | nil =>
    intro s r h
    simp only [afterWord, Option.some.injEq] at h
    rw [h]
  | cons p ps ih =>
    intro s r h
    cases s with
    | nil => simp [afterWord] at h
    | cons c cs =>
      simp only [afterWord] at h
      by_cases hc : c.toLower = p
      · rw [if_pos hc] at h
        have := ih cs h
        simp only [List.length_cons]
        omega
      · rw [if_neg hc] at h
        cases h

theorem scanDecimal_length {neg : Bool} {s r : List Char} {d : Double}
    (h : scanDecimal neg s = some (d, r)) : r.length < s.length := by
  unfold scanDecimal at h
  simp only at h
  by_cases hd : (digitsOf s).1 = [] ∧ (fracOf digitsOf (digitsOf s).2).1 = []
  · rw [if_pos hd] at h
    cases h
  · rw [if_neg hd] at h
    simp only [Option.some.injEq, Prod.mk.injEq] at h
    obtain ⟨_, hr⟩ := h
    subst hr
    have h1 := digitsOf_length s
    have h3 := fracOf_length digitsOf digitsOf_length (digitsOf s).2
    have h4 := scanExp_length 'e' (fracOf digitsOf (digitsOf s).2).2
    have h5 : 0 < (digitsOf s).1.length + (fracOf digitsOf (digitsOf s).2).1.length := by
      by_contra hc
      apply hd
      constructor
      · exact List.length_eq_zero.1 (by omega)
      · exact List.length_eq_zero.1 (by omega)
    omega

theorem scanHex_length {neg : Bool} {s r : List Char} {d : Double}
    (h : scanHex neg s = some (d, r)) : r.length ≤ s.length := by
  unfold scanHex at h
  simp only at h
  have h1 := hexDigitsOf_length s
  have h3 := fracOf_length hexDigitsOf hexDigitsOf_length (hexDigitsOf s).2
  by_cases hd : (hexDigitsOf s).1 = [] ∧ (fracOf hexDigitsOf (hexDigitsOf s).2).1 = []
  · rw [if_pos hd] at h
    by_cases hp : hasPoint (hexDigitsOf s).2 = true
    · rw [if_pos hp] at h
      simp only [Option.some.injEq, Prod.mk.injEq] at h
      obtain ⟨_, hr⟩ := h
      subst hr
      omega
    · rw [if_neg hp] at h
      cases h
  · rw [if_neg hd] at h
    simp only [Option.some.injEq, Prod.mk.injEq] at h
    obtain ⟨_, hr⟩ := h
    subst hr
    have h4 := scanExp_length 'p' (fracOf hexDigitsOf (hexDigitsOf s).2).2
    omega

theorem scanInf_length {neg : Bool} {s r : List Char} {d : Double}
    (h : scanInf neg s = some (d, r)) : r.length ≤ s.length := by
  unfold scanInf at h
  cases s with
  | nil =>
    simp only [Option.some.injEq, Prod.mk.injEq] at h
    rw [← h.2]
  | cons c cs =>
    simp only at h
    by_cases hc : c.toLower = 'i'
    · rw [if_pos hc] at h
      cases ha : afterWord ['n', 'i', 't', 'y'] cs with
      | none =>
        rw [ha] at h
        cases h
      | some r2 =>
        rw [ha] at h
        simp only [Option.map_some', Option.some.injEq, Prod.mk.injEq] at h
        have := afterWord_length _ _ ha
        rw [← h.2]
        simp only [List.length_cons]
        omega
    · rw [if_neg hc] at h
      simp only [Option.some.injEq, Prod.mk.injEq] at h
      rw [← h.2]

theorem scanDouble_length {l r : Lexeme} {q : Double} (h : scanDouble l = some (q, r)) :
    r.length < l.length := by
  unfold scanDouble at h
  have h2 := signOf_length l
  cases hs : (signOf l).2 with
  | nil =>
    rw [hs] at h
    cases h
  | cons c cs =>
    rw [hs] at h h2
    simp only [List.length_cons] at h2
    simp only at h
    by_cases hn : c.toLower = 'n'
    · rw [if_pos hn] at h
      cases ha : afterWord ['a', 'n'] cs with
      | none =>
        rw [ha] at h
        cases h
      | some r2 =>
        rw [ha] at h
        simp only [Option.map_some', Option.some.injEq, Prod.mk.injEq] at h
        have := afterWord_length _ _ ha
        rw [← h.2]
        omega
    · rw [if_neg hn] at h
      by_cases hi : c.toLower = 'i'
      · rw [if_pos hi] at h
        cases ha : afterWord ['n', 'f'] cs with
        | none =>
          rw [ha] at h
          cases h
        | some r2 =>
          rw [ha] at h
          simp only [Option.some_bind] at h
          have h3 := afterWord_length _ _ ha
          have h4 := scanInf_length h
          omega
      · rw [if_neg hi] at h
        by_cases hx : c = '0' ∧ (cs.head?.map Char.toLower) = some 'x'
        · rw [if_pos hx] at h
          have h3 := scanHex_length h
          have h4 : cs.tail.length ≤ cs.length := by simp
          omega
        · rw [if_neg hx] at h
          have h3 := scanDecimal_length h
          simp only [List.length_cons] at h3
          omega

theorem lexTok_length {tok : Tok} {l r : Lexeme} (h : lexTok tok l = some r) :
    r.length < l.length := by
  cases tok with
  | int z =>
    simp only [lexTok] at h
    cases hs : scanInt l with
    | none =>
      rw [hs] at h
      cases h
    | some p =>
      obtain ⟨z2, r2⟩ := p
      rw [hs] at h
      by_cases hz : z2 = z
      · simp only [hz, if_true, Option.some.injEq] at h
        subst h
        exact scanInt_length hs
      · simp only [hz, if_false] at h
        cases h
  | dbl q =>
    simp only [lexTok] at h
    cases hs : scanDouble l with
    | none =>
      rw [hs] at h
      cases h
    | some p =>
      obtain ⟨q2, r2⟩ := p
      rw [hs] at h
      by_cases hq : q2 = q
      · simp only [hq, if_true, Option.some.injEq] at h
        subst h
        exact scanDouble_length hs
      · simp only [hq, if_false] at h
        cases h

theorem chars_putBack (r : Lexeme) (s : FileStream) : chars (putBack r s) = r.length + chars s := by
  cases r with
  | nil => simp [putBack, chars]
  | cons c cs => simp [putBack, chars]

theorem scanTok_chars {tok : Tok} {s s2 : FileStream} (h : scanTok tok s = some s2) :
    chars s2 < chars s := by
  cases s with
  | nil =>
    rw [scanTok_nil] at h
    cases h
  | cons l s0 =>
    obtain ⟨r, hr, e⟩ := scanTok_cons_some.1 h
    subst e
    have := lexTok_length hr
    rw [chars_putBack]
    simp only [chars, List.map_cons, List.sum_cons]
    omega

theorem scanToks_chars {toks : List Tok} :
    ∀ {s r : FileStream}, scanToks toks s = some r → chars r ≤ chars s := by
  induction toks with
  | nil =>
    intro s r h
    simp only [scanToks, Option.some.injEq] at h
    subst h
    exact le_rfl
  | cons tok toks ih =>
    intro s r h
    obtain ⟨s1, h1, h2⟩ := scanToks_cons.1 h
    have := scanTok_chars h1
    have := ih h2
    omega

/-- When the conversions leave exactly `rest`, they read nothing of `rest`. -/
theorem scanToks_cancel {toks : List Tok} :
    ∀ {c rest : FileStream}, scanToks toks (c ++ rest) = some rest →
      scanToks toks c = some [] := by
  induction toks with
  | nil =>
    intro c rest h
    simp only [scanToks, Option.some.injEq] at h
    have : c = [] := by
      have hl := congrArg List.length h
      simp only [List.length_append] at hl
      exact List.length_eq_zero.1 (by omega)
    subst this
    rfl
  | cons tok toks ih =>
    intro c rest h
    obtain ⟨s1, h1, h2⟩ := scanToks_cons.1 h
    cases c with
    | nil =>
      exfalso
      have := scanTok_chars h1
      have := scanToks_chars h2
      simp only [List.nil_append] at *
      omega
    | cons l c0 =>
      rw [List.cons_append] at h1
      obtain ⟨r, hr, e⟩ := scanTok_cons_some.1 h1
      rw [putBack_append] at e
      subst e
      exact scanToks_cons.2 ⟨_, scanTok_cons_some.2 ⟨r, hr, rfl⟩, ih h2⟩

/-- What a successful run fixes about the file: it reads at most one lexeme per
value; every file that delivers the same values gives the same result; and when
the run leaves `rest` after the lexemes `c`, these are one lexeme per value
exactly when each of them is the text of its value, and the run gives the same
result on `c` followed by anything else. -/
theorem Trace.consumed {α : Type} {m : Load α} {t rest : FileStream} {a : α} {toks : List Tok}
    (T : Trace m t a rest toks) :
    t.length ≤ rest.length + toks.length ∧
    (∀ t2 rest2 : FileStream, scanToks toks t2 = some rest2 → m t2 = .ok (a, rest2)) ∧
    ∀ c : FileStream, t = c ++ rest →
      c.length ≤ toks.length ∧
      (List.Forall₂ Denotes c toks ↔ c.length = toks.length) ∧
      ∀ rest2 : FileStream, m (c ++ rest2) = .ok (a, rest2) := by
  refine ⟨(scanToks_length T.scan).2, T.same, ?_⟩
  intro c hc
  subst hc
  have hs := T.scan
  refine ⟨?_, ⟨fun hd => hd.length_eq, fun hl => denotes_of_scanToks hs hl⟩, ?_⟩
  · have := (scanToks_length hs).2
    simp only [List.length_append] at this
    omega
  · intro rest2
    have := scanToks_extend rest2 (scanToks_cancel hs)
    exact T.same _ _ (by simpa using this)

theorem consumed_of_trace {α : Type} {m : Load α} {t rest : FileStream} {a : α}
    {toks : List Tok} (T : Trace m t a rest toks) (F : Nat) (hF : toks.length = F) :
    m t = .ok (a, rest) ∧ scanToks toks t = some rest ∧ toks.length = F ∧
    t.length ≤ rest.length + F ∧
    (∀ t2 rest2 : FileStream, scanToks toks t2 = some rest2 →
      returnTrue (m t2) = .ok (true, a)) ∧
    ∀ c : FileStream, t = c ++ rest →
      c.length ≤ F ∧ (List.Forall₂ Denotes c toks ↔ c.length = F) ∧
      ∀ rest2 : FileStream, returnTrue (m (c ++ rest2)) = .ok (true, a) := by
  obtain ⟨h1, h2, h3⟩ := T.consumed
  subst hF
  refine ⟨T.run, T.scan, rfl, h1, fun t2 rest2 hs => returnTrue_ok.2 ⟨rfl, _, h2 t2 rest2 hs⟩, ?_⟩
  intro c hc
  obtain ⟨h4, h5, h6⟩ := h3 c hc
  exact ⟨h4, h5, fun rest2 => returnTrue_ok.2 ⟨rfl, _, h6 rest2⟩⟩

theorem SingleViewPoseAdjustmentProblem.pose_written_length
    {p : SingleViewPoseAdjustmentProblem} (wf : p.WellFormed) :
    p.written.length =
      17 + 6 * p.numPts_.toNat + p.numVec_.toNat * (3 * p.numPts_.toNat + 1) := by
  have h0 := wf.numPts_nonneg
  have h0v := wf.numVec_nonneg
  have h1 := wf.len_carCenter
  have h2 := wf.len_K
  have h3 := wf.len_observations
  have h4 := wf.len_observationWeights
  have h5 := wf.len_X_bar
  have h6 := wf.len_V
  have h7 := wf.len_lambdas
  have hV : p.V_.length = p.numVec_.toNat * (3 * p.numPts_.toNat) := by
    have : (p.V_.length : Int) = ((p.numVec_.toNat * (3 * p.numPts_.toNat) : Nat) : Int) := by
      rw [h6]
      push_cast
      rw [Int.toNat_of_nonneg h0, Int.toNat_of_nonneg h0v]
      ring
    exact_mod_cast this
  simp only [written, List.length_append, cells_length, List.length_cons, List.length_nil, hV,
    Nat.mul_add, Nat.mul_one]
  omega

theorem SingleViewShapeAdjustmentProblem.shape_written_length
    {p : SingleViewShapeAdjustmentProblem} (wf : p.WellFormed) :
    p.written.length =
      29 + 6 * p.numPts_.toNat + p.numVec_.toNat * (3 * p.numPts_.toNat + 1) := by
  have h0 := wf.numPts_nonneg
  have h0v := wf.numVec_nonneg
  have h1 := wf.len_carCenter
  have h2 := wf.len_K
  have h3 := wf.len_observations
  have h4 := wf.len_observationWeights
  have h5 := wf.len_X_bar
  have h6 := wf.len_V
  have h7 := wf.len_lambdas
  have h8 := wf.len_rot
  have h9 := wf.len_trans
  have hV : p.V_.length = p.numVec_.toNat * (3 * p.numPts_.toNat) := by
    have : (p.V_.length : Int) = ((p.numVec_.toNat * (3 * p.numPts_.toNat) : Nat) : Int) := by
      rw [h6]
      push_cast
      rw [Int.toNat_of_nonneg h0, Int.toNat_of_nonneg h0v]
      ring
    exact_mod_cast this
  simp only [written, List.length_append, cells_length, List.length_cons, List.length_nil, hV,
    Nat.mul_add, Nat.mul_one]
  omega

theorem GroundPlaneAdjustmentProblem.ground_written_length
    {p : GroundPlaneAdjustmentProblem} (wf : p.WellFormed) :
    p.written.length = 15 + 3 * p.numPoints_.toNat + 12 * p.numViews_.toNat +
      2 * p.numPoints_.toNat * p.numViews_.toNat := by
  have h0 := wf.numViews_nonneg
  have h0p := wf.numPoints_nonneg
  have h2 := wf.len_K
  have h3 := wf.len_Xs
  have h4 := wf.len_Rs
  have h5 := wf.len_ts
  have h6 := wf.len_xs
  have h7 := wf.len_plane
  have hx : p.xs_.length = 2 * p.numPoints_.toNat * p.numViews_.toNat := by
    have : (p.xs_.length : Int) =
        ((2 * p.numPoints_.toNat * p.numViews_.toNat : Nat) : Int) := by
      rw [h6]
      push_cast
      rw [Int.toNat_of_nonneg h0, Int.toNat_of_nonneg h0p]
    exact_mod_cast this
  simp only [written, List.length_append, cells_length, List.length_cons, List.length_nil, hx]
  omega

theorem MultiViewShapeandPoseAdjuster.multi_written_length
    {p : MultiViewShapeandPoseAdjuster} (wf : p.WellFormed) :
    p.written.length = 16 + 15 * p.numViews_.toNat +
      6 * p.numViews_.toNat * p.numObs_.toNat +
      3 * p.numViews_.toNat * p.numVec_.toNat * p.numPts_.toNat + p.numVec_.toNat := by
  obtain ⟨lK, lc, lo, lw, lx, lV, ll, lr, lt⟩ :=
    MultiViewShapeandPoseAdjuster.multi_nat_lengths wf
  simp only [written, List.length_append, cells_length, List.length_cons, List.length_nil, lK,
    lc, lo, lw, lx, lV, ll, lr, lt]
  have e1 : 6 * p.numViews_.toNat * p.numObs_.toNat =
      6 * (p.numViews_.toNat * p.numObs_.toNat) := by ring
  have e2 : 3 * p.numViews_.toNat * p.numVec_.toNat * p.numPts_.toNat =
      p.numViews_.toNat * p.numVec_.toNat * p.numPts_.toNat * 3 := by ring
  omega

/-- C17, amended: a successful load performs an exactly determined number of
conversions, `17 + 6*n + v*(3*n + 1)` for `SingleViewPoseAdjustmentProblem`
(`n = numPts`, `v = numVec`), `29 + 6*n + v*(3*n + 1)` for
`SingleViewShapeAdjustmentProblem`, `15 + 3*P + 12*W + 2*P*W` for
`GroundPlaneAdjustmentProblem` (`W = numViews`, `P = numPoints`) and
`16 + 15*W + 6*W*O + 3*W*v*P + v` for `MultiViewShapeandPoseAdjuster`
(`O = numObs`), and nothing after them matters.  It reads at most that many
tokens of the file, exactly that many when each token read is the text of one
value (a token can feed two conversions); every file whose conversions deliver
the same values loads successfully into the identical instance; and when the
load leaves `rest` after the tokens `c`, the load of `c` followed by anything
else succeeds with the identical instance. -/
theorem C17_values_read_and_prefix_determinism :
    (∀ (self p : SingleViewPoseAdjustmentProblem) (t : FileStream),
      self.loadFile (some t) = .ok (true, p) →
      ∃ rest, self.loadStream t = .ok (p, rest) ∧ scanToks p.written t = some rest ∧
        p.written.length =
          17 + 6 * p.getNumPts.toNat + p.getNumVec.toNat * (3 * p.getNumPts.toNat + 1) ∧
        t.length ≤ rest.length +
          (17 + 6 * p.getNumPts.toNat + p.getNumVec.toNat * (3 * p.getNumPts.toNat + 1)) ∧
        (∀ t2 rest2 : FileStream, scanToks p.written t2 = some rest2 →
          self.loadFile (some t2) = .ok (true, p)) ∧
        ∀ c : FileStream, t = c ++ rest →
          c.length ≤
            17 + 6 * p.getNumPts.toNat + p.getNumVec.toNat * (3 * p.getNumPts.toNat + 1) ∧
          (List.Forall₂ Denotes c p.written ↔ c.length =
            17 + 6 * p.getNumPts.toNat + p.getNumVec.toNat * (3 * p.getNumPts.toNat + 1)) ∧
          ∀ rest2 : FileStream, self.loadFile (some (c ++ rest2)) = .ok (true, p)) ∧
    (∀ (self p : SingleViewShapeAdjustmentProblem) (t : FileStream),
      self.loadFile (some t) = .ok (true, p) →
      ∃ rest, self.loadStream t = .ok (p, rest) ∧ scanToks p.written t = some rest ∧
        p.written.length =
          29 + 6 * p.getNumPts.toNat + p.getNumVec.toNat * (3 * p.getNumPts.toNat + 1) ∧
        t.length ≤ rest.length +
          (29 + 6 * p.getNumPts.toNat + p.getNumVec.toNat * (3 * p.getNumPts.toNat + 1)) ∧
        (∀ t2 rest2 : FileStream, scanToks p.written t2 = some rest2 →
          self.loadFile (some t2) = .ok (true, p)) ∧
        ∀ c : FileStream, t = c ++ rest →
          c.length ≤
            29 + 6 * p.getNumPts.toNat + p.getNumVec.toNat * (3 * p.getNumPts.toNat + 1) ∧
          (List.Forall₂ Denotes c p.written ↔ c.length =
            29 + 6 * p.getNumPts.toNat + p.getNumVec.toNat * (3 * p.getNumPts.toNat + 1)) ∧
          ∀ rest2 : FileStream, self.loadFile (some (c ++ rest2)) = .ok (true, p)) ∧
    (∀ (self p : GroundPlaneAdjustmentProblem) (t : FileStream),
      self.loadFile (some t) = .ok (true, p) →
      ∃ rest, self.loadStream t = .ok (p, rest) ∧ scanToks p.written t = some rest ∧
        p.written.length = 15 + 3 * p.numPoints_.toNat + 12 * p.numViews_.toNat +
          2 * p.numPoints_.toNat * p.numViews_.toNat ∧
        t.length ≤ rest.length + (15 + 3 * p.numPoints_.toNat + 12 * p.numViews_.toNat +
          2 * p.numPoints_.toNat * p.numViews_.toNat) ∧
        (∀ t2 rest2 : FileStream, scanToks p.written t2 = some rest2 →
          self.loadFile (some t2) = .ok (true, p)) ∧
        ∀ c : FileStream, t = c ++ rest →
          c.length ≤ 15 + 3 * p.numPoints_.toNat + 12 * p.numViews_.toNat +
            2 * p.numPoints_.toNat * p.numViews_.toNat ∧
          (List.Forall₂ Denotes c p.written ↔ c.length =
            15 + 3 * p.numPoints_.toNat + 12 * p.numViews_.toNat +
              2 * p.numPoints_.toNat * p.numViews_.toNat) ∧
          ∀ rest2 : FileStream, self.loadFile (some (c ++ rest2)) = .ok (true, p)) ∧
    (∀ (self p : MultiViewShapeandPoseAdjuster) (t : FileStream),
      self.loadFile (some t) = .ok (true, p) →
      ∃ rest, self.loadStream t = .ok (p, rest) ∧ scanToks p.written t = some rest ∧
        p.written.length = 16 + 15 * p.getNumViews.toNat +
          6 * p.getNumViews.toNat * p.getNumObs.toNat +
          3 * p.getNumViews.toNat * p.getNumVec.toNat * p.getNumPts.toNat +
          p.getNumVec.toNat ∧
        t.length ≤ rest.length + (16 + 15 * p.getNumViews.toNat +
          6 * p.getNumViews.toNat * p.getNumObs.toNat +
          3 * p.getNumViews.toNat * p.getNumVec.toNat * p.getNumPts.toNat +
          p.getNumVec.toNat) ∧
        (∀ t2 rest2 : FileStream, scanToks p.written t2 = some rest2 →
          self.loadFile (some t2) = .ok (true, p)) ∧
        ∀ c : FileStream, t = c ++ rest →
          c.length ≤ 16 + 15 * p.getNumViews.toNat +
            6 * p.getNumViews.toNat * p.getNumObs.toNat +
            3 * p.getNumViews.toNat * p.getNumVec.toNat * p.getNumPts.toNat +
            p.getNumVec.toNat ∧
          (List.Forall₂ Denotes c p.written ↔ c.length =
            16 + 15 * p.getNumViews.toNat +
              6 * p.getNumViews.toNat * p.getNumObs.toNat +
              3 * p.getNumViews.toNat * p.getNumVec.toNat * p.getNumPts.toNat +
              p.getNumVec.toNat) ∧
          ∀ rest2 : FileStream, self.loadFile (some (c ++ rest2)) = .ok (true, p)) := by
  refine ⟨?_, ?_, ?_, ?_⟩
  · intro self p t h
    obtain ⟨_, rest, hl⟩ := returnTrue_ok.1 h
    obtain ⟨T, wf, _⟩ := SingleViewPoseAdjustmentProblem.pose_loadStream_trace hl
    exact ⟨rest, consumed_of_trace T _ (SingleViewPoseAdjustmentProblem.pose_written_length wf)⟩
  · intro self p t h
    obtain ⟨_, rest, hl⟩ := returnTrue_ok.1 h
    obtain ⟨T, wf⟩ := SingleViewShapeAdjustmentProblem.shape_loadStream_trace hl
    exact ⟨rest, consumed_of_trace T _ (SingleViewShapeAdjustmentProblem.shape_written_length wf)⟩
  · intro self p t h
    obtain ⟨_, rest, hl⟩ := returnTrue_ok.1 h
    obtain ⟨T, wf⟩ := GroundPlaneAdjustmentProblem.ground_loadStream_trace hl
    exact ⟨rest, consumed_of_trace T _ (GroundPlaneAdjustmentProblem.ground_written_length wf)⟩
  · intro self p t h
    obtain ⟨_, rest, hl⟩ := returnTrue_ok.1 h
    obtain ⟨T, wf⟩ := MultiViewShapeandPoseAdjuster.multi_loadStream_trace hl
    exact ⟨rest, consumed_of_trace T _ (MultiViewShapeandPoseAdjuster.multi_written_length wf)⟩

theorem C17_values_read_and_prefix_determinism_witness :
    (SingleViewPoseAdjustmentProblem.blank.loadFile (some poseFile) = .ok (true, poseLoaded) ∧
      ∃ rest, SingleViewPoseAdjustmentProblem.blank.loadStream poseFile =
          .ok (poseLoaded, rest) ∧
        scanToks poseLoaded.written poseFile = some rest ∧
        poseLoaded.written.length = 17 + 6 * poseLoaded.getNumPts.toNat +
          poseLoaded.getNumVec.toNat * (3 * poseLoaded.getNumPts.toNat + 1) ∧
        poseFile.length ≤ rest.length + (17 + 6 * poseLoaded.getNumPts.toNat +
          poseLoaded.getNumVec.toNat * (3 * poseLoaded.getNumPts.toNat + 1)) ∧
        (∀ t2 rest2 : FileStream, scanToks poseLoaded.written t2 = some rest2 →
          SingleViewPoseAdjustmentProblem.blank.loadFile (some t2) = .ok (true, poseLoaded)) ∧
        ∀ c : FileStream, poseFile = c ++ rest →
          c.length ≤ 17 + 6 * poseLoaded.getNumPts.toNat +
            poseLoaded.getNumVec.toNat * (3 * poseLoaded.getNumPts.toNat + 1) ∧
          (List.Forall₂ Denotes c poseLoaded.written ↔ c.length =
            17 + 6 * poseLoaded.getNumPts.toNat +
              poseLoaded.getNumVec.toNat * (3 * poseLoaded.getNumPts.toNat + 1)) ∧
          ∀ rest2 : FileStream,
            SingleViewPoseAdjustmentProblem.blank.loadFile (some (c ++ rest2)) =
              .ok (true, poseLoaded)) ∧
    (SingleViewShapeAdjustmentProblem.blank.loadFile (some shapeFile) = .ok (true, shapeLoaded) ∧
      ∃ rest, SingleViewShapeAdjustmentProblem.blank.loadStream shapeFile =
          .ok (shapeLoaded, rest) ∧
        scanToks shapeLoaded.written shapeFile = some rest ∧
        shapeLoaded.written.length = 29 + 6 * shapeLoaded.getNumPts.toNat +
          shapeLoaded.getNumVec.toNat * (3 * shapeLoaded.getNumPts.toNat + 1)) ∧
    (GroundPlaneAdjustmentProblem.blank.loadFile (some groundFile) = .ok (true, groundLoaded) ∧
      ∃ rest, GroundPlaneAdjustmentProblem.blank.loadStream groundFile =
          .ok (groundLoaded, rest) ∧
        scanToks groundLoaded.written groundFile = some rest ∧
        groundLoaded.written.length = 15 + 3 * groundLoaded.numPoints_.toNat +
          12 * groundLoaded.numViews_.toNat +
          2 * groundLoaded.numPoints_.toNat * groundLoaded.numViews_.toNat) ∧
    (MultiViewShapeandPoseAdjuster.blank.loadFile (some multiFile) = .ok (true, multiLoaded) ∧
      ∃ rest, MultiViewShapeandPoseAdjuster.blank.loadStream multiFile =
          .ok (multiLoaded, rest) ∧
        scanToks multiLoaded.written multiFile = some rest ∧
        multiLoaded.written.length = 16 + 15 * multiLoaded.getNumViews.toNat +
          6 * multiLoaded.getNumViews.toNat * multiLoaded.getNumObs.toNat +
          3 * multiLoaded.getNumViews.toNat * multiLoaded.getNumVec.toNat *
            multiLoaded.getNumPts.toNat + multiLoaded.getNumVec.toNat) :=
  have hp : SingleViewPoseAdjustmentProblem.blank.loadFile (some poseFile) =
      .ok (true, poseLoaded) := by decide!
  have hs : SingleViewShapeAdjustmentProblem.blank.loadFile (some shapeFile) =
      .ok (true, shapeLoaded) := by decide!
  have hg : GroundPlaneAdjustmentProblem.blank.loadFile (some groundFile) =
      .ok (true, groundLoaded) := by decide!
  have hm : MultiViewShapeandPoseAdjuster.blank.loadFile (some multiFile) =
      .ok (true, multiLoaded) := by decide!
  ⟨⟨hp, C17_values_read_and_prefix_determinism.1 _ _ _ hp⟩,
   ⟨hs, match C17_values_read_and_prefix_determinism.2.1 _ _ _ hs with
     | ⟨rest, h1, h2, h3, _⟩ => ⟨rest, h1, h2, h3⟩⟩,
   ⟨hg, match C17_values_read_and_prefix_determinism.2.2.1 _ _ _ hg with
     | ⟨rest, h1, h2, h3, _⟩ => ⟨rest, h1, h2, h3⟩⟩,
   ⟨hm, match C17_values_read_and_prefix_determinism.2.2.2 _ _ _ hm with
     | ⟨rest, h1, h2, h3, _⟩ => ⟨rest, h1, h2, h3⟩⟩⟩

/-! ## C18: a file that cannot be opened -/

/-- C18: for each of the four loaders, a `loadFile` call whose `fopen` returns
`NULL` returns `false` and leaves the instance as it was before the call: the
instance after the call is the instance before it, so every accessor returns
what it returned before.  In particular, when the instance had been loaded
successfully from a file `t`, it still holds, after the failed call, the values
that the conversions on `t` delivered. -/
theorem C18_open_failure_keeps_the_instance :
    (∀ self : SingleViewPoseAdjustmentProblem, ∃ q,
      self.loadFile none = .ok (false, q) ∧ q = self ∧
      q.getNumPts = self.getNumPts ∧ q.getCarCenter = self.getCarCenter ∧
      q.getCarHeight = self.getCarHeight ∧ q.getCarWidth = self.getCarWidth ∧
      q.getCarLength = self.getCarLength ∧ q.getK = self.getK ∧
      q.observations = self.observations ∧ q.observationWeights = self.observationWeights ∧
      q.getX_bar = self.getX_bar ∧ q.getNumVec = self.getNumVec ∧ q.getV = self.getV ∧
      q.getLambdas = self.getLambdas ∧
      ∀ (first : SingleViewPoseAdjustmentProblem) (t : FileStream),
        first.loadFile (some t) = .ok (true, self) →
          ∃ rest, scanToks q.written t = some rest) ∧
    (∀ self : GroundPlaneAdjustmentProblem, ∃ q,
      self.loadFile none = .ok (false, q) ∧ q = self ∧
      q.getNumViews = self.getNumViews ∧ q.getNumPts = self.getNumPts ∧ q.getK = self.getK ∧
      q.get3DPts = self.get3DPts ∧ q.getRs = self.getRs ∧ q.getts = self.getts ∧
      q.get2DPts = self.get2DPts ∧ q.getPlaneParameters = self.getPlaneParameters ∧
      ∀ (first : GroundPlaneAdjustmentProblem) (t : FileStream),
        first.loadFile (some t) = .ok (true, self) →
          ∃ rest, scanToks q.written t = some rest) ∧
    (∀ self : SingleViewShapeAdjustmentProblem, ∃ q,
      self.loadFile none = .ok (false, q) ∧ q = self ∧
      q.getNumPts = self.getNumPts ∧ q.getCarCenter = self.getCarCenter ∧
      q.getCarHeight = self.getCarHeight ∧ q.getCarWidth = self.getCarWidth ∧
      q.getCarLength = self.getCarLength ∧ q.getK = self.getK ∧
      q.observations = self.observations ∧ q.observationWeights = self.observationWeights ∧
      q.getX_bar = self.getX_bar ∧ q.getNumVec = self.getNumVec ∧ q.getV = self.getV ∧
      q.getLambdas = self.getLambdas ∧ q.getRot = self.getRot ∧ q.getTrans = self.getTrans ∧
      ∀ (first : SingleViewShapeAdjustmentProblem) (t : FileStream),
        first.loadFile (some t) = .ok (true, self) →
          ∃ rest, scanToks q.written t = some rest) ∧
    (∀ self : MultiViewShapeandPoseAdjuster, ∃ q,
      self.loadFile none = .ok (false, q) ∧ q = self ∧
      q.getNumViews = self.getNumViews ∧ q.getNumObs = self.getNumObs ∧
      q.getNumPts = self.getNumPts ∧ q.getCarCenter = self.getCarCenter ∧
      q.getCarHeight = self.getCarHeight ∧ q.getCarWidth = self.getCarWidth ∧
      q.getCarLength = self.getCarLength ∧ q.getK = self.getK ∧
      q.observations = self.observations ∧ q.observationWeights = self.observationWeights ∧
      q.getX_bar = self.getX_bar ∧ q.getNumVec = self.getNumVec ∧ q.getV = self.getV ∧
      q.getLambdas = self.getLambdas ∧ q.getRotations = self.getRotations ∧
      q.getTranslations = self.getTranslations ∧
      ∀ (first : MultiViewShapeandPoseAdjuster) (t : FileStream),
        first.loadFile (some t) = .ok (true, self) →
          ∃ rest, scanToks q.written t = some rest) := by
  refine ⟨?_, ?_, ?_, ?_⟩
  · intro self
    refine ⟨self, rfl, rfl, rfl, rfl, rfl, rfl, rfl, rfl, rfl, rfl, rfl, rfl, rfl, rfl, ?_⟩
    intro first t h
    obtain ⟨_, rest, hl⟩ := returnTrue_ok.1 h
    exact ⟨rest, (SingleViewPoseAdjustmentProblem.pose_loadStream_trace hl).1.scan⟩
  · intro self
    refine ⟨self, rfl, rfl, rfl, rfl, rfl, rfl, rfl, rfl, rfl, rfl, ?_⟩
    intro first t h
    obtain ⟨_, rest, hl⟩ := returnTrue_ok.1 h
    exact ⟨rest, (GroundPlaneAdjustmentProblem.ground_loadStream_trace hl).1.scan⟩
  · intro self
    refine ⟨self, rfl, rfl, rfl, rfl, rfl, rfl, rfl, rfl, rfl, rfl, rfl, rfl, rfl, rfl, rfl, rfl,
      ?_⟩
    intro first t h
    obtain ⟨_, rest, hl⟩ := returnTrue_ok.1 h
    exact ⟨rest, (SingleViewShapeAdjustmentProblem.shape_loadStream_trace hl).1.scan⟩
  · intro self
    refine ⟨self, rfl, rfl, rfl, rfl, rfl, rfl, rfl, rfl, rfl, rfl, rfl, rfl, rfl, rfl, rfl, rfl,
      rfl, rfl, ?_⟩
    intro first t h
    obtain ⟨_, rest, hl⟩ := returnTrue_ok.1 h
    exact ⟨rest, (MultiViewShapeandPoseAdjuster.multi_loadStream_trace hl).1.scan⟩

theorem C18_open_failure_keeps_the_instance_witness :
    SingleViewPoseAdjustmentProblem.blank.loadFile (some poseFile) = .ok (true, poseLoaded) ∧
    ∃ q, poseLoaded.loadFile none = .ok (false, q) ∧ q = poseLoaded ∧
      ∃ rest, scanToks q.written poseFile = some rest :=
  have hp : SingleViewPoseAdjustmentProblem.blank.loadFile (some poseFile) =
      .ok (true, poseLoaded) := by decide!
  match C18_open_failure_keeps_the_instance.1 poseLoaded with
  | ⟨q, h1, h2, h3⟩ => ⟨hp, q, h1, h2, by
      subst h2
      exact h3.2.2.2.2.2.2.2.2.2.2.2.2 _ _ hp⟩

/-! ## Reading from the front only -/

/-- C6, as stated, fails: on `poseFileBadCount` the load succeeds and consumes
the 35 tokens `2.5 1 2 3 ...`, while the fields written out in field order are
the 36 values `2 0.5 1 2 3 ...`: the first token feeds the conversion of the
count and the next one, so the written sequence is not the sequence of the
tokens consumed. -/
theorem C6_written_is_not_the_tokens_counterexample :
    SingleViewPoseAdjustmentProblem.blank.loadStream poseFileBadCount =
      .ok (poseShifted, lexemes ["0.0"]) ∧
    poseFileBadCount = poseFileShort ++ lexemes ["0.0"] ∧
    poseFileShort.length = 35 ∧ poseShifted.written.length = 36 ∧
    poseFileShort[0]? = some ['2', '.', '5'] ∧
    scanDouble ['2', '.', '5'] = some (2.5, []) ∧
    poseShifted.written[0]? = some (Tok.int 2) ∧
    poseShifted.written[1]? = some (Tok.dbl 0.5) ∧
    ¬ List.Forall₂ Denotes poseFileShort poseShifted.written :=
  ⟨by decide!, by decide!, by decide!, by decide!, by decide!, by decide!, by decide!,
    by decide!, fun h => absurd h.length_eq (by decide!)⟩

/-- C13, as stated, fails: on `groundFileSplit`, whose second token `1.5` is
read as `numPoints = 1` and leaves `.5` for `K[0]`, the load succeeds with
`numViews = 1` and `numPoints = 1`, and `Xs[0]` is 1.5, the value of token 10,
while token `11 + 3*0 + 0` is `-2`. -/
theorem C13_split_token_counterexample :
    GroundPlaneAdjustmentProblem.blank.loadFile (some groundFileSplit) =
      .ok (true, groundSplitLoaded) ∧
    groundSplitLoaded.numViews_ = 1 ∧ groundSplitLoaded.numPoints_ = 1 ∧
    groundSplitLoaded.get3DPts[3 * 0 + 0]? = some (some (1.5 : Double)) ∧
    groundFileSplit[11 + 3 * 0 + 0]? = some ['-', '2'] ∧
    scanDouble ['-', '2'] = some (-2, []) ∧
    groundFileSplit[10]? = some ['1', '.', '5'] ∧
    scanDouble ['1', '.', '5'] = some (1.5, []) ∧
    (1.5 : Double) ≠ -2 := by
  decide!

/-- C17, as stated, fails: the file `poseFileShort` has 35 tokens, and the pose
loader succeeds on it with `numPts = 2` and `numVec = 1`, for which the formula
gives 36 tokens. -/
theorem C17_fewer_tokens_counterexample :
    SingleViewPoseAdjustmentProblem.blank.loadFile (some poseFileShort) =
      .ok (true, poseShifted) ∧
    poseFileShort.length = 35 ∧
    17 + 6 * poseShifted.getNumPts.toNat +
      poseShifted.getNumVec.toNat * (3 * poseShifted.getNumPts.toNat + 1) = 36 := by
  decide!
